import Mathlib

/-!
Verification of the ReFoodAI backend computational core against its
natural-language specification.

The backend services (`statistics.ts`, `dashboardService.ts` containing the
`ForecastService` and `PlannerService` classes, `uploadService.ts` containing
the `TrackerService` class, `impactService.ts`, and the second forecast
implementation `ForecastModel`) are shallowly embedded below.  JavaScript
numbers are modelled as rationals (`ℚ`) except where a square root is
inherent (Pearson correlation, confidence margins, cross-validation
accuracy), which are modelled over `ℝ`; division by zero yields `0` in this
model (JavaScript would produce `NaN`/`Infinity`; the verified paths never
branch on such values except where noted in comments).  JavaScript
`Date`/clock/random effects are modelled as explicit oracle parameters.

The file is organised as: all definitions first, then all theorems.
-/

namespace ReFood

/-- JavaScript `Math.round`: rounds half-way cases toward positive infinity
(`Rat.floor` is used rather than `Int.floor` so that concrete values reduce
in the kernel; `jsRound_eq_floor` below identifies the two). -/
def jsRound (q : ℚ) : ℤ := Rat.floor (q + 1/2)

/-- JavaScript `Math.max` on two numbers. -/
def jsMax (a b : ℚ) : ℚ := max a b

/-- JavaScript `Math.min` on two numbers. -/
def jsMin (a b : ℚ) : ℚ := min a b

/-- Average of a list of rationals; the empty list yields `0` (JavaScript
would yield `NaN = 0/0`; the embedding collapses it to `0`). -/
def listAvg (l : List ℚ) : ℚ := l.sum / l.length

/-- JavaScript `opt || dflt` for an optional number: `undefined` and `0` are
falsy, so both are replaced by the default. -/
def orNum (o : Option ℚ) (dflt : ℚ) : ℚ :=
  match o with
  | none => dflt
  | some v => if v = 0 then dflt else v

/-- JavaScript `opt || dflt` for an optional string: `undefined` and the
empty string are falsy. -/
def orStr (o : Option String) (dflt : String) : String :=
  match o with
  | none => dflt
  | some s => if s = "" then dflt else s

/-- JavaScript `l.slice(-k)`: the last `k` elements. -/
def sliceLast (l : List α) (k : ℕ) : List α := l.drop (l.length - k)

/-- JavaScript `l.slice(-a, -b)` for `a > b`: the window of length `a - b`
ending `b` elements before the end (clipped at the front of the list). -/
def sliceNeg (l : List α) (a b : ℕ) : List α :=
  (l.drop (l.length - a)).take ((l.length - b) - (l.length - a))

namespace Statistics

/-! Embedding of `backend/src/ai/utils/statistics.ts` (class `Statistics`),
restricted to the routines the claims exercise: `correlation` and the
multiple-regression stack (`transpose`, `multiplyMatrices`,
`multiplyMatrixVector`, `solveLinearSystem`, `predictWithCoefficients`,
`multipleRegression`).  The correlation routine is modelled over `ℝ` because
of `Math.sqrt`.  The source computes `sumXY` as
`x.reduce((acc, xi, i) => acc + xi * y[i], 0)`, which for equal-length
vectors is the sum of pointwise products; the embedding uses `zip`, which
agrees whenever `x.length = y.length` (the only case the claims and the
spec speak about). -/

/-- Sum of pointwise products (`sumXY` in `Statistics.correlation`). -/
def corrSumXY (x y : List ℝ) : ℝ := ((x.zip y).map fun p => p.1 * p.2).sum

/-- Numerator of `Statistics.correlation`: `n * sumXY - sumX * sumY` with
`n = x.length`. -/
def corrNum (x y : List ℝ) : ℝ :=
  (x.length : ℝ) * corrSumXY x y - x.sum * y.sum

/-- Square of the denominator of `Statistics.correlation`:
`(n * sumXX - sumX ^ 2) * (n * sumYY - sumY ^ 2)` with `n = x.length`. -/
def corrDenSq (x y : List ℝ) : ℝ :=
  ((x.length : ℝ) * (x.map fun v => v * v).sum - x.sum * x.sum) *
    ((x.length : ℝ) * (y.map fun v => v * v).sum - y.sum * y.sum)

open Classical in
/-- The `Statistics.correlation` (statistics.ts lines 115-127): Pearson
correlation; returns `0` when the denominator is `0`. -/
noncomputable def correlation (x y : List ℝ) : ℝ :=
  if Real.sqrt (corrDenSq x y) = 0 then 0
  else corrNum x y / Real.sqrt (corrDenSq x y)

/-- The `Statistics.transpose` (statistics.ts lines 177-179): transposition
driven by the column indices of the first row. -/
def transpose (m : List (List ℚ)) : List (List ℚ) :=
  match m with
  | [] => []
  | r :: _ => (List.range r.length).map fun j => m.map fun row => row.getD j 0

/-- The `Statistics.multiplyMatrices` (statistics.ts lines 181-194). -/
def multiplyMatrices (a b : List (List ℚ)) : List (List ℚ) :=
  a.map fun arow =>
    (List.range (b.headD []).length).map fun j =>
      (List.range b.length).foldl
        (fun s k => s + arow.getD k 0 * (b.getD k []).getD j 0) 0

/-- The `Statistics.multiplyMatrixVector` (statistics.ts lines 196-198). -/
def multiplyMatrixVector (m : List (List ℚ)) (v : List ℚ) : List ℚ :=
  m.map fun row =>
    (List.range row.length).foldl (fun s i => s + row.getD i 0 * v.getD i 0) 0

/-- Partial-pivot search of `Statistics.solveLinearSystem`: the row index in
`[i+1, n)` (starting from `i`) maximising `|aug[k][i]|`, with strictly
greater magnitude required to displace the current maximum.  JavaScript
arrays are modelled as lists throughout the solver; every index the source
writes to is in bounds. -/
def findPivotRow (aug : List (List ℚ)) (i : ℕ) : ℕ :=
  (List.range' (i + 1) (aug.length - (i + 1))).foldl
    (fun maxRow k =>
      if |(aug.getD k []).getD i 0| > |(aug.getD maxRow []).getD i 0| then k
      else maxRow)
    i

/-- Row swap used by the partial pivoting step. -/
def swapRows (aug : List (List ℚ)) (i j : ℕ) : List (List ℚ) :=
  let ri := aug.getD i []
  let rj := aug.getD j []
  (aug.set i rj).set j ri

/-- Forward elimination below row `i` (`Statistics.solveLinearSystem`,
inner loop): for each `k` in `[i+1, n)`, subtract
`factor = aug[k][i] / aug[i][i]` times row `i` from row `k` on the columns
`[i, n]`.  A zero pivot gives `factor = x / 0`, which this `ℚ` model
evaluates to `0` (JavaScript would produce `Infinity`/`NaN`). -/
def eliminateBelow (aug : List (List ℚ)) (i n : ℕ) : List (List ℚ) :=
  (List.range' (i + 1) (n - (i + 1))).foldl
    (fun aug k =>
      let rowi := aug.getD i []
      let rowk := aug.getD k []
      let factor := rowk.getD i 0 / rowi.getD i 0
      let rowk' := (List.range' i (n + 1 - i)).foldl
        (fun r j => r.set j (r.getD j 0 - factor * rowi.getD j 0)) rowk
      aug.set k rowk')
    aug

/-- The forward phase of `Statistics.solveLinearSystem`. -/
def forwardElim (aug : List (List ℚ)) (n : ℕ) : List (List ℚ) :=
  (List.range n).foldl
    (fun aug i => eliminateBelow (swapRows aug i (findPivotRow aug i)) i n)
    aug

/-- Back substitution of `Statistics.solveLinearSystem`:
`x[i] = (aug[i][n] - Σ_{j>i} aug[i][j] * x[j]) / aug[i][i]`. -/
def backSubst (aug : List (List ℚ)) (n : ℕ) : List ℚ :=
  (List.range n).reverse.foldl
    (fun x i =>
      let row := aug.getD i []
      let s := (List.range' (i + 1) (n - (i + 1))).foldl
        (fun s j => s - row.getD j 0 * x.getD j 0) (row.getD n 0)
      x.set i (s / row.getD i 0))
    (List.replicate n 0)

/-- The `Statistics.solveLinearSystem` (statistics.ts lines 200-235): Gaussian
elimination with partial pivoting on the augmented matrix `[A | b]`. -/
def solveLinearSystem (A : List (List ℚ)) (b : List ℚ) : List ℚ :=
  let n := A.length
  let aug := List.zipWith (fun row bi => row ++ [bi]) A b
  backSubst (forwardElim aug n) n

/-- The `Statistics.predictWithCoefficients` (statistics.ts lines 237-239). -/
def predictWithCoefficients (features coefficients : List ℚ) : ℚ :=
  (List.range features.length).foldl
    (fun s i => s + features.getD i 0 * coefficients.getD i 0) 0

/-- Result record of `Statistics.multipleRegression`. -/
structure RegressionOutput where
  coefficients : List ℚ
  r2 : ℚ
  deriving DecidableEq, Repr

/-- The `Statistics.multipleRegression` (statistics.ts lines 27-55): prepends an
intercept column of 1s and solves the normal equations. -/
def multipleRegression (X : List (List ℚ)) (y : List ℚ) : RegressionOutput :=
  let XI := X.map fun row => 1 :: row
  let XT := transpose XI
  let XTX := multiplyMatrices XT XI
  let XTy := multiplyMatrixVector XT y
  let coefficients := solveLinearSystem XTX XTy
  let yMean := y.sum / y.length
  let ssRes := (List.range y.length).foldl
    (fun s i =>
      s + (y.getD i 0 - predictWithCoefficients (XI.getD i []) coefficients) ^ 2)
    0
  let ssTot := (List.range y.length).foldl
    (fun s i => s + (y.getD i 0 - yMean) ^ 2) 0
  { coefficients := coefficients, r2 := 1 - ssRes / ssTot }

end Statistics

/-! Record types parsed by `backend/src/ai/utils/dataLoader.ts`. -/

/-- One row of `daily_food_production.csv` (`DailyProduction`). -/
structure DailyProduction where
  date : String
  day_of_week : String
  menu_item : String
  category : String
  quantity_prepared : ℚ
  quantity_served : ℚ
  quantity_wasted : ℚ
  waste_percentage : ℚ
  estimated_students : ℚ
  weather : String
  special_event : String
  temperature_f : ℚ
  deriving DecidableEq, Repr

/-- One row of `pickup_operations.csv` (`PickupOperation`). -/
structure PickupOperation where
  pickup_id : String
  date : String
  pickup_time : String
  source_location : String
  destination_partner : String
  food_type : String
  quantity_lbs : ℚ
  distance_miles : ℚ
  volunteer_driver : String
  transport_cost : ℚ
  meals_equivalent : ℚ
  co2_saved_lbs : ℚ
  pickup_status : String
  deriving DecidableEq, Repr

/-- One row of `external_factors.csv` (`ExternalFactor`). -/
structure ExternalFactor where
  date : String
  day_of_week : String
  month : String
  is_weekend : Bool
  is_holiday : Bool
  holiday_name : String
  weather_condition : String
  temperature_f : ℚ
  precipitation_inches : ℚ
  campus_event : String
  student_population_factor : ℚ
  semester_status : String
  local_event : String
  deriving DecidableEq, Repr

/-- One row of `menu_planning.csv` (`MenuPlanning`). -/
structure MenuPlanning where
  week_start_date : String
  menu_category : String
  dish_name : String
  dish_type : String
  preparation_time_hours : ℚ
  ingredient_cost_per_serving : ℚ
  selling_price : ℚ
  shelf_life_hours : ℚ
  popularity_score : ℚ
  nutritional_category : String
  season_appropriateness : String
  prep_difficulty : String
  equipment_needed : String
  allergens : String
  deriving DecidableEq, Repr

/-- One row of `impact_tracking.csv` (`ImpactTracking`). -/
structure ImpactTracking where
  date : String
  day_of_week : String
  food_cost_daily : ℚ
  food_waste_cost_daily : ℚ
  food_rescued_lbs_daily : ℚ
  money_saved_daily : ℚ
  co2_emissions_avoided_lbs_daily : ℚ
  meals_provided_to_community_daily : ℚ
  volunteer_hours_daily : ℚ
  transport_costs_daily : ℚ
  operational_savings_daily : ℚ
  waste_disposal_cost_avoided_daily : ℚ
  active_partner_orgs_daily : ℚ
  community_impact_score_daily : ℚ
  deriving DecidableEq, Repr

/-! The shared forecast input/output shape (`ForecastInput`/`ForecastResult`,
identical in dashboardService.ts and in the second implementation). -/

/-- The `ForecastInput`.  Optional fields are consumed through JavaScript `||`
defaults, modelled by `orNum`/`orStr`. -/
structure ForecastInput where
  menu_item : String
  date : String
  weather : Option String
  temperature : Option ℚ
  special_event : Option String
  estimated_students : Option ℚ
  quantity_to_prepare : ℚ
  deriving DecidableEq, Repr

/-- Confidence interval of a forecast; real-valued because one of the two
implementations derives it from `Math.sqrt` of residuals. -/
structure ConfidenceInterval where
  lower : ℝ
  upper : ℝ

/-- The `factors_influence`; real-valued because both implementations scale an
absolute Pearson correlation. -/
structure FactorsInfluence where
  weather_impact : ℝ
  day_of_week_impact : ℝ
  seasonal_impact : ℝ
  event_impact : ℝ

/-- The `ForecastResult`. -/
structure ForecastResult where
  predicted_waste : ℚ
  predicted_waste_percentage : ℚ
  confidence_interval : ConfidenceInterval
  recommended_quantity : ℚ
  potential_savings : ℚ
  model_accuracy : ℝ
  factors_influence : FactorsInfluence

namespace ForecastService

/-! Embedding of the `ForecastService` class (the first, multiplicative
forecast variant; dashboardService.ts lines 544-917).  The service state is
the pair of loaded record lists together with two `Date` oracles:
`weekdayName d` models `new Date(d).toLocaleDateString('en-US',
{weekday:'long'})` and `monthOfDate d` models `new Date(d).getMonth()`. -/

/-- Loaded state and `Date` oracles of `ForecastService`.  `external_data`
is loaded by the constructor but never read by the class. -/
structure Env where
  production_data : List DailyProduction
  external_data : List ExternalFactor
  weekdayName : String → String
  monthOfDate : String → ℤ

/-- The `ForecastService.getWeatherFactor` (lines 611-619). -/
def getWeatherFactor (weather : String) : ℚ :=
  match weather.toLower with
  | "sunny" => 1
  | "cloudy" => 11/10
  | "rainy" => 13/10
  | "stormy" => 3/2
  | _ => 1

/-- The `ForecastService.getDayOfWeekFactor` (lines 621-632).  CAUTION:
this rational rendering collapses the IEEE corner of the final division:
when `overall_avg = 0` JavaScript returns `NaN` (`0/0`) or `±Infinity`,
while `ℚ` yields `0`.  The NaN-aware value of this function and of the
adjusted percentage built from it is modelled separately by
`getDayOfWeekFactorN` and `adjustedWastePercentageN` below, over the
`JsNumber` codomain that keeps those corner values. -/
def getDayOfWeekFactor (env : Env) (menu_item date : String) : ℚ :=
  let day_of_week := env.weekdayName date
  let menu_data := env.production_data.filter (·.menu_item == menu_item)
  let day_data := menu_data.filter (·.day_of_week == day_of_week)
  let overall_avg := listAvg (menu_data.map (·.waste_percentage))
  if day_data.length = 0 then 1
  else listAvg (day_data.map (·.waste_percentage)) / overall_avg

/-- The `ForecastService.getEventFactor` (lines 634-644). -/
def getEventFactor (event : String) : ℚ :=
  match event.toLower with
  | "none" => 1
  | "holiday" => 7/10
  | "orientation" => 12/10
  | "exam_week" => 8/10
  | "sports_game" => 13/10
  | "graduation" => 9/10
  | _ => 1

/-- The `ForecastService.getStudentFactor` (lines 646-653). -/
def getStudentFactor (estimated_students : ℚ) : ℚ :=
  let r := estimated_students / 1000
  jsMax (1/2) (jsMin (3/2) (12/10 - r * (2/10)))

/-- The `ForecastService.encodeWeather` (lines 718-721). -/
def encodeWeather (weather : String) : ℚ :=
  match weather.toLower with
  | "sunny" => 1
  | "cloudy" => 2
  | "rainy" => 3
  | "stormy" => 4
  | _ => 1

/-- The `ForecastService.encodeDayOfWeek` (lines 723-729). -/
def encodeDayOfWeek (day : String) : ℚ :=
  match day with
  | "Monday" => 1
  | "Tuesday" => 2
  | "Wednesday" => 3
  | "Thursday" => 4
  | "Friday" => 5
  | "Saturday" => 6
  | "Sunday" => 7
  | _ => 1

/-- The `ForecastService.encodeEvent` (lines 731-737); the JavaScript
`map[...] || 0` default also sends the `0`-valued key `'none'` to `0`. -/
def encodeEvent (event : String) : ℚ :=
  match event.toLower with
  | "none" => 0
  | "holiday" => 1
  | "orientation" => 2
  | "exam_week" => 3
  | "sports_game" => 4
  | "graduation" => 5
  | _ => 0

open Classical in
/-- The `ForecastService.simpleCorrelation` (lines 682-696): a private copy of
Pearson correlation guarded by length checks. -/
noncomputable def simpleCorrelation (x y : List ℚ) : ℝ :=
  if x.length = 0 ∨ y.length = 0 ∨ x.length ≠ y.length then 0
  else
    let n : ℚ := x.length
    let sumX := x.sum
    let sumY := y.sum
    let sumXY := ((x.zip y).map fun p => p.1 * p.2).sum
    let sumXX := (x.map fun v => v * v).sum
    let sumYY := (y.map fun v => v * v).sum
    let numerator := n * sumXY - sumX * sumY
    let denominator :=
      Real.sqrt (((n * sumXX - sumX * sumX) * (n * sumYY - sumY * sumY) : ℚ))
    if denominator = 0 then 0 else (numerator : ℝ) / denominator

/-- The `ForecastService.analyzeFactorInfluence` (lines 655-680). -/
noncomputable def analyzeFactorInfluence (env : Env) (menu_item : String) :
    FactorsInfluence :=
  let menu_data := env.production_data.filter (·.menu_item == menu_item)
  if menu_data.length < 5 then
    { weather_impact := 20, day_of_week_impact := 15
      seasonal_impact := 10, event_impact := 25 }
  else
    let weather_scores := menu_data.map fun d => encodeWeather d.weather
    let day_scores := menu_data.map fun d => encodeDayOfWeek d.day_of_week
    let month_scores := menu_data.map fun d => ((env.monthOfDate d.date : ℤ) : ℚ)
    let event_scores := menu_data.map fun d => encodeEvent d.special_event
    let waste_scores := menu_data.map fun d => d.waste_percentage
    { weather_impact := |simpleCorrelation weather_scores waste_scores| * 100
      day_of_week_impact := |simpleCorrelation day_scores waste_scores| * 100
      seasonal_impact := |simpleCorrelation month_scores waste_scores| * 100
      event_impact := |simpleCorrelation event_scores waste_scores| * 100 }

/-- The `ForecastService.predictFromCategory` (lines 739-791): the
insufficient-data fallback.  The JavaScript `item_record?.category ||
'Protein'` default also replaces an empty category string. -/
noncomputable def predictFromCategory (env : Env) (input : ForecastInput) :
    ForecastResult :=
  let item_record := env.production_data.find? (·.menu_item == input.menu_item)
  let category :=
    match item_record with
    | none => "Protein"
    | some r => if r.category = "" then "Protein" else r.category
  let category_data := env.production_data.filter (·.category == category)
  if category_data.length = 0 then
    let overall_avg := listAvg (env.production_data.map (·.waste_percentage))
    let predicted_waste := (overall_avg / 100) * input.quantity_to_prepare
    { predicted_waste := predicted_waste
      predicted_waste_percentage := overall_avg
      confidence_interval :=
        { lower := ((predicted_waste * (7/10) : ℚ) : ℝ)
          upper := ((predicted_waste * (13/10) : ℚ) : ℝ) }
      recommended_quantity := (jsRound (input.quantity_to_prepare * (95/100)) : ℚ)
      potential_savings := 0
      model_accuracy := ((65/100 : ℚ) : ℝ)
      factors_influence :=
        { weather_impact := 20, day_of_week_impact := 15
          seasonal_impact := 10, event_impact := 25 } }
  else
    let category_avg := listAvg (category_data.map (·.waste_percentage))
    let predicted_waste := (category_avg / 100) * input.quantity_to_prepare
    { predicted_waste := predicted_waste
      predicted_waste_percentage := category_avg
      confidence_interval :=
        { lower := ((predicted_waste * (7/10) : ℚ) : ℝ)
          upper := ((predicted_waste * (13/10) : ℚ) : ℝ) }
      recommended_quantity := (jsRound (input.quantity_to_prepare * (95/100)) : ℚ)
      potential_savings := 0
      model_accuracy := ((7/10 : ℚ) : ℝ)
      factors_influence :=
        { weather_impact := 20, day_of_week_impact := 15
          seasonal_impact := 10, event_impact := 25 } }

/-- The `ForecastService.predict` (lines 553-609): the multiplicative-factor
forecast path, falling back to `predictFromCategory` below 3 records. -/
noncomputable def predict (env : Env) (input : ForecastInput) : ForecastResult :=
  let menu_item_data := env.production_data.filter (·.menu_item == input.menu_item)
  if menu_item_data.length < 3 then predictFromCategory env input
  else
    let historical_waste_avg := listAvg (menu_item_data.map (·.waste_percentage))
    let a1 := historical_waste_avg * getWeatherFactor (orStr input.weather "sunny")
    let a2 := a1 * getDayOfWeekFactor env input.menu_item input.date
    let a3 := a2 * getEventFactor (orStr input.special_event "none")
    let a4 := a3 * getStudentFactor (orNum input.estimated_students 1000)
    let adjusted_waste_percentage := jsMax 1 (jsMin 50 a4)
    let predicted_waste := (adjusted_waste_percentage / 100) * input.quantity_to_prepare
    let recommended_quantity : ℚ :=
      (jsRound (input.quantity_to_prepare * (100 - 5) / (100 - adjusted_waste_percentage)) : ℚ)
    let potential_savings :=
      jsMax 0 ((historical_waste_avg - adjusted_waste_percentage) / 100 * input.quantity_to_prepare)
    { predicted_waste := predicted_waste
      predicted_waste_percentage := adjusted_waste_percentage
      confidence_interval :=
        { lower := ((predicted_waste * (8/10) : ℚ) : ℝ)
          upper := ((predicted_waste * (12/10) : ℚ) : ℝ) }
      recommended_quantity := recommended_quantity
      potential_savings := potential_savings
      model_accuracy := ((85/100 : ℚ) : ℝ)
      factors_influence := analyzeFactorInfluence env input.menu_item }

end ForecastService

namespace ForecastModel

/-! Embedding of the `ForecastModel` class (the second, regression-based
forecast variant kept in the repository alongside `ForecastService`).
`getDay d` models `new Date(d).getDay()` (0 = Sunday) and `getMonth d`
models `new Date(d).getMonth()` (0 = January). -/

/-- Loaded state and `Date` oracles of `ForecastModel`. -/
structure Env where
  production_data : List DailyProduction
  external_data : List ExternalFactor
  getDay : String → ℤ
  getMonth : String → ℤ

/-- The per-item trained model record built by `ForecastModel.trainModel`. -/
structure TrainedModel where
  coefficients : List ℚ
  r2 : ℚ
  residuals : List ℚ
  accuracy : ℝ
  feature_importance : List ℚ

/-- The process-lifetime `model_cache` (a JavaScript `Map` keyed by
`"model_" ++ menu_item`), modelled as an insertion-ordered association
list. -/
abbrev ModelCache := List (String × TrainedModel)

/-- The `Map.get` on the model cache. -/
def cacheFind (cache : ModelCache) (key : String) : Option TrainedModel :=
  (cache.find? (·.1 == key)).map (·.2)

/-- The `Map.set` on the model cache. -/
def cacheSet (cache : ModelCache) (key : String) (m : TrainedModel) : ModelCache :=
  if (cache.find? (·.1 == key)).isSome then
    cache.map fun p => if p.1 == key then (key, m) else p
  else cache ++ [(key, m)]

/-- The `ForecastModel.getMenuItemData`. -/
def getMenuItemData (env : Env) (menu_item : String) : List DailyProduction :=
  env.production_data.filter (·.menu_item == menu_item)

/-- The `ForecastModel.encodeWeather`. -/
def encodeWeather (weather : String) : ℚ :=
  match weather.toLower with
  | "sunny" => 1
  | "cloudy" => 2
  | "rainy" => 3
  | "stormy" => 4
  | _ => 1

/-- The `ForecastModel.encodeSpecialEvent`; the JavaScript `map[...] || 0`
default also sends the `0`-valued key `'none'` to `0`. -/
def encodeSpecialEvent (event : String) : ℚ :=
  match event.toLower with
  | "none" => 0
  | "holiday" => 1
  | "orientation" => 2
  | "exam_week" => 3
  | "spring_break" => 4
  | "sports_game" => 5
  | "graduation" => 6
  | _ => 0

/-- The `ForecastModel.getAverageWastePercentage`. -/
def getAverageWastePercentage (env : Env) (menu_item : String) : ℚ :=
  let data := getMenuItemData env menu_item
  if data.length = 0 then 15
  else listAvg (data.map (·.waste_percentage))

/-- The `ForecastModel.getSeasonalFactor`. -/
def getSeasonalFactor (env : Env) (menu_item : String) (month : ℤ) : ℚ :=
  let data := getMenuItemData env menu_item
  let seasonal_data := data.filter fun d => env.getMonth d.date = month
  if seasonal_data.length = 0 then 1
  else
    let seasonal_avg := listAvg (seasonal_data.map (·.waste_percentage))
    let overall_avg := listAvg (data.map (·.waste_percentage))
    seasonal_avg / overall_avg

/-- The `ForecastModel.getHistoricalAverage`: mean waste of the last 10
same-item records strictly before `before_date` (JavaScript string
comparison on ISO dates), defaulting to 15. -/
def getHistoricalAverage (env : Env) (menu_item before_date : String) : ℚ :=
  let data := sliceLast ((getMenuItemData env menu_item).filter
    fun d => d.date < before_date) 10
  if data.length = 0 then 15
  else listAvg (data.map (·.waste_percentage))

/-- The `external?.student_population_factor || 1.0` access. -/
def popFactorOrOne (external : Option ExternalFactor) : ℚ :=
  match external with
  | none => 1
  | some e => if e.student_population_factor = 0 then 1 else e.student_population_factor

/-- The `ForecastModel.prepareFeatures`: the 10-dimensional feature vector for
the prediction input (the computed `avg_students` of the source is unused
there and omitted). -/
def prepareFeatures (env : Env) (input : ForecastInput) : List ℚ :=
  let external := env.external_data.find? (·.date == input.date)
  [ ((env.getDay input.date : ℤ) : ℚ)
  , ((env.getMonth input.date : ℤ) : ℚ)
  , encodeWeather (orStr input.weather "sunny")
  , orNum input.temperature 65
  , encodeSpecialEvent (orStr input.special_event "none")
  , orNum input.estimated_students 1000 / 1000
  , getAverageWastePercentage env input.menu_item
  , getSeasonalFactor env input.menu_item (env.getMonth input.date)
  , popFactorOrOne external
  , (external.map (·.precipitation_inches)).getD 0 ]

/-- The `ForecastModel.prepareHistoricalFeatures`. -/
def prepareHistoricalFeatures (env : Env) (record : DailyProduction) : List ℚ :=
  let external := env.external_data.find? (·.date == record.date)
  [ ((env.getDay record.date : ℤ) : ℚ)
  , ((env.getMonth record.date : ℤ) : ℚ)
  , encodeWeather record.weather
  , record.temperature_f
  , encodeSpecialEvent record.special_event
  , record.estimated_students / 1000
  , getHistoricalAverage env record.menu_item record.date
  , getSeasonalFactor env record.menu_item (env.getMonth record.date)
  , popFactorOrOne external
  , (external.map (·.precipitation_inches)).getD 0 ]

/-- The `ForecastModel.predictWithCoefficients`. -/
def predictWithCoefficients (features coefficients : List ℚ) : ℚ :=
  (List.range features.length).foldl
    (fun s i => s + features.getD i 0 * coefficients.getD i 0) 0

/-- The `ForecastModel.crossValidateModel`: 5 sequential contiguous folds, per
fold `accuracy = max(0, 1 - sqrt(MSE) / 20)`. -/
noncomputable def crossValidateModel (X : List (List ℚ)) (y : List ℚ) : ℝ :=
  let folds := 5
  let fold_size := X.length / folds
  let total := (List.range folds).foldl
    (fun total i =>
      let s := i * fold_size
      let e := s + fold_size
      let X_train := X.take s ++ X.drop e
      let y_train := y.take s ++ y.drop e
      let X_test := (X.drop s).take fold_size
      let y_test := (y.drop s).take fold_size
      let model := Statistics.multipleRegression X_train y_train
      let predictions := X_test.map fun features =>
        predictWithCoefficients (1 :: features) model.coefficients
      let mse : ℚ :=
        ((predictions.zip y_test).map fun p => (p.1 - p.2) ^ 2).sum /
          predictions.length
      total + max 0 (1 - Real.sqrt (mse : ℝ) / 20))
    (0 : ℝ)
  total / folds

/-- The `ForecastModel.getCategoryModel`: the below-5-records fallback model. -/
def getCategoryModel (env : Env) (category : String) : TrainedModel :=
  let category_data := env.production_data.filter (·.category == category)
  let avg_waste := listAvg (category_data.map (·.waste_percentage))
  { coefficients := [avg_waste], r2 := 1/2, residuals := [0]
    accuracy := ((7/10 : ℚ) : ℝ), feature_importance := [] }

/-- The `ForecastModel.calculateFeatureImportance`. -/
def calculateFeatureImportance (coefficients : List ℚ) : List ℚ :=
  (coefficients.drop 1).map fun c => |c|

/-- The `ForecastModel.trainModel`. -/
noncomputable def trainModel (env : Env) (menu_item : String) : TrainedModel :=
  let menu_item_data := getMenuItemData env menu_item
  if menu_item_data.length < 5 then
    getCategoryModel env
      (match menu_item_data.head? with
       | none => "Entree"
       | some r => if r.category = "" then "Entree" else r.category)
  else
    let X := menu_item_data.map fun record => prepareHistoricalFeatures env record
    let y := menu_item_data.map (·.waste_percentage)
    let regression := Statistics.multipleRegression X y
    let residuals := (y.zip X).map fun p =>
      p.1 - predictWithCoefficients (1 :: p.2) regression.coefficients
    { coefficients := regression.coefficients
      r2 := regression.r2
      residuals := residuals
      accuracy := crossValidateModel X y
      feature_importance := calculateFeatureImportance regression.coefficients }

/-- The `ForecastModel.getOrTrainModel`: lazy, never-invalidated cache. -/
noncomputable def getOrTrainModel (env : Env) (cache : ModelCache)
    (menu_item : String) : TrainedModel × ModelCache :=
  let cache_key := "model_" ++ menu_item
  match cacheFind cache cache_key with
  | some m => (m, cache)
  | none =>
      let m := trainModel env menu_item
      (m, cacheSet cache cache_key m)

/-- The `ForecastModel.predictWastePercentage`: regression output clamped to
`[0, 100]`. -/
def predictWastePercentage (features : List ℚ) (model : TrainedModel) : ℚ :=
  jsMax 0 (jsMin 100 (predictWithCoefficients (1 :: features) model.coefficients))

/-- The `ForecastModel.calculateConfidenceInterval`: `±1.96` times the RMS of
the training residuals. -/
noncomputable def calculateConfidenceInterval (env : Env) (cache : ModelCache)
    (menu_item : String) : (ℝ × ℝ) × ModelCache :=
  let (model, cache') := getOrTrainModel env cache menu_item
  let std_residual :=
    Real.sqrt (((model.residuals.map fun r => r * r).sum / model.residuals.length : ℚ))
  let margin := (196/100 : ℝ) * std_residual
  ((-margin, margin), cache')

/-- The `ForecastModel.optimizeQuantity`: scales only when the prediction
exceeds the 5% target. -/
def optimizeQuantity (input : ForecastInput) (predicted_waste_percentage : ℚ) : ℚ :=
  let target_waste_percentage := 5
  let adjustment_factor :=
    if predicted_waste_percentage > target_waste_percentage then
      (100 - target_waste_percentage) / (100 - predicted_waste_percentage)
    else 1
  (jsRound (input.quantity_to_prepare * adjustment_factor) : ℚ)

/-- The `ForecastModel.analyzeFactorInfluence`: uses `Statistics.correlation`. -/
noncomputable def analyzeFactorInfluence (env : Env)
    (historical_data : List DailyProduction) : FactorsInfluence :=
  let weather_data := historical_data.map fun d => ((encodeWeather d.weather : ℚ) : ℝ)
  let waste_data := historical_data.map fun d => ((d.waste_percentage : ℚ) : ℝ)
  let day_data := historical_data.map fun d => (((env.getDay d.date : ℤ) : ℚ) : ℝ)
  let event_data := historical_data.map fun d => ((encodeSpecialEvent d.special_event : ℚ) : ℝ)
  let month_data := historical_data.map fun d => (((env.getMonth d.date : ℤ) : ℚ) : ℝ)
  { weather_impact := |Statistics.correlation weather_data waste_data| * 100
    day_of_week_impact := |Statistics.correlation day_data waste_data| * 100
    seasonal_impact := |Statistics.correlation month_data waste_data| * 100
    event_impact := |Statistics.correlation event_data waste_data| * 100 }

/-- The `ForecastModel.predictFromCategory` (part_002 lines 502-520): the
insufficient-data fallback of the second variant, with its fixed
`{lower: -5, upper: 5}` confidence interval and unrounded
`quantity * 0.95` recommendation. -/
def predictFromCategory (env : Env) (input : ForecastInput) : ForecastResult :=
  let category :=
    match env.production_data.find? (·.menu_item == input.menu_item) with
    | none => "Entree"
    | some r => if r.category = "" then "Entree" else r.category
  let category_avg :=
    listAvg ((env.production_data.filter (·.category == category)).map
      (·.waste_percentage))
  let predicted_waste := (category_avg / 100) * input.quantity_to_prepare
  { predicted_waste := predicted_waste
    predicted_waste_percentage := category_avg
    confidence_interval := { lower := -5, upper := 5 }
    recommended_quantity := input.quantity_to_prepare * (95/100)
    potential_savings := 0
    model_accuracy := ((7/10 : ℚ) : ℝ)
    factors_influence :=
      { weather_impact := 0, day_of_week_impact := 0
        seasonal_impact := 0, event_impact := 0 } }

/-- The `ForecastModel.predict` (part_002 lines 229-275): the regression path,
falling back to `predictFromCategory` below 5 records; threads the model
cache. -/
noncomputable def predict (env : Env) (cache : ModelCache)
    (input : ForecastInput) : ForecastResult × ModelCache :=
  let menu_item_data := getMenuItemData env input.menu_item
  if menu_item_data.length < 5 then (predictFromCategory env input, cache)
  else
    let features := prepareFeatures env input
    let mc := getOrTrainModel env cache input.menu_item
    let predicted_waste_percentage := predictWastePercentage features mc.1
    let predicted_waste := (predicted_waste_percentage / 100) * input.quantity_to_prepare
    let cic := calculateConfidenceInterval env mc.2 input.menu_item
    let recommended_quantity := optimizeQuantity input predicted_waste_percentage
    let current_avg_waste := getAverageWastePercentage env input.menu_item
    let potential_savings :=
      jsMax 0 ((current_avg_waste - predicted_waste_percentage) / 100 *
        input.quantity_to_prepare)
    ({ predicted_waste := predicted_waste
       predicted_waste_percentage := predicted_waste_percentage
       confidence_interval :=
         { lower := max 0 ((predicted_waste : ℝ) + cic.1.1)
           upper := (predicted_waste : ℝ) + cic.1.2 }
       recommended_quantity := recommended_quantity
       potential_savings := potential_savings
       model_accuracy := mc.1.accuracy
       factors_influence := analyzeFactorInfluence env menu_item_data },
     cic.2)

end ForecastModel

/-- JavaScript `a.includes(b)` on strings: `b` occurs as a substring of
`a`. -/
def jsIncludes (a b : String) : Bool := decide (b.toList <:+: a.toList)

namespace PlannerService

/-! Embedding of the `PlannerService` class (dashboardService.ts lines
960-1422).  `weekdayName` and `monthOfDate` are the `Date` oracles as in
`ForecastService.Env`. -/

/-- Loaded state and `Date` oracles of `PlannerService`. -/
structure Env where
  production_data : List DailyProduction
  menu_data : List MenuPlanning
  external_data : List ExternalFactor
  weekdayName : String → String
  monthOfDate : String → ℤ

/-- The `PlannerInput`. -/
structure PlannerInput where
  date : String
  estimated_students : ℚ
  budget_constraint : Option ℚ
  dietary_requirements : Option (List String)
  avoid_items : Option (List String)
  target_categories : List String
  deriving DecidableEq, Repr

/-- The `MenuRecommendation`. -/
structure MenuRecommendation where
  menu_item : String
  category : String
  recommended_quantity : ℚ
  expected_waste : ℚ
  cost_per_serving : ℚ
  popularity_score : ℚ
  reasoning : String
  deriving DecidableEq, Repr

/-- The `nutritional_balance` component of `PlannerResult`. -/
structure NutritionalBalance where
  protein_items : ℕ
  carb_items : ℕ
  vegetable_items : ℕ
  dessert_items : ℕ
  deriving DecidableEq, Repr

/-- The `risk_assessment` component of `PlannerResult`. -/
structure RiskAssessment where
  high_risk_items : List String
  safe_items : List String
  weather_considerations : List String
  deriving DecidableEq, Repr

/-- The `PlannerResult`. -/
structure PlannerResult where
  recommended_menu : List MenuRecommendation
  total_cost : ℚ
  total_expected_waste : ℚ
  waste_percentage : ℚ
  cost_savings : ℚ
  nutritional_balance : NutritionalBalance
  risk_assessment : RiskAssessment
  deriving DecidableEq, Repr

/-- The sub-scores attached to a scored menu item by
`PlannerService.scoreMenuItem`. -/
structure Scores where
  waste_score : ℚ
  popularity_score : ℚ
  cost_score : ℚ
  prep_score : ℚ
  shelf_life_score : ℚ
  season_score : ℚ
  composite_score : ℚ
  deriving DecidableEq, Repr

/-- A scored menu item (`{...item, scores, historical_data}`). -/
structure ScoredItem where
  item : MenuPlanning
  scores : Scores
  historical_data : List DailyProduction
  deriving DecidableEq, Repr

/-- The `PlannerService.getAvailableItems` (lines 1021-1033). -/
def getAvailableItems (env : Env) (target_categories avoid_items : List String) :
    List MenuPlanning :=
  env.menu_data.filter fun item =>
    target_categories.contains item.menu_category &&
      !(avoid_items.contains item.dish_name)

/-- The `PlannerService.getPreparationScore` (lines 1285-1293). -/
def getPreparationScore (difficulty : String) : ℚ :=
  match difficulty.toLower with
  | "easy" => 10
  | "medium" => 7
  | "hard" => 4
  | "very hard" => 2
  | _ => 7

/-- The `PlannerService.getDayOfWeekAdjustment` (lines 1295-1309). -/
def getDayOfWeekAdjustment (env : Env) (dish_name date : String) : ℚ :=
  let day_of_week := env.weekdayName date
  let historical_data := env.production_data.filter fun d =>
    d.menu_item == dish_name && d.day_of_week == day_of_week
  if historical_data.length = 0 then 1
  else
    let all_data := env.production_data.filter (·.menu_item == dish_name)
    let day_avg := listAvg (historical_data.map (·.waste_percentage))
    let overall_avg := listAvg (all_data.map (·.waste_percentage))
    jsMax (1/2) (jsMin (3/2) (overall_avg / day_avg))

/-- The `PlannerService.getSeasonFromMonth` (lines 1324-1329). -/
def getSeasonFromMonth (month : ℤ) : String :=
  if 2 ≤ month ∧ month ≤ 4 then "spring"
  else if 5 ≤ month ∧ month ≤ 7 then "summer"
  else if 8 ≤ month ∧ month ≤ 10 then "fall"
  else "winter"

/-- The `PlannerService.getSeasonScore` (lines 1311-1322). -/
def getSeasonScore (env : Env) (season_appropriateness date : String) : ℚ :=
  let season := getSeasonFromMonth (env.monthOfDate date)
  if jsIncludes season_appropriateness.toLower season.toLower then 10
  else if season_appropriateness.toLower = "all_season" then 8
  else 5

/-- The `PlannerService.scoreMenuItem` (lines 1035-1085). -/
def scoreMenuItem (env : Env) (item : MenuPlanning) (input : PlannerInput) :
    ScoredItem :=
  let historical_data := env.production_data.filter (·.menu_item == item.dish_name)
  let waste_score :=
    if historical_data.length = 0 then 5
    else jsMax 1 (10 - listAvg (historical_data.map (·.waste_percentage)) / 10)
  let popularity_score := item.popularity_score
  let cost_score := jsMax 1 (10 - item.ingredient_cost_per_serving * 2)
  let prep_score := getPreparationScore item.prep_difficulty
  let shelf_life_score := jsMin 10 (item.shelf_life_hours / 4)
  let day_adjustment := getDayOfWeekAdjustment env item.dish_name input.date
  let season_score := getSeasonScore env item.season_appropriateness input.date
  let composite_score :=
    (waste_score * (3/10) + popularity_score * (25/100) + cost_score * (2/10) +
      prep_score * (1/10) + shelf_life_score * (1/10) + season_score * (5/100)) *
      day_adjustment
  { item := item
    scores :=
      { waste_score := waste_score, popularity_score := popularity_score
        cost_score := cost_score, prep_score := prep_score
        shelf_life_score := shelf_life_score, season_score := season_score
        composite_score := composite_score }
    historical_data := historical_data }

/-- The `PlannerService.getCategoryDemandFactor` (lines 1336-1343). -/
def getCategoryDemandFactor (category : String) : ℚ :=
  match category with
  | "breakfast" => 7/10
  | "lunch" => 8/10
  | "dinner" => 9/10
  | _ => 7/10

/-- The `PlannerService.calculateBaseQuantity` (lines 1156-1162). -/
def calculateBaseQuantity (item : MenuPlanning) (estimated_students : ℚ) : ℚ :=
  let popularity_factor := item.popularity_score / 10
  let category_factor := getCategoryDemandFactor item.menu_category
  (jsRound (estimated_students * popularity_factor * category_factor * (3/10)) : ℚ)

/-- The `PlannerService.estimateItemCost` (lines 1331-1334). -/
def estimateItemCost (item : MenuPlanning) (estimated_students : ℚ) : ℚ :=
  calculateBaseQuantity item estimated_students * item.ingredient_cost_per_serving

/-- The budget test of `selectOptimalCombination`:
`!input.budget_constraint || total_cost + estimated_cost <= budget`; a
budget of `0` is falsy in JavaScript and disables the check. -/
def budgetAllows (budget : Option ℚ) (total_cost estimated_cost : ℚ) : Bool :=
  match budget with
  | none => true
  | some b => b == 0 || total_cost + estimated_cost ≤ b

/-- Selection state of the `selectOptimalCombination` loop.  The JavaScript
`category_counts` map stores only strictly positive counts, so `has c`
coincides with `counts c ≠ 0` and the map is modelled as a total
function. -/
structure SelectState where
  selected : List ScoredItem
  counts : String → ℕ
  total_cost : ℚ

/-- One iteration of the greedy loop of `selectOptimalCombination`. -/
def selectStep (input : PlannerInput) (st : SelectState) (item : ScoredItem) :
    SelectState :=
  let current_count := st.counts item.item.menu_category
  let estimated_cost := estimateItemCost item.item input.estimated_students
  let target_per_category : ℤ := Rat.ceil ((8 : ℚ) / input.target_categories.length)
  if (current_count : ℤ) < target_per_category ∧ st.selected.length < 12 ∧
      budgetAllows input.budget_constraint st.total_cost estimated_cost = true then
    { selected := st.selected ++ [item]
      counts := fun c => if c = item.item.menu_category then current_count + 1
                         else st.counts c
      total_cost := st.total_cost + estimated_cost }
  else st

/-- The `PlannerService.selectOptimalCombination` (lines 1087-1126): stable sort
by descending composite score, greedy selection, then back-fill of one item
for every target category that received none (the back-fill performs no
budget check). -/
def selectOptimalCombination (_env : Env) (scored_items : List ScoredItem)
    (input : PlannerInput) : List ScoredItem :=
  let sorted_items := scored_items.mergeSort fun a b =>
    b.scores.composite_score ≤ a.scores.composite_score
  let st := sorted_items.foldl (selectStep input)
    { selected := [], counts := fun _ => 0, total_cost := 0 }
  input.target_categories.foldl
    (fun selected category =>
      if st.counts category = 0 then
        match sorted_items.find? fun item =>
            item.item.menu_category == category && !(selected.contains item) with
        | some fallback_item => selected ++ [fallback_item]
        | none => selected
      else selected)
    st.selected

/-- The `PlannerService.getExpectedWastePercentage` (lines 1164-1179). -/
def getExpectedWastePercentage (item : ScoredItem) : ℚ :=
  if item.historical_data.length ≠ 0 then
    listAvg (item.historical_data.map (·.waste_percentage))
  else
    match item.item.menu_category with
    | "Entree" => 12
    | "Side" => 15
    | "Dessert" => 20
    | "Beverage" => 8
    | "Salad" => 18
    | _ => 15

/-- The `PlannerService.generateReasoning` (lines 1181-1205). -/
def generateReasoning (item : ScoredItem) (waste_adjustment : ℚ) : String :=
  let reasons : List String :=
    (if item.scores.popularity_score ≥ 8 then ["high popularity score"] else []) ++
    (if item.scores.waste_score ≥ 7 then ["low historical waste"] else []) ++
    (if waste_adjustment < 9/10 then ["adjusted for waste reduction"] else []) ++
    (if item.scores.cost_score ≥ 7 then ["cost-effective"] else []) ++
    (if item.scores.season_score ≥ 8 then ["seasonal appropriateness"] else [])
  "Selected due to: " ++
    (if reasons = [] then "balanced performance across metrics"
     else String.intercalate ", " reasons)

/-- The `PlannerService.generateRecommendation` (lines 1128-1154). -/
def generateRecommendation (item : ScoredItem) (input : PlannerInput) :
    MenuRecommendation :=
  let base_quantity := calculateBaseQuantity item.item input.estimated_students
  let waste_adjustment :=
    if item.historical_data.length ≠ 0 then
      jsMax (7/10) (1 - listAvg (item.historical_data.map (·.waste_percentage)) / 100)
    else 1
  let recommended_quantity : ℚ := (jsRound (base_quantity * waste_adjustment) : ℚ)
  let expected_waste := recommended_quantity * (getExpectedWastePercentage item / 100)
  { menu_item := item.item.dish_name
    category := item.item.menu_category
    recommended_quantity := recommended_quantity
    expected_waste := expected_waste
    cost_per_serving := item.item.ingredient_cost_per_serving
    popularity_score := item.item.popularity_score
    reasoning := generateReasoning item waste_adjustment }

/-- The `PlannerService.analyzeNutritionalBalance` (lines 1207-1248). -/
def analyzeNutritionalBalance (recommendations : List MenuRecommendation) :
    NutritionalBalance :=
  recommendations.foldl
    (fun balance r =>
      let itemName := r.menu_item.toLower
      let hasAny (ws : List String) : Bool := ws.any fun w => jsIncludes itemName w
      { protein_items := balance.protein_items +
          (if hasAny ["chicken", "beef", "fish", "salmon", "tofu", "eggs",
                      "shrimp", "pork", "lamb"] then 1 else 0)
        carb_items := balance.carb_items +
          (if hasAny ["pasta", "rice", "bread", "noodles", "pizza", "burrito",
                      "sandwich", "pancakes", "toast"] then 1 else 0)
        vegetable_items := balance.vegetable_items +
          (if hasAny ["salad", "veggie", "vegetable", "spinach", "kale",
                      "broccoli", "avocado", "quinoa"] then 1 else 0)
        dessert_items := balance.dessert_items +
          (if hasAny ["cake", "chocolate", "dessert", "parfait", "pudding",
                      "muffin", "tiramisu", "baklava"] then 1 else 0) })
    { protein_items := 0, carb_items := 0, vegetable_items := 0, dessert_items := 0 }

/-- The `PlannerService.assessRisks` (lines 1250-1282). -/
def assessRisks (env : Env) (recommendations : List MenuRecommendation)
    (input : PlannerInput) : RiskAssessment :=
  let high_risk_items := (recommendations.filter fun r =>
    r.expected_waste / r.recommended_quantity > 15/100).map (·.menu_item)
  let safe_items := (recommendations.filter fun r =>
    ¬(r.expected_waste / r.recommended_quantity > 15/100)).map (·.menu_item)
  let weather_considerations :=
    match env.external_data.find? (·.date == input.date) with
    | none => []
    | some e =>
        (if jsIncludes e.weather_condition.toLower "rain" then
          ["Rainy weather may reduce foot traffic"] else []) ++
        (if e.temperature_f > 80 then
          ["Hot weather favors cold items and beverages"] else []) ++
        (if e.temperature_f < 50 then
          ["Cold weather increases demand for hot items"] else [])
  { high_risk_items := high_risk_items, safe_items := safe_items
    weather_considerations := weather_considerations }

/-- The `PlannerService.getAverageCostPerPound` (lines 1360-1363). -/
def getAverageCostPerPound : ℚ := 7/2

/-- The `PlannerService.calculateHistoricalWasteCost` (lines 1345-1358). -/
def calculateHistoricalWasteCost (env : Env) (categories : List String) : ℚ :=
  let total_waste_cost :=
    (env.production_data.map fun d => d.quantity_wasted * getAverageCostPerPound).sum
  if env.production_data.length = 0 then 0
  else
    (total_waste_cost / env.production_data.length) *
      ((categories.length : ℚ) / 3)

/-- The `PlannerService.optimizeMenu` (lines 980-1019). -/
def optimizeMenu (env : Env) (input : PlannerInput) : PlannerResult :=
  let available_items := getAvailableItems env input.target_categories
    (input.avoid_items.getD [])
  let scored_items := available_items.map fun item => scoreMenuItem env item input
  let selected_items := selectOptimalCombination env scored_items input
  let recommendations := selected_items.map fun item =>
    generateRecommendation item input
  let total_cost :=
    (recommendations.map fun r => r.recommended_quantity * r.cost_per_serving).sum
  let total_expected_waste := (recommendations.map (·.expected_waste)).sum
  let total_production := (recommendations.map (·.recommended_quantity)).sum
  let waste_percentage := (total_expected_waste / total_production) * 100
  let historical_waste_cost := calculateHistoricalWasteCost env input.target_categories
  let projected_waste_cost := total_expected_waste * getAverageCostPerPound
  let cost_savings := historical_waste_cost - projected_waste_cost
  { recommended_menu := recommendations
    total_cost := total_cost
    total_expected_waste := total_expected_waste
    waste_percentage := waste_percentage
    cost_savings := jsMax 0 cost_savings
    nutritional_balance := analyzeNutritionalBalance recommendations
    risk_assessment := assessRisks env recommendations input }

/-- Constraint object of `PlannerService.getMenuSuggestions`. -/
structure SuggestionConstraints where
  max_prep_time : Option ℚ
  dietary_restrictions : Option (List String)
  cost_limit : Option ℚ
  deriving DecidableEq, Repr

/-- JavaScript truthiness of an optional number (`undefined` and `0` are
falsy). -/
def numTruthy (o : Option ℚ) : Bool :=
  match o with
  | none => false
  | some v => v != 0

/-- The `PlannerService.getMenuSuggestions` (lines 1366-1395).  The method
starts from `let filtered_items = this.menu_data` and each truthy
constraint replaces `filtered_items` by a fresh `.filter(...)` array; the
final `.sort(...)` is in place, so when no constraint fires it reorders the
loaded `menu_data` array itself.  The returned pair is (result, updated
service state). -/
def getMenuSuggestions (env : Env) (constraints : SuggestionConstraints) :
    List MenuPlanning × Env :=
  let step1 : List MenuPlanning :=
    match constraints.max_prep_time with
    | some v => if v ≠ 0 then
                  env.menu_data.filter fun m => decide (m.preparation_time_hours ≤ v)
                else env.menu_data
    | none => env.menu_data
  let step2 : List MenuPlanning :=
    match constraints.cost_limit with
    | some v => if v ≠ 0 then
                  step1.filter fun m => decide (m.ingredient_cost_per_serving ≤ v)
                else step1
    | none => step1
  let step3 : List MenuPlanning :=
    match constraints.dietary_restrictions with
    | some rs => step2.filter fun item =>
        !(rs.any fun restriction =>
          jsIncludes item.allergens.toLower restriction.toLower)
    | none => step2
  let sorted := step3.mergeSort fun a b => b.popularity_score ≤ a.popularity_score
  let aliased := !numTruthy constraints.max_prep_time &&
    !numTruthy constraints.cost_limit && constraints.dietary_restrictions.isNone
  (sorted, if aliased then { env with menu_data := sorted } else env)

end PlannerService

namespace TrackerService

/-! Embedding of the `TrackerService` class (uploadService.ts lines
601-1139).  `weekdayName` is the weekday `Date` oracle, `epochOfDate d`
models `new Date(d).getTime()`, and the extra parameter `now` of
`createOptimalRoute`/`optimizeRoutes`/`optimizePickups` models the
`Date.now()` read in the `route_id` template. -/

/-- Loaded state and `Date` oracles of `TrackerService`. -/
structure Env where
  pickup_data : List PickupOperation
  external_data : List ExternalFactor
  weekdayName : String → String
  epochOfDate : String → ℤ

/-- The optional `time_constraints` input component. -/
structure TimeConstraints where
  earliest_pickup : String
  latest_pickup : String
  deriving DecidableEq, Repr

/-- The `PickupOptimizationInput`. -/
structure PickupOptimizationInput where
  date : String
  available_locations : List String
  available_drivers : List String
  estimated_food_volume : ℚ
  priority_destinations : Option (List String)
  time_constraints : Option TimeConstraints
  deriving DecidableEq, Repr

/-- The `OptimizedPickup`.  The transient `composite_score` attached to copies
inside `findBestNextPickup` is tracked separately in the embedding and is
not a field of the record. -/
structure OptimizedPickup where
  pickup_id : String
  source_location : String
  destination_partner : String
  recommended_time : String
  estimated_volume : ℚ
  estimated_duration : ℚ
  transport_cost : ℚ
  driver_assignment : String
  priority_score : ℚ
  efficiency_score : ℚ
  deriving DecidableEq, Repr, Inhabited

/-- The `RouteOptimization`. -/
structure RouteOptimization where
  route_id : String
  driver : String
  locations : List String
  total_distance : ℚ
  total_time : ℚ
  total_volume : ℚ
  total_cost : ℚ
  pickups : List OptimizedPickup
  deriving DecidableEq, Repr, Inhabited

/-- The `efficiency_metrics` component of `TrackerResult`. -/
structure EfficiencyMetrics where
  avg_pickup_time : ℚ
  cost_per_pound : ℚ
  meals_per_dollar : ℚ
  co2_per_pickup : ℚ
  deriving DecidableEq, Repr

/-- The `recommendations` component of `TrackerResult`. -/
structure Recommendations where
  optimal_timing : List String
  cost_saving_tips : List String
  efficiency_improvements : List String
  deriving DecidableEq, Repr

/-- The `TrackerResult`. -/
structure TrackerResult where
  optimized_routes : List RouteOptimization
  total_volume_rescued : ℚ
  total_meals_equivalent : ℚ
  total_co2_savings : ℚ
  total_transport_cost : ℚ
  efficiency_metrics : EfficiencyMetrics
  recommendations : Recommendations
  deriving DecidableEq, Repr

/-- The `time_distribution` component of a location pattern; the
`distribution` object built by the source is never read afterwards and is
omitted. -/
structure TimeDistribution where
  peak_start : String
  peak_end : String
  deriving DecidableEq, Repr

/-- A per-location historical pattern (`analyzeLocationPatterns` entry). -/
structure LocationPattern where
  avg_volume : ℚ
  avg_distance : ℚ
  avg_cost : ℚ
  time_distribution : TimeDistribution
  day_patterns : List (String × ℚ)
  food_types : List String
  destinations : List String
  success_rate : ℚ
  historical_count : ℕ
  deriving DecidableEq, Repr

/-- JavaScript `parseInt` restricted to the digit-prefixed strings the
tracker feeds it (hour components); a digit-free string yields `0` here
(`NaN` in JavaScript, which the tracker would render as text). -/
def jsParseInt (s : String) : ℤ :=
  (((s.takeWhile Char.isDigit).toNat?).getD 0 : ℕ)

/-- Increment of a JavaScript `Map`-backed counter
(`counts.set(key, (counts.get(key) || 0) + 1)`), preserving insertion
order. -/
def bumpCount (counts : List (String × ℕ)) (key : String) : List (String × ℕ) :=
  if (counts.find? (·.1 == key)).isSome then
    counts.map fun p => if p.1 == key then (p.1, p.2 + 1) else p
  else counts ++ [(key, 1)]

/-- The `TrackerService.analyzeTimeDistribution` (lines 906-922). -/
def analyzeTimeDistribution (data : List PickupOperation) : TimeDistribution :=
  let time_counts := data.foldl
    (fun counts pickup => bumpCount counts ((pickup.pickup_time.splitOn ":").headD ""))
    []
  let peak := time_counts.foldl
    (fun mx p => if p.2 > mx.2 then p else mx) ("14", 0)
  { peak_start := peak.1 ++ ":00"
    peak_end := toString (jsParseInt peak.1 + 2) ++ ":00" }

/-- Keys of a JavaScript `Map` built by grouping, i.e. the distinct values
in order of first occurrence. -/
def firstOccurrences (l : List String) : List String :=
  l.foldl (fun acc d => if acc.contains d then acc else acc ++ [d]) []

/-- The `TrackerService.analyzeDayPatterns` (lines 924-942): weekday-relative
volume factors. -/
def analyzeDayPatterns (env : Env) (data : List PickupOperation) :
    List (String × ℚ) :=
  let overall_avg := listAvg (data.map (·.quantity_lbs))
  (firstOccurrences (data.map fun p => env.weekdayName p.date)).map fun day =>
    let volumes := (data.filter fun p => env.weekdayName p.date == day).map
      (·.quantity_lbs)
    (day, listAvg volumes / overall_avg)

/-- The `TrackerService.analyzeFoodTypes` (lines 944-954): food types sorted by
descending frequency (stable). -/
def analyzeFoodTypes (data : List PickupOperation) : List String :=
  let type_counts := data.foldl (fun counts p => bumpCount counts p.food_type) []
  (type_counts.mergeSort fun a b => b.2 ≤ a.2).map (·.1)

/-- The `TrackerService.analyzeDestinations` (lines 956-966). -/
def analyzeDestinations (data : List PickupOperation) : List String :=
  let dest_counts := data.foldl
    (fun counts p => bumpCount counts p.destination_partner) []
  (dest_counts.mergeSort fun a b => b.2 ≤ a.2).map (·.1)

/-- The `TrackerService.getDefaultLocationPattern` (lines 892-904). -/
def getDefaultLocationPattern : LocationPattern :=
  { avg_volume := 45
    avg_distance := 52/10
    avg_cost := 125/10
    time_distribution := { peak_start := "14:00", peak_end := "16:00" }
    day_patterns := [("Monday", 12/10), ("Wednesday", 11/10), ("Friday", 13/10)]
    food_types := ["Mixed"]
    destinations := ["Local Food Bank"]
    success_rate := 85/100
    historical_count := 0 }

/-- The per-location body of `TrackerService.analyzeLocationPatterns`
(lines 637-682). -/
def computeLocationPattern (env : Env) (location : String) : LocationPattern :=
  let location_data := env.pickup_data.filter (·.source_location == location)
  if location_data.length = 0 then getDefaultLocationPattern
  else
    { avg_volume := listAvg (location_data.map (·.quantity_lbs))
      avg_distance := listAvg (location_data.map (·.distance_miles))
      avg_cost := listAvg (location_data.map (·.transport_cost))
      time_distribution := analyzeTimeDistribution location_data
      day_patterns := analyzeDayPatterns env location_data
      food_types := analyzeFoodTypes location_data
      destinations := analyzeDestinations location_data
      success_rate :=
        ((location_data.filter (·.pickup_status == "completed")).length : ℚ) /
          location_data.length
      historical_count := location_data.length }

/-- The `TrackerService.analyzeLocationPatterns`: the insertion-ordered pattern
map. -/
def analyzeLocationPatterns (env : Env) (locations : List String) :
    List (String × LocationPattern) :=
  locations.map fun location => (location, computeLocationPattern env location)

/-- The `TrackerService.calculateOptimalTime` (lines 968-981): peak hour clamped
to the supplied window (JavaScript string comparison). -/
def calculateOptimalTime (pattern : LocationPattern)
    (input : PickupOptimizationInput) : String :=
  let peak_start := pattern.time_distribution.peak_start
  match input.time_constraints with
  | none => peak_start
  | some tc =>
      if peak_start < tc.earliest_pickup then tc.earliest_pickup
      else if peak_start > tc.latest_pickup then tc.latest_pickup
      else peak_start

/-- The `TrackerService.estimateVolume` (lines 983-995); both `|| 1.0` defaults
also catch a stored factor of `0`. -/
def estimateVolume (env : Env) (pattern : LocationPattern)
    (input : PickupOptimizationInput) : ℚ :=
  let day := env.weekdayName input.date
  let day_factor :=
    match (pattern.day_patterns.find? (·.1 == day)).map (·.2) with
    | none => 1
    | some v => if v = 0 then 1 else v
  let student_factor :=
    match env.external_data.find? (·.date == input.date) with
    | none => 1
    | some e => if e.student_population_factor = 0 then 1
                else e.student_population_factor
  (jsRound (pattern.avg_volume * day_factor * student_factor) : ℚ)

/-- The `TrackerService.selectBestDestination` (lines 997-1006); the
`destinations[0] || 'Local Food Bank'` default also catches an empty
string. -/
def selectBestDestination (pattern : LocationPattern)
    (priorities : Option (List String)) : String :=
  let fallback :=
    match pattern.destinations.head? with
    | none => "Local Food Bank"
    | some d => if d = "" then "Local Food Bank" else d
  match priorities with
  | some ps =>
      if ps.length ≠ 0 then
        match pattern.destinations.find? fun dest =>
            ps.any fun p => jsIncludes dest.toLower p.toLower with
        | some d => d
        | none => fallback
      else fallback
  | none => fallback

/-- The `TrackerService.calculatePriorityScore` (lines 1008-1021). -/
def calculatePriorityScore (pattern : LocationPattern) : ℚ :=
  jsMin 100 (50 + jsMin 30 pattern.avg_volume + pattern.success_rate * 20 +
    jsMin 10 (pattern.historical_count : ℚ))

/-- The `TrackerService.getEstimatedDistance` (lines 1052-1059): the distance
matrix holds only the `default` entry of 5.5 miles, and no
`source-destination` key (which always contains a dash) can collide with
it, so the lookup is constant. -/
def getEstimatedDistance (_source _destination : String) : ℚ := 11/2

/-- The `TrackerService.estimateTransportCost` (lines 1023-1030): rounded to
cents. -/
def estimateTransportCost (source destination : String) (volume : ℚ) : ℚ :=
  (jsRound ((8 + getEstimatedDistance source destination * (1/2) +
    volume * (1/10)) * 100) : ℚ) / 100

/-- The `TrackerService.estimateDuration` (lines 1032-1037). -/
def estimateDuration (source destination : String) (volume : ℚ) : ℚ :=
  (jsRound (getEstimatedDistance source destination * 2 +
    jsMax 15 (volume * (1/2))) : ℚ)

/-- The `TrackerService.calculateEfficiencyScore` (lines 1039-1050); the
`cost / volume` division yields `0` for zero volume in this model. -/
def calculateEfficiencyScore (volume cost : ℚ) : ℚ :=
  let cost_per_pound := cost / volume
  jsMin 100 (50 + jsMax 0 (20 - cost_per_pound * 2) + jsMin 30 (volume * (1/2)))

/-- The `TrackerService.getDistancePenalty` (lines 1061-1064). -/
def getDistancePenalty (f t : String) : ℚ :=
  jsMin 20 (getEstimatedDistance f t * 2)

/-- The `TrackerService.calculateTotalDistance` (lines 1066-1074). -/
def calculateTotalDistance (locations : List String) : ℚ :=
  if locations.length ≤ 1 then 0
  else ((locations.zip locations.tail).map fun p =>
    getEstimatedDistance p.1 p.2).sum

/-- The `TrackerService.generatePickupSuggestions` (lines 684-723): one
candidate pickup per available location (skipping locations absent from the
pattern map), sorted by descending priority score (stable). -/
def generatePickupSuggestions (env : Env) (input : PickupOptimizationInput)
    (patterns : List (String × LocationPattern)) : List OptimizedPickup :=
  let st := input.available_locations.foldl
    (fun (st : List OptimizedPickup × ℕ) location =>
      match (patterns.find? (·.1 == location)).map (·.2) with
      | none => st
      | some pattern =>
          let optimal_time := calculateOptimalTime pattern input
          let estimated_volume := estimateVolume env pattern input
          let destination := selectBestDestination pattern input.priority_destinations
          let priority_score := calculatePriorityScore pattern
          let transport_cost := estimateTransportCost location destination estimated_volume
          let efficiency_score := calculateEfficiencyScore estimated_volume transport_cost
          (st.1 ++
            [{ pickup_id := "PU" ++ toString (env.epochOfDate input.date) ++
                 "_" ++ toString st.2
               source_location := location
               destination_partner := destination
               recommended_time := optimal_time
               estimated_volume := estimated_volume
               estimated_duration := estimateDuration location destination estimated_volume
               transport_cost := transport_cost
               driver_assignment := ""
               priority_score := priority_score
               efficiency_score := efficiency_score }],
            st.2 + 1))
    ([], 1)
  st.1.mergeSort fun a b => b.priority_score ≤ a.priority_score

/-- The `TrackerService.findBestNextPickup` (lines 802-817): among the pickups
that keep the cumulative volume within `max_volume`, the one maximising
`0.4 * priority + 0.4 * efficiency - 0.2 * distance_penalty`; the source's
`reduce` starts from the first feasible element with a best score of `0`
(the `(best as any).composite_score || 0` access), so the first element
stands unless some element scores strictly above `0` and above the running
best. -/
def findBestNextPickup (current_location : String)
    (available : List OptimizedPickup) (current_volume max_volume : ℚ) :
    Option OptimizedPickup :=
  let feasible := available.filter fun p =>
    decide (current_volume + p.estimated_volume ≤ max_volume)
  match feasible with
  | [] => none
  | f0 :: _ =>
      let best := feasible.foldl
        (fun (best : OptimizedPickup × ℚ) pickup =>
          let distance_penalty := getDistancePenalty current_location pickup.source_location
          let composite_score := pickup.priority_score * (4/10) +
            pickup.efficiency_score * (4/10) - distance_penalty * (2/10)
          if composite_score > best.2 then (pickup, composite_score) else best)
        (f0, 0)
      some best.1

/-- Mutable state of the `createOptimalRoute` greedy loop. -/
structure RouteBuildState where
  route_pickups : List OptimizedPickup
  available : List OptimizedPickup
  current_location : String
  total_volume : ℚ
  total_time : ℚ
  deriving DecidableEq, Repr

/-- One iteration of the `createOptimalRoute` loop (lines 768-784): take
the best feasible next pickup, assign the driver, and remove it from the
pool by `pickup_id`; a stuck state (empty pool or no feasible pickup) is
left unchanged, which models the `break`. -/
def routeStep (driver : String) (st : RouteBuildState) : RouteBuildState :=
  if st.available.length = 0 then st
  else
    match findBestNextPickup st.current_location st.available st.total_volume 200 with
    | none => st
    | some best =>
        { route_pickups := st.route_pickups ++ [{ best with driver_assignment := driver }]
          available := st.available.eraseP fun p => p.pickup_id == best.pickup_id
          current_location := best.destination_partner
          total_volume := st.total_volume + best.estimated_volume
          total_time := st.total_time + best.estimated_duration }

/-- The `TrackerService.createOptimalRoute` (lines 757-800): at most
`max_pickups_per_route = 4` iterations under the
`max_total_volume = 200` lbs cap, starting from the `depot`; returns the
route together with the remaining pool (the source splices assigned pickups
out of the caller's array). -/
def createOptimalRoute (driver : String)
    (available_pickups : List OptimizedPickup) (now : ℤ) :
    RouteOptimization × List OptimizedPickup :=
  let st := (routeStep driver)^[4]
    { route_pickups := [], available := available_pickups
      current_location := "depot", total_volume := 0, total_time := 0 }
  let locations := st.route_pickups.map (·.source_location)
  ({ route_id := "RT_" ++ driver ++ "_" ++ toString now
     driver := driver
     locations := locations
     total_distance := calculateTotalDistance locations
     total_time := st.total_time
     total_volume := st.total_volume
     total_cost := (st.route_pickups.map (·.transport_cost)).sum
     pickups := st.route_pickups }, st.available)

/-- The `TrackerService.updateRouteMetrics` (lines 1076-1081): recomputes the
totals from the pickups; the `locations` array (and hence
`total_distance`) is not extended by the leftover-append step. -/
def updateRouteMetrics (route : RouteOptimization) : RouteOptimization :=
  { route with
    total_volume := (route.pickups.map (·.estimated_volume)).sum
    total_cost := (route.pickups.map (·.transport_cost)).sum
    total_time := (route.pickups.map (·.estimated_duration)).sum
    total_distance := calculateTotalDistance route.locations }

/-- Index of the route chosen by
`routes.reduce((best, route) => route.total_time < best.total_time ? route : best)`:
the first route of minimal accumulated time. -/
def leastTimeIdx (routes : List RouteOptimization) : ℕ :=
  (List.range routes.length).foldl
    (fun best k =>
      if (routes.getD k default).total_time < (routes.getD best default).total_time
      then k else best)
    0

/-- The leftover-handling body of `optimizeRoutes` (lines 743-752): append
the pickup to the least-time route and recompute that route's metrics.  An
empty route list is left unchanged (JavaScript `reduce` would throw; the
callers guarantee non-emptiness whenever a leftover exists). -/
def appendLeftover (routes : List RouteOptimization)
    (pickup : OptimizedPickup) : List RouteOptimization :=
  if routes.length = 0 then routes
  else
    let i := leastTimeIdx routes
    let best := routes.getD i default
    let best' := updateRouteMetrics
      { best with pickups := best.pickups ++ [{ pickup with driver_assignment := best.driver }] }
    routes.set i best'

/-- The `TrackerService.optimizeRoutes` (lines 725-755): one greedy route per
driver while pickups remain (`createOptimalRoute` already splices assigned
pickups out of the shared array, so the subsequent removal loop of the
source finds nothing; it is modelled verbatim all the same).  This is the
per-driver phase; leftovers are handled by `optimizeRoutes` below. -/
def driverAssignment (pickups : List OptimizedPickup) (drivers : List String)
    (now : ℤ) : List RouteOptimization × List OptimizedPickup :=
  drivers.foldl
    (fun (st : List RouteOptimization × List OptimizedPickup) driver =>
      if st.2.length = 0 then st
      else
        let rr := createOptimalRoute driver st.2 now
        let remaining := rr.1.pickups.foldl
          (fun rem p => rem.eraseP fun q => q.pickup_id == p.pickup_id) rr.2
        (st.1 ++ [rr.1], remaining))
    ([], pickups)

/-- The leftover phase appended to the driver phase. -/
def optimizeRoutes (pickups : List OptimizedPickup) (drivers : List String)
    (now : ℤ) : List RouteOptimization :=
  let st := driverAssignment pickups drivers now
  st.2.foldl appendLeftover st.1

/-- Aggregate totals of `TrackerService.calculateTotals` (lines 819-838). -/
structure Totals where
  volume : ℚ
  meals : ℚ
  co2 : ℚ
  cost : ℚ
  deriving DecidableEq, Repr

/-- The `TrackerService.calculateTotals`: 2.5 meals and 3.2 lbs CO2 per pound. -/
def calculateTotals (routes : List RouteOptimization) : Totals :=
  routes.foldl
    (fun t route =>
      let t1 := { t with volume := t.volume + route.total_volume
                         cost := t.cost + route.total_cost }
      route.pickups.foldl
        (fun t p => { t with meals := t.meals + p.estimated_volume * (5/2)
                             co2 := t.co2 + p.estimated_volume * (16/5) })
        t1)
    { volume := 0, meals := 0, co2 := 0, cost := 0 }

/-- The `TrackerService.calculateEfficiencyMetrics` (lines 840-849). -/
def calculateEfficiencyMetrics (totals : Totals) : EfficiencyMetrics :=
  let total_pickups : ℤ := if totals.volume > 0 then Rat.ceil (totals.volume / 50) else 1
  { avg_pickup_time := 25
    cost_per_pound := if totals.volume > 0 then totals.cost / totals.volume else 0
    meals_per_dollar := if totals.cost > 0 then totals.meals / totals.cost else 0
    co2_per_pickup := if total_pickups > 0 then totals.co2 / (total_pickups : ℚ) else 0 }

/-- The `TrackerService.analyzePeakTimes` (lines 1083-1094). -/
def analyzePeakTimes (patterns : List (String × LocationPattern)) :
    (String × String) :=
  let all_peak_starts := patterns.map fun p =>
    jsParseInt ((p.2.time_distribution.peak_start.splitOn ":").headD "")
  let avg_peak_hour := jsRound (((all_peak_starts.sum : ℤ) : ℚ) / all_peak_starts.length)
  (toString avg_peak_hour ++ ":00", toString (avg_peak_hour + 2) ++ ":00")

/-- The `TrackerService.generateRecommendations` (lines 851-889). -/
def generateRecommendations (env : Env) (input : PickupOptimizationInput)
    (patterns : List (String × LocationPattern)) : Recommendations :=
  let peak := analyzePeakTimes patterns
  let high_cost_locations := (patterns.filter fun p => decide (p.2.avg_cost > 15)).map (·.1)
  let low_efficiency_locations :=
    (patterns.filter fun p => decide (p.2.success_rate < 8/10)).map (·.1)
  { optimal_timing := ["Best pickup window: " ++ peak.1 ++ " - " ++ peak.2]
    cost_saving_tips :=
      if high_cost_locations.length ≠ 0 then
        ["Consider consolidating pickups from: " ++
          String.intercalate ", " high_cost_locations]
      else []
    efficiency_improvements :=
      (if low_efficiency_locations.length ≠ 0 then
        ["Improve coordination with: " ++
          String.intercalate ", " low_efficiency_locations]
      else []) ++
      (match env.external_data.find? (·.date == input.date) with
       | some e =>
           if jsIncludes e.weather_condition.toLower "rain" then
             ["Allow extra time for rainy weather conditions"]
           else []
       | none => []) }

/-- The `TrackerService.optimizePickups` (lines 610-635). -/
def optimizePickups (env : Env) (input : PickupOptimizationInput) (now : ℤ) :
    TrackerResult :=
  let location_insights := analyzeLocationPatterns env input.available_locations
  let pickup_suggestions := generatePickupSuggestions env input location_insights
  let optimized_routes := optimizeRoutes pickup_suggestions input.available_drivers now
  let totals := calculateTotals optimized_routes
  { optimized_routes := optimized_routes
    total_volume_rescued := totals.volume
    total_meals_equivalent := totals.meals
    total_co2_savings := totals.co2
    total_transport_cost := totals.cost
    efficiency_metrics := calculateEfficiencyMetrics totals
    recommendations := generateRecommendations env input location_insights }

end TrackerService

namespace ImpactService

/-! Embedding of the `ImpactService` class (impactService.ts), restricted
to the projection pipeline and the historical comparison the claims
exercise.  `Math.random()` inside `calculatePercentageChange` is modelled
as an explicit oracle argument. -/

/-- The `ImpactMetrics`. -/
structure ImpactMetrics where
  food_rescued_lbs : ℚ
  meals_provided : ℚ
  co2_emissions_avoided_lbs : ℚ
  money_saved : ℚ
  waste_disposal_cost_avoided : ℚ
  volunteer_hours : ℚ
  operational_savings : ℚ
  community_impact_score : ℚ
  deriving DecidableEq, Repr

/-- The `projection_period` union type. -/
inductive ProjectionPeriod
  | week
  | month
  | quarter
  | year
  deriving DecidableEq, Repr

/-- The optional `intervention_scenarios` input component. -/
structure InterventionScenarios where
  waste_reduction_target : Option ℚ
  pickup_efficiency_improvement : Option ℚ
  cost_optimization_target : Option ℚ
  deriving DecidableEq, Repr

/-- The `ImpactProjectionInput`. -/
structure ImpactProjectionInput where
  projection_period : ProjectionPeriod
  intervention_scenarios : Option InterventionScenarios
  baseline_date : Option String
  deriving DecidableEq, Repr

/-- Field-wise daily averages (`ImpactService.calculateDailyAverages`,
lines 124-150). -/
structure DailyAverages where
  food_rescued_lbs_daily : ℚ
  meals_provided_to_community_daily : ℚ
  co2_emissions_avoided_lbs_daily : ℚ
  money_saved_daily : ℚ
  waste_disposal_cost_avoided_daily : ℚ
  volunteer_hours_daily : ℚ
  operational_savings_daily : ℚ
  community_impact_score_daily : ℚ
  deriving DecidableEq, Repr

/-- The `ImpactService.calculateDailyAverages`: totals divided by the record
count. -/
def calculateDailyAverages (data : List ImpactTracking) : DailyAverages :=
  { food_rescued_lbs_daily := listAvg (data.map (·.food_rescued_lbs_daily))
    meals_provided_to_community_daily :=
      listAvg (data.map (·.meals_provided_to_community_daily))
    co2_emissions_avoided_lbs_daily :=
      listAvg (data.map (·.co2_emissions_avoided_lbs_daily))
    money_saved_daily := listAvg (data.map (·.money_saved_daily))
    waste_disposal_cost_avoided_daily :=
      listAvg (data.map (·.waste_disposal_cost_avoided_daily))
    volunteer_hours_daily := listAvg (data.map (·.volunteer_hours_daily))
    operational_savings_daily := listAvg (data.map (·.operational_savings_daily))
    community_impact_score_daily :=
      listAvg (data.map (·.community_impact_score_daily)) }

/-- The eight per-metric trend multipliers. -/
structure TrendMultipliers where
  food_rescued : ℚ
  meals : ℚ
  co2 : ℚ
  money : ℚ
  waste_cost : ℚ
  volunteer : ℚ
  operational : ℚ
  community : ℚ
  deriving DecidableEq, Repr

/-- The `ImpactService.calculateTrendRatio` (lines 213-218): a zero prior
average short-circuits to `1.0`; otherwise the ratio is clamped to
`[0.8, 1.3]`. -/
def calculateTrendRatio (recent older : ℚ) : ℚ :=
  if older = 0 then 1 else jsMax (8/10) (jsMin (13/10) (recent / older))

/-- The `ImpactService.calculateTrendMultipliers` (lines 180-211): last-14-day
window over prior-14-day window, with mild-growth defaults when either
window is empty. -/
def calculateTrendMultipliers (impact_data : List ImpactTracking) :
    TrendMultipliers :=
  let recent_data := sliceLast impact_data 14
  let older_data := sliceNeg impact_data 28 14
  if recent_data.length = 0 ∨ older_data.length = 0 then
    { food_rescued := 102/100, meals := 102/100, co2 := 102/100
      money := 101/100, waste_cost := 101/100, volunteer := 1
      operational := 101/100, community := 101/100 }
  else
    let r := calculateDailyAverages recent_data
    let o := calculateDailyAverages older_data
    { food_rescued := calculateTrendRatio r.food_rescued_lbs_daily o.food_rescued_lbs_daily
      meals := calculateTrendRatio r.meals_provided_to_community_daily
        o.meals_provided_to_community_daily
      co2 := calculateTrendRatio r.co2_emissions_avoided_lbs_daily
        o.co2_emissions_avoided_lbs_daily
      money := calculateTrendRatio r.money_saved_daily o.money_saved_daily
      waste_cost := calculateTrendRatio r.waste_disposal_cost_avoided_daily
        o.waste_disposal_cost_avoided_daily
      volunteer := calculateTrendRatio r.volunteer_hours_daily o.volunteer_hours_daily
      operational := calculateTrendRatio r.operational_savings_daily
        o.operational_savings_daily
      community := calculateTrendRatio r.community_impact_score_daily
        o.community_impact_score_daily }

/-- The three scenario multipliers. -/
structure ScenarioMultipliers where
  waste_reduction : ℚ
  pickup_efficiency : ℚ
  cost_optimization : ℚ
  deriving DecidableEq, Repr

/-- The `ImpactService.calculateScenarioMultipliers` (lines 220-234):
`1 + target/100` per supplied field. -/
def calculateScenarioMultipliers (scenarios : Option InterventionScenarios) :
    ScenarioMultipliers :=
  match scenarios with
  | none => { waste_reduction := 1, pickup_efficiency := 1, cost_optimization := 1 }
  | some s =>
      { waste_reduction := 1 + s.waste_reduction_target.getD 0 / 100
        pickup_efficiency := 1 + s.pickup_efficiency_improvement.getD 0 / 100
        cost_optimization := 1 + s.cost_optimization_target.getD 0 / 100 }

/-- The period multiplier table of `projectFutureImpact`. -/
def periodMultiplier : ProjectionPeriod → ℚ
  | .week => 1/52
  | .month => 1/12
  | .quarter => 1/4
  | .year => 1

/-- The `ImpactService.projectFutureImpact` (lines 152-178): every metric is
`current * period_multiplier * trend_multiplier * scenario_multiplier`,
where the community score always takes a scenario multiplier of `1.0`. -/
def projectFutureImpact (impact_data : List ImpactTracking)
    (current : ImpactMetrics) (input : ImpactProjectionInput) : ImpactMetrics :=
  let trend := calculateTrendMultipliers impact_data
  let pm := periodMultiplier input.projection_period
  let sm := calculateScenarioMultipliers input.intervention_scenarios
  { food_rescued_lbs :=
      current.food_rescued_lbs * pm * trend.food_rescued * sm.waste_reduction
    meals_provided := current.meals_provided * pm * trend.meals * sm.waste_reduction
    co2_emissions_avoided_lbs :=
      current.co2_emissions_avoided_lbs * pm * trend.co2 * sm.waste_reduction
    money_saved := current.money_saved * pm * trend.money * sm.cost_optimization
    waste_disposal_cost_avoided :=
      current.waste_disposal_cost_avoided * pm * trend.waste_cost * sm.waste_reduction
    volunteer_hours := current.volunteer_hours * pm * trend.volunteer * sm.pickup_efficiency
    operational_savings :=
      current.operational_savings * pm * trend.operational * sm.cost_optimization
    community_impact_score :=
      current.community_impact_score * pm * trend.community * 1 }

/-- The `ImpactService.calculatePercentageChange` (lines 374-378): a pure
function of the `Math.random()` draw, rounded to two decimals. -/
def calculatePercentageChange (rand : ℚ) : ℚ :=
  (jsRound ((rand - 1/2) * 40 * 100) : ℚ) / 100

/-- The `ImpactService.getDefaultMetrics` (lines 296-307). -/
def getDefaultMetrics : ImpactMetrics :=
  { food_rescued_lbs := 15000, meals_provided := 18000
    co2_emissions_avoided_lbs := 48000, money_saved := 52500
    waste_disposal_cost_avoided := 4500, volunteer_hours := 1200
    operational_savings := 8000, community_impact_score := 75 }

/-- The `ImpactService.getDataForPeriod` (lines 326-330): month-prefix
filtering. -/
def getDataForPeriod (impact_data : List ImpactTracking) (period : String) :
    List ImpactTracking :=
  impact_data.filter (·.date.startsWith period)

/-- The `ImpactService.calculatePeriodMetrics` (lines 332-356): per-field
totals, defaults on empty data. -/
def calculatePeriodMetrics (data : List ImpactTracking) : ImpactMetrics :=
  if data.length = 0 then getDefaultMetrics
  else
    { food_rescued_lbs := (data.map (·.food_rescued_lbs_daily)).sum
      meals_provided := (data.map (·.meals_provided_to_community_daily)).sum
      co2_emissions_avoided_lbs := (data.map (·.co2_emissions_avoided_lbs_daily)).sum
      money_saved := (data.map (·.money_saved_daily)).sum
      waste_disposal_cost_avoided := (data.map (·.waste_disposal_cost_avoided_daily)).sum
      volunteer_hours := (data.map (·.volunteer_hours_daily)).sum
      operational_savings := (data.map (·.operational_savings_daily)).sum
      community_impact_score := (data.map (·.community_impact_score_daily)).sum }

/-- The `ImpactService.calculatePeriodTrend` (lines 358-372). -/
def calculatePeriodTrend (impact_data : List ImpactTracking) (period : String) :
    String :=
  let period_data := getDataForPeriod impact_data period
  if period_data.length < 7 then "stable"
  else
    let first_avg := listAvg ((period_data.take 7).map (·.community_impact_score_daily))
    let last_avg := listAvg ((sliceLast period_data 7).map (·.community_impact_score_daily))
    if last_avg > first_avg * (105/100) then "improving"
    else if last_avg < first_avg * (95/100) then "declining"
    else "stable"

/-- The `ComparisonMetrics`. -/
structure ComparisonMetrics where
  period : String
  metrics : ImpactMetrics
  trend : String
  percentage_change : ℚ
  deriving DecidableEq, Repr

/-- The `ImpactService.getHistoricalComparison` (lines 310-324): `rand i` is
the `Math.random()` draw consumed for the `i`-th period. -/
def getHistoricalComparison (impact_data : List ImpactTracking)
    (periods : List String) (rand : ℕ → ℚ) : List ComparisonMetrics :=
  periods.enum.map fun p =>
    { period := p.2
      metrics := calculatePeriodMetrics (getDataForPeriod impact_data p.2)
      trend := calculatePeriodTrend impact_data p.2
      percentage_change := calculatePercentageChange (rand p.1) }

end ImpactService

/-! Claim-side definitions: formalisations of phrases of the specification
that the code is compared against.  These follow the words of the spec and
of the claims, not the source. -/

/-- The "fixed ±20-30%-of-predicted-value rule" for a confidence interval,
as stated by claim C3: the bounds are `predicted_waste * (1 ∓ p)` for a
single percentage `p` between 20% and 30%. -/
def ciFromPercentRule (r : ForecastResult) : Prop :=
  ∃ p : ℚ, 2/10 ≤ p ∧ p ≤ 3/10 ∧
    r.confidence_interval.lower = ((r.predicted_waste * (1 - p) : ℚ) : ℝ) ∧
    r.confidence_interval.upper = ((r.predicted_waste * (1 + p) : ℚ) : ℝ)

/-- The trend multiplier exactly as claim C6 words it: "the
recent-14-day over prior-14-day average ratio clamped to [0.8, 1.3]"
(without the source's special case for a zero prior average). -/
def claimedTrendRatio (recent older : ℚ) : ℚ :=
  jsMax (8/10) (jsMin (13/10) (recent / older))

/-- A tracker route with its `route_id` blanked, used to state which part
of the tracker output depends on the `Date.now()` clock. -/
def TrackerService.stripRouteId (r : TrackerService.RouteOptimization) :
    TrackerService.RouteOptimization :=
  { r with route_id := "" }

/-- A tracker result with every `route_id` blanked. -/
def TrackerService.stripRouteIds (res : TrackerService.TrackerResult) :
    TrackerService.TrackerResult :=
  { res with optimized_routes := res.optimized_routes.map TrackerService.stripRouteId }

/-- A comparison row with its random `percentage_change` blanked, used to
state which part of the impact comparison depends on `Math.random()`. -/
def ImpactService.stripPercentageChange (c : ImpactService.ComparisonMetrics) :
    ImpactService.ComparisonMetrics :=
  { c with percentage_change := 0 }

/-- Claim C2's feasibility notion: some nonempty choice from the available
items whose generated recommendations cost at most the budget. -/
def PlannerService.feasibleMenuChoice (env : PlannerService.Env)
    (input : PlannerService.PlannerInput) (b : ℚ) : Prop :=
  ∃ sel : List MenuPlanning, sel ≠ [] ∧
    (∀ m ∈ sel, m ∈ PlannerService.getAvailableItems env input.target_categories
      (input.avoid_items.getD [])) ∧
    ((sel.map fun m => PlannerService.generateRecommendation
        (PlannerService.scoreMenuItem env m input) input).map
      fun r => r.recommended_quantity * r.cost_per_serving).sum ≤ b

/-! Concrete fixtures used by the counterexample and witness theorems. -/

/-- A high-popularity lunch dish with no production history. -/
def lunchItemA : MenuPlanning :=
  { week_start_date := "2024-06-03", menu_category := "lunch"
    dish_name := "Alpha Wrap", dish_type := "main"
    preparation_time_hours := 1, ingredient_cost_per_serving := 2
    selling_price := 5, shelf_life_hours := 48, popularity_score := 10
    nutritional_category := "balanced", season_appropriateness := "all_season"
    prep_difficulty := "easy", equipment_needed := "none", allergens := "none" }

/-- A low-popularity lunch dish whose history shows 30% waste. -/
def lunchItemB : MenuPlanning :=
  { week_start_date := "2024-06-03", menu_category := "lunch"
    dish_name := "Beta Bowl", dish_type := "main"
    preparation_time_hours := 1, ingredient_cost_per_serving := 2
    selling_price := 5, shelf_life_hours := 48, popularity_score := 1
    nutritional_category := "balanced", season_appropriateness := "all_season"
    prep_difficulty := "easy", equipment_needed := "none", allergens := "none" }

/-- The single production row backing `lunchItemB` (30% waste on a
Sunday). -/
def prodRowB : DailyProduction :=
  { date := "2024-01-07", day_of_week := "Sunday", menu_item := "Beta Bowl"
    category := "lunch", quantity_prepared := 100, quantity_served := 70
    quantity_wasted := 30, waste_percentage := 30, estimated_students := 1000
    weather := "sunny", special_event := "none", temperature_f := 70 }

/-- Planner state for the claim C2 counterexample (2024-06-04 is a
Tuesday in June). -/
def plannerEnvC2 : PlannerService.Env :=
  { production_data := [prodRowB], menu_data := [lunchItemA, lunchItemB]
    external_data := [], weekdayName := fun _ => "Tuesday"
    monthOfDate := fun _ => 5 }

/-- Planner input for the claim C2 counterexample: a $40 budget that no
item's estimated cost fits, although `lunchItemB` alone actually costs
$34. -/
def plannerInputC2 : PlannerService.PlannerInput :=
  { date := "2024-06-04", estimated_students := 1000
    budget_constraint := some 40, dietary_requirements := none
    avoid_items := none, target_categories := ["lunch"] }

/-- Planner input for the claim C2 witness: a $60 budget that
`lunchItemB`'s estimated cost of $48 fits. -/
def plannerInputC2w : PlannerService.PlannerInput :=
  { date := "2024-06-04", estimated_students := 1000
    budget_constraint := some 60, dietary_requirements := none
    avoid_items := none, target_categories := ["lunch"] }

/-- Planner state for the claim C8 counterexample: the catalog is stored
out of popularity order. -/
def plannerEnvC8 : PlannerService.Env :=
  { production_data := [], menu_data := [lunchItemB, lunchItemA]
    external_data := [], weekdayName := fun _ => "Tuesday"
    monthOfDate := fun _ => 5 }

/-- Tracker state with no history: every location takes the default
pattern (45 lbs per pickup). -/
def trackerEnvC1 : TrackerService.Env :=
  { pickup_data := [], external_data := []
    weekdayName := fun _ => "Tuesday", epochOfDate := fun _ => 0 }

/-- Tracker input for the claim C1 counterexample: five 45-lb candidates
for a single driver. -/
def trackerInputC1 : TrackerService.PickupOptimizationInput :=
  { date := "2024-06-04"
    available_locations := ["L1", "L2", "L3", "L4", "L5"]
    available_drivers := ["D1"], estimated_food_volume := 0
    priority_destinations := none, time_constraints := none }

/-- Tracker input with a single candidate, used by the claim C4
counterexample and the claim C1 witness. -/
def trackerInputC4 : TrackerService.PickupOptimizationInput :=
  { date := "2024-06-04", available_locations := ["L1"]
    available_drivers := ["D1"], estimated_food_volume := 0
    priority_destinations := none, time_constraints := none }

/-- An impact row whose daily money saving is `0` (every other metric is
`1`). -/
def impactRow0 : ImpactTracking :=
  { date := "2024-05-01", day_of_week := "Wednesday", food_cost_daily := 1
    food_waste_cost_daily := 1, food_rescued_lbs_daily := 1
    money_saved_daily := 0, co2_emissions_avoided_lbs_daily := 1
    meals_provided_to_community_daily := 1, volunteer_hours_daily := 1
    transport_costs_daily := 1, operational_savings_daily := 1
    waste_disposal_cost_avoided_daily := 1, active_partner_orgs_daily := 1
    community_impact_score_daily := 1 }

/-- An impact row whose daily money saving is `13`. -/
def impactRow13 : ImpactTracking :=
  { impactRow0 with date := "2024-05-20", money_saved_daily := 13 }

/-- Impact history for the claim C6 counterexample: a prior 14-day window
with zero money saved followed by a recent window averaging 13. -/
def impactDataC6 : List ImpactTracking :=
  List.replicate 14 impactRow0 ++ List.replicate 14 impactRow13

/-- Current metrics for the claim C6 counterexample. -/
def currentC6 : ImpactService.ImpactMetrics :=
  { food_rescued_lbs := 100, meals_provided := 100
    co2_emissions_avoided_lbs := 100, money_saved := 100
    waste_disposal_cost_avoided := 100, volunteer_hours := 100
    operational_savings := 100, community_impact_score := 100 }

/-- Yearly projection with no scenarios, for the claim C6 counterexample. -/
def impactInputC6 : ImpactService.ImpactProjectionInput :=
  { projection_period := .year, intervention_scenarios := none
    baseline_date := none }

/-- A production row of the `Entree` category with 10% waste, backing the
claim C3 counterexample. -/
def prodRowSteak : DailyProduction :=
  { date := "2024-01-02", day_of_week := "Tuesday", menu_item := "Steak"
    category := "Entree", quantity_prepared := 100, quantity_served := 90
    quantity_wasted := 10, waste_percentage := 10, estimated_students := 1000
    weather := "sunny", special_event := "none", temperature_f := 70 }

/-- The `ForecastModel` state for the claim C3 counterexample. -/
def fmEnvC3 : ForecastModel.Env :=
  { production_data := [prodRowSteak], external_data := []
    getDay := fun _ => 2, getMonth := fun _ => 0 }

/-- Forecast input naming a dish with zero history. -/
def fInputC3 : ForecastInput :=
  { menu_item := "Ghost", date := "2024-06-04", weather := none
    temperature := none, special_event := none, estimated_students := none
    quantity_to_prepare := 100 }

/-- The `ForecastService` state for the claim C3 witness (empty store: the
overall-average fallback). -/
def fsEnvC3 : ForecastService.Env :=
  { production_data := [], external_data := []
    weekdayName := fun _ => "Tuesday", monthOfDate := fun _ => 5 }

/-- Three production rows of the dish `Pasta` (10%, 20%, 30% waste), for
the claim C10 and C5 witnesses. -/
def fsRowsPasta : List DailyProduction :=
  [ { date := "2024-01-02", day_of_week := "Tuesday", menu_item := "Pasta"
      category := "Entree", quantity_prepared := 100, quantity_served := 90
      quantity_wasted := 10, waste_percentage := 10, estimated_students := 1000
      weather := "sunny", special_event := "none", temperature_f := 70 }
  , { date := "2024-01-09", day_of_week := "Tuesday", menu_item := "Pasta"
      category := "Entree", quantity_prepared := 100, quantity_served := 80
      quantity_wasted := 20, waste_percentage := 20, estimated_students := 1000
      weather := "sunny", special_event := "none", temperature_f := 70 }
  , { date := "2024-01-16", day_of_week := "Tuesday", menu_item := "Pasta"
      category := "Entree", quantity_prepared := 100, quantity_served := 70
      quantity_wasted := 30, waste_percentage := 30, estimated_students := 1000
      weather := "sunny", special_event := "none", temperature_f := 70 } ]

/-- The `ForecastService` state for the claim C10 and C5 witnesses. -/
def fsEnvC10 : ForecastService.Env :=
  { production_data := fsRowsPasta, external_data := []
    weekdayName := fun _ => "Tuesday", monthOfDate := fun _ => 5 }

/-- Forecast input for the dish `Pasta`. -/
def fInputC10 : ForecastInput :=
  { menu_item := "Pasta", date := "2024-06-04", weather := none
    temperature := none, special_event := none, estimated_students := none
    quantity_to_prepare := 100 }

/-- One of five identical zero-waste production rows of the dish `Pasta`,
for the claim C5 counterexample (dates vary). -/
def mkZeroWasteRow (date : String) : DailyProduction :=
  { date := date, day_of_week := "Tuesday", menu_item := "Pasta"
    category := "Entree", quantity_prepared := 100, quantity_served := 100
    quantity_wasted := 0, waste_percentage := 0, estimated_students := 1000
    weather := "sunny", special_event := "none", temperature_f := 70 }

/-- Five zero-waste rows: enough history for the `ForecastModel` regression
path, with a zero target vector. -/
def c5zRows : List DailyProduction :=
  [ mkZeroWasteRow "2024-01-02", mkZeroWasteRow "2024-01-09"
  , mkZeroWasteRow "2024-01-16", mkZeroWasteRow "2024-01-23"
  , mkZeroWasteRow "2024-01-30" ]

/-- The `ForecastModel` state for the claim C5 counterexample. -/
def fmEnvC5 : ForecastModel.Env :=
  { production_data := c5zRows, external_data := []
    getDay := fun _ => 2, getMonth := fun _ => 0 }

/-- Forecast input for the claim C5 counterexample: 100 units of `Pasta`. -/
def fInputC5 : ForecastInput :=
  { menu_item := "Pasta", date := "2024-06-04", weather := some "sunny"
    temperature := some 65, special_event := some "none"
    estimated_students := some 1000, quantity_to_prepare := 100 }

/-- The scored catalog built at the top of `optimizeMenu` (the `map` over
`getAvailableItems`), named so that the greedy-phase state can be spoken
about. -/
def PlannerService.scoredAvailable (env : PlannerService.Env)
    (input : PlannerService.PlannerInput) : List PlannerService.ScoredItem :=
  (PlannerService.getAvailableItems env input.target_categories
    (input.avoid_items.getD [])).map
    fun item => PlannerService.scoreMenuItem env item input

/-- The state of the greedy phase of `selectOptimalCombination` after the
main selection loop, before the back-fill loop. -/
def PlannerService.greedySelection (scored_items : List PlannerService.ScoredItem)
    (input : PlannerService.PlannerInput) : PlannerService.SelectState :=
  (scored_items.mergeSort fun a b =>
    b.scores.composite_score ≤ a.scores.composite_score).foldl
    (PlannerService.selectStep input)
    { selected := [], counts := fun _ => 0, total_cost := 0 }

/-- JavaScript double values on the forecast factor path: a finite value
(kept exact as a rational, since no operation on this path overflows the
double range on the data under discussion), the two infinities, or `NaN`. -/
inductive JsNumber
  | fin (q : ℚ)
  | posInf
  | negInf
  | nan
  deriving DecidableEq, Repr

/-- IEEE-754 multiplication on those values: `NaN` absorbs everything,
`±Infinity` times zero is `NaN`, otherwise signs rule. -/
def jsMulN : JsNumber → JsNumber → JsNumber
  | .nan, _ => .nan
  | _, .nan => .nan
  | .fin a, .fin b => .fin (a * b)
  | .fin a, .posInf => if a > 0 then .posInf else if a < 0 then .negInf else .nan
  | .fin a, .negInf => if a > 0 then .negInf else if a < 0 then .posInf else .nan
  | .posInf, .fin b => if b > 0 then .posInf else if b < 0 then .negInf else .nan
  | .negInf, .fin b => if b > 0 then .negInf else if b < 0 then .posInf else .nan
  | .posInf, .posInf => .posInf
  | .posInf, .negInf => .negInf
  | .negInf, .posInf => .negInf
  | .negInf, .negInf => .posInf

/-- JavaScript `Math.min` on those values: any `NaN` argument gives `NaN`,
otherwise the order with `-Infinity` below every finite value and
`+Infinity` above. -/
def jsMinN : JsNumber → JsNumber → JsNumber
  | .nan, _ => .nan
  | _, .nan => .nan
  | .fin a, .fin b => .fin (min a b)
  | .fin a, .posInf => .fin a
  | .posInf, .fin b => .fin b
  | .fin _, .negInf => .negInf
  | .negInf, .fin _ => .negInf
  | .posInf, .posInf => .posInf
  | .negInf, .negInf => .negInf
  | .posInf, .negInf => .negInf
  | .negInf, .posInf => .negInf

/-- JavaScript `Math.max` on those values. -/
def jsMaxN : JsNumber → JsNumber → JsNumber
  | .nan, _ => .nan
  | _, .nan => .nan
  | .fin a, .fin b => .fin (max a b)
  | .fin _, .posInf => .posInf
  | .posInf, .fin _ => .posInf
  | .fin a, .negInf => .fin a
  | .negInf, .fin b => .fin b
  | .posInf, .posInf => .posInf
  | .negInf, .negInf => .negInf
  | .posInf, .negInf => .posInf
  | .negInf, .posInf => .posInf

/-- IEEE-754 division of two finite values (the denominator `0` here is
JavaScript's `+0`, as it only ever arises as a sum of nonnegative terms or
an exactly cancelling sum): a positive numerator gives `+Infinity`, a
negative one `-Infinity`, and `0 / 0` gives `NaN`. -/
def jsDivN (a b : ℚ) : JsNumber :=
  if b = 0 then (if a > 0 then .posInf else if a < 0 then .negInf else .nan)
  else .fin (a / b)

/-- The NaN-aware value of `ForecastService.getDayOfWeekFactor` (lines
621-632): identical to `getDayOfWeekFactor` except that the final
`day_avg / overall_avg` keeps its IEEE corner values instead of collapsing
a zero denominator to `0`. -/
def ForecastService.getDayOfWeekFactorN (env : ForecastService.Env)
    (menu_item date : String) : JsNumber :=
  let day_of_week := env.weekdayName date
  let menu_data := env.production_data.filter (·.menu_item == menu_item)
  let day_data := menu_data.filter (·.day_of_week == day_of_week)
  let overall_avg := listAvg (menu_data.map (·.waste_percentage))
  if day_data.length = 0 then .fin 1
  else jsDivN (listAvg (day_data.map (·.waste_percentage))) overall_avg

/-- The NaN-aware value of `adjusted_waste_percentage` in
`ForecastService.predict` (lines 561-584): the same multiplicative chain
and final `Math.max(1, Math.min(50, ...))` clamp, with the day factor's
IEEE corner values kept.  Every other operand on the path is finite, so
only the day factor introduces `NaN` or `±Infinity`. -/
def ForecastService.adjustedWastePercentageN (env : ForecastService.Env)
    (input : ForecastInput) : JsNumber :=
  let menu_item_data := env.production_data.filter (·.menu_item == input.menu_item)
  let historical_waste_avg := listAvg (menu_item_data.map (·.waste_percentage))
  let a1 := jsMulN (.fin historical_waste_avg)
    (.fin (ForecastService.getWeatherFactor (orStr input.weather "sunny")))
  let a2 := jsMulN a1 (ForecastService.getDayOfWeekFactorN env input.menu_item input.date)
  let a3 := jsMulN a2 (.fin (ForecastService.getEventFactor (orStr input.special_event "none")))
  let a4 := jsMulN a3
    (.fin (ForecastService.getStudentFactor (orNum input.estimated_students 1000)))
  jsMaxN (.fin 1) (jsMinN (.fin 50) a4)

/-- The `ForecastService` state for the claim C10 counterexample: five
zero-waste `Pasta` rows, every one on the weekday of the request, so the
day factor is `0 / 0`. -/
def fsEnvC10n : ForecastService.Env :=
  { production_data := c5zRows, external_data := []
    weekdayName := fun _ => "Tuesday", monthOfDate := fun _ => 5 }

end ReFood

/-! ## Theorems -/

namespace ReFood

namespace Statistics

theorem list_sum_map_eq_range (f : ℝ → ℝ) :
    ∀ x : List ℝ, (x.map f).sum = ∑ i in Finset.range x.length, f (x.getD i 0)
  | [] => by simp
  | a :: x => by
    have h := list_sum_map_eq_range f x
    simp only [List.map_cons, List.sum_cons, List.length_cons, h,
      Finset.sum_range_succ']
    simp [List.getD]
    ring

theorem list_sum_eq_range (x : List ℝ) :
    x.sum = ∑ i in Finset.range x.length, x.getD i 0 := by
  simpa using list_sum_map_eq_range id x

theorem corrSumXY_eq_range :
    ∀ x y : List ℝ, x.length = y.length →
      corrSumXY x y = ∑ i in Finset.range x.length, x.getD i 0 * y.getD i 0
  | [], [], _ => by simp [corrSumXY]
  | [], b :: y, h => by simp at h
  | a :: x, [], h => by simp at h
  | a :: x, b :: y, h => by
    have h' : x.length = y.length := by simpa using h
    have ih := corrSumXY_eq_range x y h'
    simp only [corrSumXY, List.zip_cons_cons, List.map_cons, List.sum_cons,
      List.length_cons] at *
    rw [Finset.sum_range_succ']
    simp [ih, List.getD]
    ring

theorem corrSumXY_comm :
    ∀ x y : List ℝ, corrSumXY x y = corrSumXY y x
  | [], [] => rfl
  | [], _ :: _ => rfl
  | _ :: _, [] => rfl
  | a :: x, b :: y => by
    simp [corrSumXY, List.zip_cons_cons, mul_comm] at *
    exact corrSumXY_comm x y

theorem corrNum_comm (x y : List ℝ) (h : x.length = y.length) :
    corrNum x y = corrNum y x := by
  simp [corrNum, corrSumXY_comm x y, h, mul_comm (x.sum) (y.sum)]

theorem corrDenSq_comm (x y : List ℝ) (h : x.length = y.length) :
    corrDenSq x y = corrDenSq y x := by
  simp only [corrDenSq, h]
  ring

/-- Cauchy-Schwarz for the correlation numerator and denominator. -/
theorem corrNum_sq_le (x y : List ℝ) (h : x.length = y.length) :
    corrNum x y ^ 2 ≤ corrDenSq x y := by
  rcases x with - | ⟨a, x⟩
  · have : y = [] := List.length_eq_zero.mp h.symm
    subst this
    simp [corrNum, corrDenSq, corrSumXY]
  set l : List ℝ := a :: x with hl
  set n : ℝ := (l.length : ℝ) with hn
  have hlen : 0 < l.length := by simp [hl]
  have hnpos : (0 : ℝ) < n := by rw [hn]; exact_mod_cast hlen
  set S := Finset.range l.length with hS
  set X : ℕ → ℝ := fun i => l.getD i 0 with hX
  set Y : ℕ → ℝ := fun i => y.getD i 0 with hY
  have hcard : ((S.card : ℝ)) = n := by simp [hS, hn]
  have hSx : l.sum = ∑ i in S, X i := list_sum_eq_range l
  have hSy : y.sum = ∑ i in S, Y i := by
    have := list_sum_eq_range y
    rw [this, ← h]
  have hSxy : corrSumXY l y = ∑ i in S, X i * Y i := corrSumXY_eq_range l y h
  have hSxx : (l.map fun v => v * v).sum = ∑ i in S, X i * X i :=
    list_sum_map_eq_range (fun v => v * v) l
  have hSyy : (y.map fun v => v * v).sum = ∑ i in S, Y i * Y i := by
    have := list_sum_map_eq_range (fun v => v * v) y
    rw [this, ← h]
  have cs := Finset.sum_mul_sq_le_sq_mul_sq S
    (fun i => n * X i - ∑ j in S, X j) (fun i => n * Y i - ∑ j in S, Y j)
  have hab : (∑ i in S, (n * X i - ∑ j in S, X j) * (n * Y i - ∑ j in S, Y j))
      = n * corrNum l y := by
    have hterm : ∀ i ∈ S, (n * X i - ∑ j in S, X j) * (n * Y i - ∑ j in S, Y j)
        = n ^ 2 * (X i * Y i) - (n * ∑ j in S, Y j) * X i
          - (n * ∑ j in S, X j) * Y i + (∑ j in S, X j) * (∑ j in S, Y j) :=
      fun i _ => by ring
    rw [Finset.sum_congr rfl hterm]
    simp only [Finset.sum_add_distrib, Finset.sum_sub_distrib,
      ← Finset.mul_sum, Finset.sum_const, nsmul_eq_mul, hcard]
    simp only [corrNum, hSx, hSy, hSxy, ← hn]
    ring
  have haa : (∑ i in S, (n * X i - ∑ j in S, X j) ^ 2)
      = n * (n * (l.map fun v => v * v).sum - l.sum * l.sum) := by
    have hterm : ∀ i ∈ S, (n * X i - ∑ j in S, X j) ^ 2
        = n ^ 2 * (X i * X i) - (2 * n * ∑ j in S, X j) * X i
          + (∑ j in S, X j) * (∑ j in S, X j) :=
      fun i _ => by ring
    rw [Finset.sum_congr rfl hterm]
    simp only [Finset.sum_add_distrib, Finset.sum_sub_distrib,
      ← Finset.mul_sum, Finset.sum_const, nsmul_eq_mul, hcard]
    simp only [hSx, hSxx]
    ring
  have hbb : (∑ i in S, (n * Y i - ∑ j in S, Y j) ^ 2)
      = n * (n * (y.map fun v => v * v).sum - y.sum * y.sum) := by
    have hterm : ∀ i ∈ S, (n * Y i - ∑ j in S, Y j) ^ 2
        = n ^ 2 * (Y i * Y i) - (2 * n * ∑ j in S, Y j) * Y i
          + (∑ j in S, Y j) * (∑ j in S, Y j) :=
      fun i _ => by ring
    rw [Finset.sum_congr rfl hterm]
    simp only [Finset.sum_add_distrib, Finset.sum_sub_distrib,
      ← Finset.mul_sum, Finset.sum_const, nsmul_eq_mul, hcard]
    simp only [hSy, hSyy]
    ring
  rw [hab, haa, hbb] at cs
  have hmul : (n * corrNum l y) ^ 2 = n ^ 2 * corrNum l y ^ 2 := by ring
  rw [hmul] at cs
  have hrhs : n * ((n * (l.map fun v => v * v).sum - l.sum * l.sum))
      * (n * (n * (y.map fun v => v * v).sum - y.sum * y.sum))
      = n ^ 2 * corrDenSq l y := by
    simp only [corrDenSq, ← hn]
    ring
  rw [hrhs] at cs
  have hn2 : (0 : ℝ) < n ^ 2 := by positivity
  exact le_of_mul_le_mul_left (by simpa [mul_comm] using cs) hn2

/-- Claim C7: `Statistics.correlation` is symmetric on equal-length vectors,
always lies in the interval `[-1, 1]`, and returns `0` (not an error) when
its denominator is `0`. -/
theorem correlation_spec :
    (∀ x y : List ℝ, x.length = y.length →
        correlation x y = correlation y x ∧
        -1 ≤ correlation x y ∧ correlation x y ≤ 1) ∧
    (∀ x y : List ℝ, Real.sqrt (corrDenSq x y) = 0 → correlation x y = 0) := by
  constructor
  · intro x y h
    refine ⟨?_, ?_⟩
    · simp only [correlation, corrNum_comm x y h, corrDenSq_comm x y h]
    · by_cases hden : Real.sqrt (corrDenSq x y) = 0
      · simp [correlation, hden]
      · have hpos : 0 < Real.sqrt (corrDenSq x y) :=
          lt_of_le_of_ne (Real.sqrt_nonneg _) (Ne.symm hden)
        have hsq : corrNum x y ^ 2 ≤ corrDenSq x y := corrNum_sq_le x y h
        have habs : |corrNum x y| ≤ Real.sqrt (corrDenSq x y) := by
          have h1 : |corrNum x y| = Real.sqrt (corrNum x y ^ 2) :=
            (Real.sqrt_sq_eq_abs _).symm
          rw [h1]
          exact Real.sqrt_le_sqrt hsq
        have hb : |correlation x y| ≤ 1 := by
          simp only [correlation, if_neg hden, abs_div,
            abs_of_pos hpos]
          exact (div_le_one hpos).mpr habs
        exact abs_le.mp hb
  · intro x y hden
    simp [correlation, hden]

/-- Witness for claim C7 at the concrete vectors `[1, 2]` and `[3, 7]`,
and at the degenerate single-element vectors `[1]` and `[2]`. -/
theorem correlation_spec_witness :
    (correlation [1, 2] [3, 7] = correlation [3, 7] [1, 2] ∧
      -1 ≤ correlation [1, 2] [3, 7]) ∧
    correlation [1] [2] = 0 := by
  have h := correlation_spec.1 [1, 2] [3, 7] rfl
  have h2 := correlation_spec.2 [1] [2]
    (by norm_num [corrDenSq, Real.sqrt_zero])
  exact ⟨⟨h.1, h.2.1⟩, h2⟩

theorem getD_set_eq_ite (l : List α) (i j : ℕ) (a d : α) :
    (l.set i a).getD j d = if i = j ∧ i < l.length then a else l.getD j d := by
  simp only [List.getD_eq_getElem?_getD, List.getElem?_set]
  by_cases h : i = j
  · subst h
    by_cases h2 : i < l.length
    · simp [h2]
    · simp [h2, List.getElem?_eq_none (by omega : l.length ≤ i)]
  · simp [h]

theorem getD_set_preserve (P : α → Prop) {l : List α} {d : α} (i : ℕ) (a : α)
    (hl : ∀ k, P (l.getD k d)) (ha : P a) : ∀ k, P ((l.set i a).getD k d) := by
  intro k
  rw [getD_set_eq_ite]
  split
  · exact ha
  · exact hl k

theorem getD_mem_or (l : List α) (k : ℕ) (d : α) :
    l.getD k d ∈ l ∨ l.getD k d = d := by
  by_cases h : k < l.length
  · left
    rw [List.getD_eq_getElem?_getD, List.getElem?_eq_getElem h]
    exact List.getElem_mem h
  · right
    rw [List.getD_eq_getElem?_getD, List.getElem?_eq_none (by omega)]
    rfl

theorem mem_zipWith_decomp {f : α → β → γ} :
    ∀ {as : List α} {bs : List β} {c : γ}, c ∈ List.zipWith f as bs →
      ∃ a ∈ as, ∃ b ∈ bs, c = f a b
  | [], _, c, h => by simp at h
  | _ :: _, [], c, h => by simp at h
  | a :: as, b :: bs, c, h => by
    rcases List.mem_cons.mp h with h | h
    · exact ⟨a, by simp, b, by simp, h⟩
    · obtain ⟨a', ha, b', hb, rfl⟩ := mem_zipWith_decomp h
      exact ⟨a', by simp [ha], b', by simp [hb], rfl⟩

theorem elimRow_zero (n : ℕ) (rowi : List ℚ) (hrowi : rowi.getD n 0 = 0)
    (factor : ℚ) :
    ∀ (js : List ℕ) (r : List ℚ), r.getD n 0 = 0 →
      (js.foldl (fun r j => r.set j (r.getD j 0 - factor * rowi.getD j 0)) r).getD n 0 = 0
  | [], _, hr => hr
  | j :: js, r, hr => by
    apply elimRow_zero n rowi hrowi factor js
    rw [getD_set_eq_ite]
    split
    · next h =>
        rw [← h.1] at hr hrowi
        rw [hr, hrowi]
        ring
    · exact hr

theorem eliminateBelow_colZero (i n : ℕ) (aug : List (List ℚ))
    (h : ∀ k, (aug.getD k []).getD n 0 = 0) :
    ∀ k, ((eliminateBelow aug i n).getD k []).getD n 0 = 0 := by
  unfold eliminateBelow
  generalize List.range' (i + 1) (n - (i + 1)) = ks
  induction ks generalizing aug with
  | nil => exact h
  | cons k ks ih =>
      refine ih _ ?_
      exact getD_set_preserve (fun row : List ℚ => row.getD n 0 = 0) _ _ h
        (elimRow_zero n _ (h i) _ _ _ (h k))

theorem swapRows_colZero (i j n : ℕ) (aug : List (List ℚ))
    (h : ∀ k, (aug.getD k []).getD n 0 = 0) :
    ∀ k, ((swapRows aug i j).getD k []).getD n 0 = 0 := by
  unfold swapRows
  exact getD_set_preserve (fun row : List ℚ => row.getD n 0 = 0) _ _
    (getD_set_preserve (fun row : List ℚ => row.getD n 0 = 0) _ _ h (h j)) (h i)

theorem forwardElim_colZero (n : ℕ) (aug : List (List ℚ))
    (h : ∀ k, (aug.getD k []).getD n 0 = 0) :
    ∀ k, ((forwardElim aug n).getD k []).getD n 0 = 0 := by
  unfold forwardElim
  generalize List.range n = is
  induction is generalizing aug with
  | nil => exact h
  | cons i is ih =>
      exact ih _ (eliminateBelow_colZero _ _ _ (swapRows_colZero _ _ _ _ h))

theorem fold_sub_zero (row x : List ℚ) (hx : ∀ k, x.getD k 0 = 0) :
    ∀ (js : List ℕ) (s : ℚ), s = 0 →
      js.foldl (fun s j => s - row.getD j 0 * x.getD j 0) s = 0
  | [], _, hs => hs
  | j :: js, s, hs =>
      fold_sub_zero row x hx js _ (by simp only [hs, hx j]; ring)

theorem backSubst_zero (n : ℕ) (aug : List (List ℚ))
    (h : ∀ k, (aug.getD k []).getD n 0 = 0) :
    ∀ k, (backSubst aug n).getD k 0 = 0 := by
  unfold backSubst
  generalize (List.range n).reverse = is
  have hx : ∀ k, (List.replicate n (0 : ℚ)).getD k 0 = 0 := by
    intro k
    rw [List.getD_eq_getElem?_getD, List.getElem?_replicate]
    split <;> rfl
  generalize List.replicate n (0 : ℚ) = x at hx ⊢
  induction is generalizing x with
  | nil => exact hx
  | cons i is ih =>
      refine ih _ ?_
      refine getD_set_preserve (fun v : ℚ => v = 0) _ _ hx ?_
      have hs := fold_sub_zero (aug.getD i []) x hx
        (List.range' (i + 1) (n - (i + 1))) ((aug.getD i []).getD n 0) (h i)
      rw [hs]
      simp

theorem aug_colZero (A : List (List ℚ)) (b : List ℚ)
    (hb : ∀ x ∈ b, x = 0) (hrow : ∀ row ∈ A, row.length = A.length) :
    ∀ k, ((List.zipWith (fun row bi => row ++ [bi]) A b).getD k []).getD A.length 0 = 0 := by
  intro k
  rcases getD_mem_or (List.zipWith (fun row bi => row ++ [bi]) A b) k [] with hmem | hdef
  · obtain ⟨row, hrowmem, bi, hbi, heq⟩ := mem_zipWith_decomp hmem
    rw [heq, List.getD_eq_getElem?_getD,
      List.getElem?_append_right (by rw [hrow row hrowmem]),
      hrow row hrowmem]
    simp [hb bi hbi]
  · rw [hdef]
    simp

theorem solveLinearSystem_zero (A : List (List ℚ)) (b : List ℚ)
    (hb : ∀ x ∈ b, x = 0) (hrow : ∀ row ∈ A, row.length = A.length) :
    ∀ k, (solveLinearSystem A b).getD k 0 = 0 := by
  intro k
  unfold solveLinearSystem
  exact backSubst_zero _ _ (forwardElim_colZero _ _ (aug_colZero A b hb hrow)) k

theorem transpose_length (m : List (List ℚ)) :
    (transpose m).length = (m.headD []).length := by
  cases m <;> simp [transpose]

theorem multiplyMatrices_length (a b : List (List ℚ)) :
    (multiplyMatrices a b).length = a.length := by
  simp [multiplyMatrices]

theorem multiplyMatrices_row_length (a b : List (List ℚ)) :
    ∀ r ∈ multiplyMatrices a b, r.length = (b.headD []).length := by
  intro r hr
  simp only [multiplyMatrices, List.mem_map] at hr
  obtain ⟨arow, -, rfl⟩ := hr
  simp

theorem fold_add_zero (row v : List ℚ) (hv : ∀ k, v.getD k 0 = 0) :
    ∀ (js : List ℕ) (s : ℚ), s = 0 →
      js.foldl (fun s i => s + row.getD i 0 * v.getD i 0) s = 0
  | [], _, hs => hs
  | j :: js, s, hs =>
      fold_add_zero row v hv js _ (by simp only [hs, hv j]; ring)

theorem multiplyMatrixVector_zero (m : List (List ℚ)) (v : List ℚ)
    (hv : ∀ k, v.getD k 0 = 0) : ∀ x ∈ multiplyMatrixVector m v, x = 0 := by
  intro x hx
  simp only [multiplyMatrixVector, List.mem_map] at hx
  obtain ⟨row, -, rfl⟩ := hx
  exact fold_add_zero row v hv _ 0 rfl

/-- A zero target vector yields all-zero regression coefficients: the
normal-equation right-hand side is zero, the augmented column stays zero
through elimination, and back substitution then produces zeros. -/
theorem multipleRegression_coefficients_zero (X : List (List ℚ)) (y : List ℚ)
    (hy : ∀ k, y.getD k 0 = 0) :
    ∀ k, (multipleRegression X y).coefficients.getD k 0 = 0 := by
  intro k
  unfold multipleRegression
  refine solveLinearSystem_zero _ _ ?_ ?_ k
  · exact multiplyMatrixVector_zero _ _ hy
  · intro row hrow
    rw [multiplyMatrices_length, multiplyMatrices_row_length _ _ row hrow,
      transpose_length]

end Statistics

namespace ForecastModel

theorem predictWithCoefficients_zero (features coeffs : List ℚ)
    (hc : ∀ k, coeffs.getD k 0 = 0) :
    predictWithCoefficients features coeffs = 0 := by
  unfold predictWithCoefficients
  generalize List.range features.length = js
  suffices h : ∀ (js : List ℕ) (s : ℚ), s = 0 →
      js.foldl (fun s i => s + features.getD i 0 * coeffs.getD i 0) s = 0 from
    h js 0 rfl
  intro js
  induction js with
  | nil => exact fun s hs => hs
  | cons j js ih => exact fun s hs => ih _ (by simp only [hs, hc j]; ring)

/-- On the model path with a cold cache, the returned percentage and
quantity come from the freshly trained model. -/
theorem predict_model_path (env : Env) (cache : ModelCache) (input : ForecastInput)
    (h : ¬ (getMenuItemData env input.menu_item).length < 5)
    (hcache : cacheFind cache ("model_" ++ input.menu_item) = none) :
    (predict env cache input).1.predicted_waste_percentage =
      predictWastePercentage (prepareFeatures env input) (trainModel env input.menu_item) ∧
    (predict env cache input).1.recommended_quantity =
      optimizeQuantity input (predictWastePercentage (prepareFeatures env input)
        (trainModel env input.menu_item)) := by
  simp only [predict, getOrTrainModel, hcache, if_neg h]
  exact ⟨trivial, trivial⟩

/-- On the model path, the returned quantity is `optimizeQuantity` applied
to the returned percentage, for any cache state. -/
theorem predict_recommended_eq (env : Env) (cache : ModelCache) (input : ForecastInput)
    (h : ¬ (getMenuItemData env input.menu_item).length < 5) :
    (predict env cache input).1.recommended_quantity =
      optimizeQuantity input ((predict env cache input).1.predicted_waste_percentage) := by
  simp only [predict, if_neg h]

end ForecastModel

/-- With the five zero-waste `Pasta` rows the model path is taken and the
freshly trained model predicts a (clamped) waste percentage of zero: the
target vector is zero, so all regression coefficients are zero. -/
theorem fmEnvC5_predicted_zero :
    (ForecastModel.predict fmEnvC5 [] fInputC5).1.predicted_waste_percentage = 0 := by
  have h : ¬ (ForecastModel.getMenuItemData fmEnvC5 fInputC5.menu_item).length < 5 := by
    decide
  have hmp := ForecastModel.predict_model_path fmEnvC5 [] fInputC5 h rfl
  have hy : ∀ k, ((ForecastModel.getMenuItemData fmEnvC5
      fInputC5.menu_item).map (·.waste_percentage)).getD k 0 = 0 := by
    intro k
    have hlist : (ForecastModel.getMenuItemData fmEnvC5 fInputC5.menu_item).map
        (·.waste_percentage) = [0, 0, 0, 0, 0] := by decide
    rw [hlist]
    rcases k with _ | _ | _ | _ | _ | k <;> rfl
  have hcoef : ∀ k, (ForecastModel.trainModel fmEnvC5
      fInputC5.menu_item).coefficients.getD k 0 = 0 := by
    intro k
    simp only [ForecastModel.trainModel, if_neg h]
    exact Statistics.multipleRegression_coefficients_zero _ _ hy k
  have hpred0 : ForecastModel.predictWastePercentage
      (ForecastModel.prepareFeatures fmEnvC5 fInputC5)
      (ForecastModel.trainModel fmEnvC5 fInputC5.menu_item) = 0 := by
    unfold ForecastModel.predictWastePercentage
    rw [ForecastModel.predictWithCoefficients_zero _ _ hcoef]
    simp [jsMax, jsMin]
  rw [hmp.1, hpred0]

/-- On the model path the recommended quantity is `optimizeQuantity` of the
predicted percentage. -/
theorem fmEnvC5_recommended_eq :
    (ForecastModel.predict fmEnvC5 [] fInputC5).1.recommended_quantity =
      ForecastModel.optimizeQuantity fInputC5
        ((ForecastModel.predict fmEnvC5 [] fInputC5).1.predicted_waste_percentage) :=
  ForecastModel.predict_recommended_eq fmEnvC5 [] fInputC5 (by decide)

/-- Claim C5 counterexample: with five zero-waste `Pasta` rows the model
path is taken, the (clamped) prediction is 0% ≤ 5%, and `ForecastModel`
returns the quantity unchanged (100) while the claimed formula
`round(quantity * 95 / (100 - predicted))` gives 95.  (In IEEE arithmetic
the rank-deficient normal equations make the prediction `NaN`, and the
`NaN > 5` comparison is false, so the quantity is likewise returned
unchanged.) -/
theorem forecastModel_quantity_counterexample :
    5 ≤ (ForecastModel.getMenuItemData fmEnvC5 fInputC5.menu_item).length ∧
    (ForecastModel.predict fmEnvC5 [] fInputC5).1.predicted_waste_percentage = 0 ∧
    (ForecastModel.predict fmEnvC5 [] fInputC5).1.recommended_quantity = 100 ∧
    (jsRound (fInputC5.quantity_to_prepare * (100 - 5) /
        (100 - (ForecastModel.predict fmEnvC5 [] fInputC5).1.predicted_waste_percentage)) : ℚ)
      = 95 ∧
    (100 : ℚ) ≠ 95 := by
  refine ⟨by decide, fmEnvC5_predicted_zero, ?_, ?_, by norm_num⟩
  · rw [fmEnvC5_recommended_eq, fmEnvC5_predicted_zero]
    with_unfolding_all decide
  · rw [fmEnvC5_predicted_zero]
    with_unfolding_all decide

/-- Claim C5 (amended): on the model path, `ForecastService.predict`
always returns `round(quantity * (100 - 5) / (100 - predicted))`, while
`ForecastModel` applies that formula only when the predicted percentage
exceeds the 5% target and otherwise returns `round(quantity)` unchanged. -/
theorem recommended_quantity_formula :
    (∀ (env : ForecastService.Env) (input : ForecastInput),
      3 ≤ (env.production_data.filter (·.menu_item == input.menu_item)).length →
      (ForecastService.predict env input).recommended_quantity =
        (jsRound (input.quantity_to_prepare * (100 - 5) /
          (100 - (ForecastService.predict env input).predicted_waste_percentage)) : ℚ)) ∧
    (∀ (env : ForecastModel.Env) (cache : ForecastModel.ModelCache)
        (input : ForecastInput),
      5 ≤ (ForecastModel.getMenuItemData env input.menu_item).length →
      ((ForecastModel.predict env cache input).1.predicted_waste_percentage > 5 →
        (ForecastModel.predict env cache input).1.recommended_quantity =
          (jsRound (input.quantity_to_prepare * (100 - 5) /
            (100 - (ForecastModel.predict env cache input).1.predicted_waste_percentage)) : ℚ)) ∧
      ((ForecastModel.predict env cache input).1.predicted_waste_percentage ≤ 5 →
        (ForecastModel.predict env cache input).1.recommended_quantity =
          (jsRound input.quantity_to_prepare : ℚ))) := by
  constructor
  · intro env input hlen
    have h : ¬ (env.production_data.filter (·.menu_item == input.menu_item)).length < 3 := by
      omega
    simp only [ForecastService.predict, if_neg h]
  · intro env cache input hlen
    have h : ¬ (ForecastModel.getMenuItemData env input.menu_item).length < 5 := by
      omega
    have he := ForecastModel.predict_recommended_eq env cache input h
    constructor
    · intro hgt
      rw [he]
      simp only [ForecastModel.optimizeQuantity, if_pos hgt]
      rw [mul_div_assoc]
    · intro hle
      rw [he]
      simp only [ForecastModel.optimizeQuantity, if_neg (not_lt.mpr hle), mul_one]

/-- Witness for claim C5 at the three-row `Pasta` store (first variant) and
the five-row zero-waste store (second variant). -/
theorem recommended_quantity_formula_witness :
    (ForecastService.predict fsEnvC10 fInputC10).recommended_quantity =
      (jsRound (fInputC10.quantity_to_prepare * (100 - 5) /
        (100 - (ForecastService.predict fsEnvC10 fInputC10).predicted_waste_percentage)) : ℚ) ∧
    (ForecastModel.predict fmEnvC5 [] fInputC5).1.recommended_quantity =
      (jsRound fInputC5.quantity_to_prepare : ℚ) :=
  ⟨recommended_quantity_formula.1 fsEnvC10 fInputC10 (by decide),
   (recommended_quantity_formula.2 fmEnvC5 [] fInputC5 (by decide)).2
     (by rw [fmEnvC5_predicted_zero]; norm_num)⟩

/-- JavaScript `0 * (NaN or Infinity)` is `NaN`: a zero first factor never
rescues a zero-denominator division. -/
theorem mulN_zero_div_zero (d : ℚ) : jsMulN (.fin 0) (jsDivN d 0) = .nan := by
  unfold jsDivN
  rw [if_pos rfl]
  rcases lt_trichotomy d 0 with h | h | h
  · rw [if_neg (by linarith : ¬ d > 0), if_pos h]
    norm_num [jsMulN]
  · rw [if_neg (by simp [h] : ¬ d > 0), if_neg (by simp [h] : ¬ d < 0)]
    rfl
  · rw [if_pos h]
    norm_num [jsMulN]

/-- A real number surviving the `Math.max(1, Math.min(50, ·))` clamp lies in
`[1, 50]`, whatever the clamped value was (finite, infinite — never `NaN`). -/
theorem clampN_fin_bounds (a : JsNumber) (x : ℚ)
    (h : jsMaxN (.fin 1) (jsMinN (.fin 50) a) = .fin x) : 1 ≤ x ∧ x ≤ 50 := by
  cases a with
  | fin v =>
      injection h with h
      subst h
      exact ⟨le_max_left _ _, max_le (by norm_num) (min_le_left _ _)⟩
  | posInf =>
      injection h with h
      subst h
      exact ⟨le_max_left _ _, max_le (by norm_num) (by norm_num)⟩
  | negInf =>
      injection h with h
      subst h
      norm_num
  | nan => exact JsNumber.noConfusion h

/-- Closed form of the NaN-aware adjusted percentage: `NaN` exactly when
some history row matches the request's weekday while the item's overall
waste average is zero (`0 / 0` in `getDayOfWeekFactor`, which then poisons
every later multiplication and the final clamp); in every other case it is
the rational model's clamped factor product. -/
theorem ForecastService.adjustedWastePercentageN_eq (env : ForecastService.Env)
    (input : ForecastInput) :
    ForecastService.adjustedWastePercentageN env input =
      (if ((env.production_data.filter (·.menu_item == input.menu_item)).filter
            (·.day_of_week == env.weekdayName input.date)).length ≠ 0 ∧
          listAvg ((env.production_data.filter
            (·.menu_item == input.menu_item)).map (·.waste_percentage)) = 0
       then .nan
       else .fin (jsMax 1 (jsMin 50 (listAvg ((env.production_data.filter
              (·.menu_item == input.menu_item)).map (·.waste_percentage)) *
            ForecastService.getWeatherFactor (orStr input.weather "sunny") *
            ForecastService.getDayOfWeekFactor env input.menu_item input.date *
            ForecastService.getEventFactor (orStr input.special_event "none") *
            ForecastService.getStudentFactor (orNum input.estimated_students 1000))))) := by
  simp only [ForecastService.adjustedWastePercentageN, ForecastService.getDayOfWeekFactorN]
  by_cases hday : ((env.production_data.filter (·.menu_item == input.menu_item)).filter
      (·.day_of_week == env.weekdayName input.date)).length = 0
  · have hcn : ¬ (((env.production_data.filter (·.menu_item == input.menu_item)).filter
        (·.day_of_week == env.weekdayName input.date)).length ≠ 0 ∧
        listAvg ((env.production_data.filter
          (·.menu_item == input.menu_item)).map (·.waste_percentage)) = 0) :=
      fun hc => hc.1 hday
    simp only [if_pos hday, if_neg hcn, ForecastService.getDayOfWeekFactor]
    rfl
  · by_cases havg : listAvg ((env.production_data.filter
        (·.menu_item == input.menu_item)).map (·.waste_percentage)) = 0
    · have hc : (((env.production_data.filter (·.menu_item == input.menu_item)).filter
          (·.day_of_week == env.weekdayName input.date)).length ≠ 0 ∧
          listAvg ((env.production_data.filter
            (·.menu_item == input.menu_item)).map (·.waste_percentage)) = 0) :=
        ⟨hday, havg⟩
      have h1 : jsMulN (.fin 0)
          (.fin (ForecastService.getWeatherFactor (orStr input.weather "sunny")))
          = .fin 0 := by
        show JsNumber.fin (0 * ForecastService.getWeatherFactor (orStr input.weather "sunny"))
          = JsNumber.fin 0
        rw [zero_mul]
      rw [if_pos hc]
      simp only [if_neg hday]
      rw [havg, h1, mulN_zero_div_zero]
      rfl
    · have hcn : ¬ (((env.production_data.filter (·.menu_item == input.menu_item)).filter
          (·.day_of_week == env.weekdayName input.date)).length ≠ 0 ∧
          listAvg ((env.production_data.filter
            (·.menu_item == input.menu_item)).map (·.waste_percentage)) = 0) :=
      fun hc => havg hc.2
      simp only [if_neg hcn, if_neg hday, ForecastService.getDayOfWeekFactor, jsDivN,
        if_neg havg]
      rfl

/-- Claim C10 (amended): under JavaScript number semantics the factor
path's adjusted waste percentage is either a real number — then it lies in
`[1, 50]`, the divisor `100 − adjusted` of the recommended-quantity formula
lies in `[50, 99]` and is nonzero, and the rational model of `predict`
returns that same value — or it is `NaN`, which happens exactly when some
history row matches the request's weekday while the item's overall waste
average is zero: `0 / 0` inside `getDayOfWeekFactor` escapes the
`Math.max(1, Math.min(50, ·))` clamp (`NaN` through `min` and `max` stays
`NaN`), so the claim's unconditional bounds fail on reachable all-zero-waste
data. -/
theorem factor_path_divisor_safe :
    (∀ (env : ForecastService.Env) (input : ForecastInput) (x : ℚ),
      ForecastService.adjustedWastePercentageN env input = .fin x →
      1 ≤ x ∧ x ≤ 50 ∧ 50 ≤ 100 - x ∧ 100 - x ≤ 99 ∧ 100 - x ≠ 0) ∧
    (∀ (env : ForecastService.Env) (input : ForecastInput),
      ForecastService.adjustedWastePercentageN env input = .nan ↔
        (((env.production_data.filter (·.menu_item == input.menu_item)).filter
            (·.day_of_week == env.weekdayName input.date)).length ≠ 0 ∧
          listAvg ((env.production_data.filter
            (·.menu_item == input.menu_item)).map (·.waste_percentage)) = 0)) ∧
    (∀ (env : ForecastService.Env) (input : ForecastInput) (x : ℚ),
      3 ≤ (env.production_data.filter (·.menu_item == input.menu_item)).length →
      ForecastService.adjustedWastePercentageN env input = .fin x →
      (ForecastService.predict env input).predicted_waste_percentage = x) := by
  refine ⟨?_, ?_, ?_⟩
  · intro env input x h
    simp only [ForecastService.adjustedWastePercentageN] at h
    obtain ⟨h1, h2⟩ := clampN_fin_bounds _ x h
    exact ⟨h1, h2, by linarith, by linarith, by linarith⟩
  · intro env input
    rw [ForecastService.adjustedWastePercentageN_eq]
    split
    · rename_i hc
      exact iff_of_true rfl hc
    · rename_i hc
      exact iff_of_false (fun hne => JsNumber.noConfusion hne) hc
  · intro env input x hlen h
    have h3 : ¬ (env.production_data.filter (·.menu_item == input.menu_item)).length < 3 := by
      omega
    rw [ForecastService.adjustedWastePercentageN_eq] at h
    split at h
    · exact JsNumber.noConfusion h
    · simp only [JsNumber.fin.injEq] at h
      simp only [ForecastService.predict, if_neg h3]
      exact h

/-- Claim C10 counterexample: five zero-waste `Pasta` rows, all on the
request's weekday.  The program's `0 / 0` makes the adjusted percentage
`NaN` — not a number in `[1, 50]`, and `100 − NaN` is not in `[50, 99]` —
while the division-by-zero-is-zero rational model reports `1`, hiding the
escape (the rational model's unconditional bounds are strictly easier than
the program). -/
theorem factor_path_nan_counterexample :
    3 ≤ (fsEnvC10n.production_data.filter (·.menu_item == fInputC10.menu_item)).length ∧
    ForecastService.adjustedWastePercentageN fsEnvC10n fInputC10 = .nan ∧
    ¬ (∃ x : ℚ, ForecastService.adjustedWastePercentageN fsEnvC10n fInputC10 = .fin x ∧
        1 ≤ x ∧ x ≤ 50) ∧
    (ForecastService.predict fsEnvC10n fInputC10).predicted_waste_percentage = 1 := by
  have hnan : ForecastService.adjustedWastePercentageN fsEnvC10n fInputC10 = .nan := by
    with_unfolding_all decide
  refine ⟨by decide, hnan, ?_, by with_unfolding_all decide⟩
  rintro ⟨x, hx, -⟩
  rw [hnan] at hx
  exact JsNumber.noConfusion hx

/-- Witness for claim C10 at the three-row 10/20/30%-waste `Pasta` store:
the adjusted percentage is the real number 20, the bounds hold, and the
rational model agrees. -/
theorem factor_path_divisor_safe_witness :
    ForecastService.adjustedWastePercentageN fsEnvC10 fInputC10 = .fin 20 ∧
    (1 ≤ (20 : ℚ) ∧ (20 : ℚ) ≤ 50 ∧ 50 ≤ 100 - (20 : ℚ) ∧ 100 - (20 : ℚ) ≤ 99 ∧
      100 - (20 : ℚ) ≠ 0) ∧
    (ForecastService.predict fsEnvC10 fInputC10).predicted_waste_percentage = 20 :=
  ⟨by with_unfolding_all decide,
   factor_path_divisor_safe.1 fsEnvC10 fInputC10 20 (by with_unfolding_all decide),
   factor_path_divisor_safe.2.2 fsEnvC10 fInputC10 20 (by decide)
     (by with_unfolding_all decide)⟩

/-- Claim C3 (amended): with zero historical rows for the requested item
both forecast variants fall back with a fixed accuracy constant, but only
`ForecastService` computes the confidence interval from the fixed
±30%-of-predicted-value rule; `ForecastModel` returns the fixed absolute
band `[-5, 5]`, which is not a percentage of the predicted value. -/
theorem fallback_accuracy_and_interval :
    (∀ (env : ForecastService.Env) (input : ForecastInput),
      (env.production_data.filter (·.menu_item == input.menu_item)).length = 0 →
      ((ForecastService.predict env input).model_accuracy = ((65/100 : ℚ) : ℝ) ∨
       (ForecastService.predict env input).model_accuracy = ((7/10 : ℚ) : ℝ)) ∧
      ciFromPercentRule (ForecastService.predict env input)) ∧
    (∀ (env : ForecastModel.Env) (cache : ForecastModel.ModelCache)
        (input : ForecastInput),
      (ForecastModel.getMenuItemData env input.menu_item).length = 0 →
      (ForecastModel.predict env cache input).1.model_accuracy = ((7/10 : ℚ) : ℝ) ∧
      (ForecastModel.predict env cache input).1.confidence_interval =
        { lower := -5, upper := 5 }) := by
  constructor
  · intro env input h0
    have h3 : (env.production_data.filter (·.menu_item == input.menu_item)).length < 3 := by
      omega
    simp only [ForecastService.predict, if_pos h3, ForecastService.predictFromCategory]
    split
    · exact ⟨Or.inl rfl, 3/10, by norm_num, by norm_num,
        by push_cast; ring, by push_cast; ring⟩
    · exact ⟨Or.inr rfl, 3/10, by norm_num, by norm_num,
        by push_cast; ring, by push_cast; ring⟩
  · intro env cache input h0
    have h5 : (ForecastModel.getMenuItemData env input.menu_item).length < 5 := by omega
    simp only [ForecastModel.predict, if_pos h5, ForecastModel.predictFromCategory]
    exact ⟨trivial, trivial⟩

/-- Claim C3 counterexample: at a store holding one 10%-waste `Entree` row
and a request for the unseen dish `Ghost`, `ForecastModel` falls back with
`predicted_waste = 10` but a confidence interval lower bound of `-5`, which
no `±20–30%`-of-predicted-value band can produce. -/
theorem fallback_interval_counterexample :
    (ForecastModel.getMenuItemData fmEnvC3 fInputC3.menu_item).length = 0 ∧
    (ForecastModel.predict fmEnvC3 [] fInputC3).1.predicted_waste = 10 ∧
    (ForecastModel.predict fmEnvC3 [] fInputC3).1.confidence_interval.lower = -5 ∧
    ¬ ciFromPercentRule (ForecastModel.predict fmEnvC3 [] fInputC3).1 := by
  have h5 : (ForecastModel.getMenuItemData fmEnvC3 fInputC3.menu_item).length < 5 := by
    decide
  have hp : (ForecastModel.predict fmEnvC3 [] fInputC3).1 =
      ForecastModel.predictFromCategory fmEnvC3 fInputC3 := by
    simp only [ForecastModel.predict, if_pos h5]
  have hpw : (ForecastModel.predictFromCategory fmEnvC3 fInputC3).predicted_waste = 10 := by
    with_unfolding_all decide
  have hlow : (ForecastModel.predictFromCategory
      fmEnvC3 fInputC3).confidence_interval.lower = -5 := by
    simp only [ForecastModel.predictFromCategory]
  refine ⟨by decide, by rw [hp]; exact hpw, by rw [hp]; exact hlow, ?_⟩
  rw [hp]
  rintro ⟨p, hp1, hp2, hl, -⟩
  rw [hlow, hpw] at hl
  have hq : (-5 : ℚ) = 10 * (1 - p) := by exact_mod_cast hl
  linarith

/-- Witness for claim C3: the empty-store `ForecastService` fallback and
the zero-history `ForecastModel` fallback. -/
theorem fallback_accuracy_and_interval_witness :
    (((ForecastService.predict fsEnvC3 fInputC3).model_accuracy = ((65/100 : ℚ) : ℝ) ∨
      (ForecastService.predict fsEnvC3 fInputC3).model_accuracy = ((7/10 : ℚ) : ℝ)) ∧
     ciFromPercentRule (ForecastService.predict fsEnvC3 fInputC3)) ∧
    ((ForecastModel.predict fmEnvC3 [] fInputC3).1.model_accuracy = ((7/10 : ℚ) : ℝ) ∧
     (ForecastModel.predict fmEnvC3 [] fInputC3).1.confidence_interval =
       { lower := -5, upper := 5 }) :=
  ⟨fallback_accuracy_and_interval.1 fsEnvC3 fInputC3 rfl,
   fallback_accuracy_and_interval.2 fmEnvC3 [] fInputC3 (by decide)⟩

/-- Claim C6 (amended): with both 14-day windows nonempty, every projected
metric is `current × period_multiplier × trend_multiplier ×
scenario_multiplier` with the trend multiplier computed per metric from the
window averages by `calculateTrendRatio`; away from a zero prior average
that ratio is exactly the claim's clamped ratio, but a zero prior average
short-circuits to `1.0` instead of being clamped. -/
theorem projection_formula :
    (∀ (impact_data : List ImpactTracking) (current : ImpactService.ImpactMetrics)
        (input : ImpactService.ImpactProjectionInput),
      (sliceLast impact_data 14).length ≠ 0 →
      (sliceNeg impact_data 28 14).length ≠ 0 →
      ((ImpactService.projectFutureImpact impact_data current input).food_rescued_lbs =
        current.food_rescued_lbs * ImpactService.periodMultiplier input.projection_period *
        ImpactService.calculateTrendRatio
          (ImpactService.calculateDailyAverages (sliceLast impact_data 14)).food_rescued_lbs_daily
          (ImpactService.calculateDailyAverages (sliceNeg impact_data 28 14)).food_rescued_lbs_daily *
        (ImpactService.calculateScenarioMultipliers input.intervention_scenarios).waste_reduction) ∧
      ((ImpactService.projectFutureImpact impact_data current input).meals_provided =
        current.meals_provided * ImpactService.periodMultiplier input.projection_period *
        ImpactService.calculateTrendRatio
          (ImpactService.calculateDailyAverages
            (sliceLast impact_data 14)).meals_provided_to_community_daily
          (ImpactService.calculateDailyAverages
            (sliceNeg impact_data 28 14)).meals_provided_to_community_daily *
        (ImpactService.calculateScenarioMultipliers input.intervention_scenarios).waste_reduction) ∧
      ((ImpactService.projectFutureImpact impact_data current input).co2_emissions_avoided_lbs =
        current.co2_emissions_avoided_lbs * ImpactService.periodMultiplier input.projection_period *
        ImpactService.calculateTrendRatio
          (ImpactService.calculateDailyAverages
            (sliceLast impact_data 14)).co2_emissions_avoided_lbs_daily
          (ImpactService.calculateDailyAverages
            (sliceNeg impact_data 28 14)).co2_emissions_avoided_lbs_daily *
        (ImpactService.calculateScenarioMultipliers input.intervention_scenarios).waste_reduction) ∧
      ((ImpactService.projectFutureImpact impact_data current input).money_saved =
        current.money_saved * ImpactService.periodMultiplier input.projection_period *
        ImpactService.calculateTrendRatio
          (ImpactService.calculateDailyAverages (sliceLast impact_data 14)).money_saved_daily
          (ImpactService.calculateDailyAverages (sliceNeg impact_data 28 14)).money_saved_daily *
        (ImpactService.calculateScenarioMultipliers input.intervention_scenarios).cost_optimization) ∧
      ((ImpactService.projectFutureImpact impact_data current input).waste_disposal_cost_avoided =
        current.waste_disposal_cost_avoided * ImpactService.periodMultiplier input.projection_period *
        ImpactService.calculateTrendRatio
          (ImpactService.calculateDailyAverages
            (sliceLast impact_data 14)).waste_disposal_cost_avoided_daily
          (ImpactService.calculateDailyAverages
            (sliceNeg impact_data 28 14)).waste_disposal_cost_avoided_daily *
        (ImpactService.calculateScenarioMultipliers input.intervention_scenarios).waste_reduction) ∧
      ((ImpactService.projectFutureImpact impact_data current input).volunteer_hours =
        current.volunteer_hours * ImpactService.periodMultiplier input.projection_period *
        ImpactService.calculateTrendRatio
          (ImpactService.calculateDailyAverages (sliceLast impact_data 14)).volunteer_hours_daily
          (ImpactService.calculateDailyAverages (sliceNeg impact_data 28 14)).volunteer_hours_daily *
        (ImpactService.calculateScenarioMultipliers input.intervention_scenarios).pickup_efficiency) ∧
      ((ImpactService.projectFutureImpact impact_data current input).operational_savings =
        current.operational_savings * ImpactService.periodMultiplier input.projection_period *
        ImpactService.calculateTrendRatio
          (ImpactService.calculateDailyAverages
            (sliceLast impact_data 14)).operational_savings_daily
          (ImpactService.calculateDailyAverages
            (sliceNeg impact_data 28 14)).operational_savings_daily *
        (ImpactService.calculateScenarioMultipliers input.intervention_scenarios).cost_optimization) ∧
      ((ImpactService.projectFutureImpact impact_data current input).community_impact_score =
        current.community_impact_score * ImpactService.periodMultiplier input.projection_period *
        ImpactService.calculateTrendRatio
          (ImpactService.calculateDailyAverages
            (sliceLast impact_data 14)).community_impact_score_daily
          (ImpactService.calculateDailyAverages
            (sliceNeg impact_data 28 14)).community_impact_score_daily * 1)) ∧
    (∀ recent older : ℚ, older ≠ 0 →
      ImpactService.calculateTrendRatio recent older = claimedTrendRatio recent older) ∧
    (∀ recent : ℚ, ImpactService.calculateTrendRatio recent 0 = 1) := by
  refine ⟨?_, ?_, ?_⟩
  · intro impact_data current input hr ho
    have h : ¬ ((sliceLast impact_data 14).length = 0 ∨
        (sliceNeg impact_data 28 14).length = 0) := by
      push_neg
      exact ⟨hr, ho⟩
    simp only [ImpactService.projectFutureImpact, ImpactService.calculateTrendMultipliers,
      if_neg h]
    exact ⟨trivial, trivial, trivial, trivial, trivial, trivial, trivial, trivial⟩
  · intro recent older h
    simp only [ImpactService.calculateTrendRatio, claimedTrendRatio, if_neg h]
  · intro recent
    simp [ImpactService.calculateTrendRatio]

/-- Claim C6 counterexample: fourteen zero-money-saved days followed by
fourteen 13-dollar days.  The prior-window money average is `0`, so the
code projects with a trend multiplier of `1.0` (yearly money projection
`100`), while the claim's clamped ratio gives `0.8` (projection `80`; under
IEEE semantics `13/0 = Infinity` would clamp to `1.3`, projection `130` —
either reading disagrees with the code). -/
theorem projection_trend_counterexample :
    (ImpactService.calculateDailyAverages (sliceNeg impactDataC6 28 14)).money_saved_daily
      = 0 ∧
    (ImpactService.calculateDailyAverages (sliceLast impactDataC6 14)).money_saved_daily
      = 13 ∧
    (ImpactService.projectFutureImpact impactDataC6 currentC6 impactInputC6).money_saved
      = 100 ∧
    currentC6.money_saved * ImpactService.periodMultiplier impactInputC6.projection_period *
      claimedTrendRatio 13 0 *
      (ImpactService.calculateScenarioMultipliers
        impactInputC6.intervention_scenarios).cost_optimization = 80 ∧
    (100 : ℚ) ≠ 80 := by
  refine ⟨?_, ?_, ?_, ?_, by norm_num⟩
  · with_unfolding_all decide
  · with_unfolding_all decide
  · with_unfolding_all decide
  · with_unfolding_all decide

/-- Witness for claim C6 at the 28-day history (both windows nonempty) and
at a nonzero prior average. -/
theorem projection_formula_witness :
    (ImpactService.projectFutureImpact impactDataC6 currentC6 impactInputC6).food_rescued_lbs =
      currentC6.food_rescued_lbs *
      ImpactService.periodMultiplier impactInputC6.projection_period *
      ImpactService.calculateTrendRatio
        (ImpactService.calculateDailyAverages (sliceLast impactDataC6 14)).food_rescued_lbs_daily
        (ImpactService.calculateDailyAverages (sliceNeg impactDataC6 28 14)).food_rescued_lbs_daily *
      (ImpactService.calculateScenarioMultipliers
        impactInputC6.intervention_scenarios).waste_reduction ∧
    ImpactService.calculateTrendRatio 13 2 = claimedTrendRatio 13 2 :=
  ⟨(projection_formula.1 impactDataC6 currentC6 impactInputC6 (by decide) (by decide)).1,
   projection_formula.2.1 13 2 (by norm_num)⟩

/-- When every constraint is absent or falsy, `getMenuSuggestions` returns
the popularity-sorted catalog and stores it back over `menu_data` (the
in-place `sort` on the aliased array). -/
theorem getMenuSuggestions_alias (env : PlannerService.Env)
    (c : PlannerService.SuggestionConstraints)
    (h1 : PlannerService.numTruthy c.max_prep_time = false)
    (h2 : PlannerService.numTruthy c.cost_limit = false)
    (h3 : c.dietary_restrictions = none) :
    PlannerService.getMenuSuggestions env c =
      (env.menu_data.mergeSort fun a b => b.popularity_score ≤ a.popularity_score,
       { env with menu_data :=
           env.menu_data.mergeSort fun a b => b.popularity_score ≤ a.popularity_score }) := by
  obtain ⟨mp, dr, cl⟩ := c
  simp only at h1 h2 h3
  subst h3
  rcases mp with - | v
  · rcases cl with - | w
    · simp [PlannerService.getMenuSuggestions, PlannerService.numTruthy]
    · have hw : w = 0 := by
        by_contra hne
        simp [PlannerService.numTruthy, hne] at h2
      subst hw
      simp [PlannerService.getMenuSuggestions, PlannerService.numTruthy]
  · have hv : v = 0 := by
      by_contra hne
      simp [PlannerService.numTruthy, hne] at h1
    subst hv
    rcases cl with - | w
    · simp [PlannerService.getMenuSuggestions, PlannerService.numTruthy]
    · have hw : w = 0 := by
        by_contra hne
        simp [PlannerService.numTruthy, hne] at h2
      subst hw
      simp [PlannerService.getMenuSuggestions, PlannerService.numTruthy]

/-- With any truthy constraint, `getMenuSuggestions` filters fresh arrays
and leaves the service state unchanged. -/
theorem getMenuSuggestions_noalias (env : PlannerService.Env)
    (c : PlannerService.SuggestionConstraints)
    (h : (!PlannerService.numTruthy c.max_prep_time &&
          !PlannerService.numTruthy c.cost_limit &&
          c.dietary_restrictions.isNone) = false) :
    (PlannerService.getMenuSuggestions env c).2 = env := by
  simp [PlannerService.getMenuSuggestions, h]

/-- Claim C8 (amended): the planner's suggestion lookup never touches the
production or external stores and at worst permutes the loaded menu list:
it either leaves `menu_data` unchanged (some constraint supplied) or
replaces it by its popularity-sorted permutation (no truthy constraint, the
in-place sort). -/
theorem calculator_frame (env : PlannerService.Env)
    (c : PlannerService.SuggestionConstraints) :
    (PlannerService.getMenuSuggestions env c).2.production_data = env.production_data ∧
    (PlannerService.getMenuSuggestions env c).2.external_data = env.external_data ∧
    ((PlannerService.getMenuSuggestions env c).2.menu_data = env.menu_data ∨
     (PlannerService.getMenuSuggestions env c).2.menu_data =
       env.menu_data.mergeSort fun a b => b.popularity_score ≤ a.popularity_score) ∧
    ((PlannerService.getMenuSuggestions env c).2.menu_data).Perm env.menu_data := by
  by_cases h : (!PlannerService.numTruthy c.max_prep_time &&
      !PlannerService.numTruthy c.cost_limit &&
      c.dietary_restrictions.isNone) = true
  · simp only [Bool.and_eq_true, Bool.not_eq_true', Option.isNone_iff_eq_none] at h
    obtain ⟨⟨h1, h2⟩, h3⟩ := h
    rw [getMenuSuggestions_alias env c h1 h2 h3]
    exact ⟨rfl, rfl, Or.inr rfl, List.mergeSort_perm env.menu_data _⟩
  · have h0 := getMenuSuggestions_noalias env c (Bool.eq_false_iff.mpr h)
    rw [h0]
    exact ⟨rfl, rfl, Or.inl rfl, List.Perm.refl _⟩

/-- A fold whose step either keeps the accumulator or replaces it by the
current list element preserves any property common to both. -/
theorem foldl_pick_mem {α : Type} (P : α → Prop) (g : α × ℚ → α → α × ℚ)
    (hg : ∀ b x, (g b x).1 = x ∨ (g b x).1 = b.1) :
    ∀ (l : List α) (b : α × ℚ), P b.1 → (∀ x ∈ l, P x) → P ((l.foldl g b).1)
  | [], b, hb, _ => hb
  | x :: l, b, hb, hl => by
    have hx : P x := hl x (List.mem_cons_self x l)
    have hstep : P (g b x).1 := by
      rcases hg b x with h | h
      · rw [h]; exact hx
      · rw [h]; exact hb
    exact foldl_pick_mem P g hg l (g b x) hstep
      fun y hy => hl y (List.mem_cons_of_mem _ hy)

/-- Pulling an element out of the middle of a doubly-appended list. -/
theorem perm_cons_extract {α : Type} (T G D : List α) (a : α) :
    (T ++ (G ++ a :: D)).Perm (a :: (T ++ (G ++ D))) := by
  have h1 : T ++ (G ++ a :: D) = (T ++ G) ++ a :: D :=
    (List.append_assoc T G (a :: D)).symm
  have h2 : a :: (T ++ (G ++ D)) = a :: ((T ++ G) ++ D) := by
    rw [List.append_assoc]
  rw [h1, h2]
  exact List.perm_middle

namespace TrackerService

/-- A pickup returned by `findBestNextPickup` is drawn from the feasibility
filter of the pool. -/
theorem findBestNextPickup_mem_filter (loc : String) (avail : List OptimizedPickup)
    (cv mv : ℚ) (b : OptimizedPickup)
    (h : findBestNextPickup loc avail cv mv = some b) :
    b ∈ avail.filter fun p => decide (cv + p.estimated_volume ≤ mv) := by
  simp only [findBestNextPickup] at h
  split at h
  · exact absurd h (by simp)
  · rename_i f0 rest heq
    simp only [Option.some.injEq] at h
    rw [← h]
    refine foldl_pick_mem
      (fun x => x ∈ avail.filter fun p => decide (cv + p.estimated_volume ≤ mv)) _ ?_ _ _
      ?_ (fun y hy => hy)
    · intro bb x
      dsimp only
      split
      · exact Or.inl rfl
      · exact Or.inr rfl
    · rw [heq]
      exact List.mem_cons_self f0 rest

/-- The chosen pickup keeps the cumulative volume within the cap. -/
theorem findBestNextPickup_volume (loc : String) (avail : List OptimizedPickup)
    (cv mv : ℚ) (b : OptimizedPickup)
    (h : findBestNextPickup loc avail cv mv = some b) :
    cv + b.estimated_volume ≤ mv := by
  have hm := findBestNextPickup_mem_filter loc avail cv mv b h
  have := List.of_mem_filter hm
  simpa using this

/-- The chosen pickup comes from the pool. -/
theorem findBestNextPickup_mem (loc : String) (avail : List OptimizedPickup)
    (cv mv : ℚ) (b : OptimizedPickup)
    (h : findBestNextPickup loc avail cv mv = some b) : b ∈ avail :=
  List.mem_of_mem_filter (findBestNextPickup_mem_filter loc avail cv mv b h)

/-- The `routeStep` keeps the accumulated volume within the 200 lbs cap. -/
theorem routeStep_volume (driver : String) (st : RouteBuildState)
    (h : st.total_volume ≤ 200) : (routeStep driver st).total_volume ≤ 200 := by
  unfold routeStep
  split
  · exact h
  · split
    · exact h
    · rename_i best hbest
      simpa using findBestNextPickup_volume _ _ _ _ best hbest

theorem routeStep_iterate_volume (driver : String) (n : ℕ) (st : RouteBuildState)
    (h : st.total_volume ≤ 200) : ((routeStep driver)^[n] st).total_volume ≤ 200 := by
  induction n generalizing st with
  | zero => simpa using h
  | succ n ih =>
      rw [Function.iterate_succ_apply]
      exact ih _ (routeStep_volume driver st h)

/-- The `routeStep` adds at most one pickup per iteration. -/
theorem routeStep_length (driver : String) (st : RouteBuildState) :
    (routeStep driver st).route_pickups.length ≤ st.route_pickups.length + 1 := by
  unfold routeStep
  split
  · omega
  · split
    · omega
    · simp

theorem routeStep_iterate_length (driver : String) (n : ℕ) (st : RouteBuildState) :
    ((routeStep driver)^[n] st).route_pickups.length ≤ st.route_pickups.length + n := by
  induction n generalizing st with
  | zero => simp
  | succ n ih =>
      rw [Function.iterate_succ_apply]
      have h1 := ih (routeStep driver st)
      have h2 := routeStep_length driver st
      omega

/-- Each single route built by `createOptimalRoute` respects both caps. -/
theorem createOptimalRoute_caps (driver : String)
    (available : List OptimizedPickup) (now : ℤ) :
    (createOptimalRoute driver available now).1.pickups.length ≤ 4 ∧
    (createOptimalRoute driver available now).1.total_volume ≤ 200 := by
  unfold createOptimalRoute
  constructor
  · simpa using routeStep_iterate_length driver 4
      { route_pickups := [], available := available, current_location := "depot"
        total_volume := 0, total_time := 0 }
  · simpa using routeStep_iterate_volume driver 4
      { route_pickups := [], available := available, current_location := "depot"
        total_volume := 0, total_time := 0 } (by norm_num)

/-- Every route produced by the per-driver phase respects both caps. -/
theorem driverAssignment_caps (pickups : List OptimizedPickup)
    (drivers : List String) (now : ℤ) :
    ∀ r ∈ (driverAssignment pickups drivers now).1,
      r.pickups.length ≤ 4 ∧ r.total_volume ≤ 200 := by
  unfold driverAssignment
  suffices h : ∀ (ds : List String) (st : List RouteOptimization × List OptimizedPickup),
      (∀ r ∈ st.1, r.pickups.length ≤ 4 ∧ r.total_volume ≤ 200) →
      ∀ r ∈ (ds.foldl
        (fun (st : List RouteOptimization × List OptimizedPickup) driver =>
          if st.2.length = 0 then st
          else
            let rr := createOptimalRoute driver st.2 now
            let remaining := rr.1.pickups.foldl
              (fun rem p => rem.eraseP fun q => q.pickup_id == p.pickup_id) rr.2
            (st.1 ++ [rr.1], remaining)) st).1,
        r.pickups.length ≤ 4 ∧ r.total_volume ≤ 200 from
    h drivers ([], pickups) (by simp)
  intro ds
  induction ds with
  | nil => exact fun st hst => hst
  | cons d ds ih =>
      intro st hst
      rw [List.foldl_cons]
      apply ih
      dsimp only
      split
      · exact hst
      · intro r hr
        rcases List.mem_append.mp hr with h | h
        · exact hst r h
        · rw [List.mem_singleton.mp h]
          exact createOptimalRoute_caps d st.2 now

/-- Claim C1 (amended): every route built by the per-driver phase has at
most 4 stops and at most 200 lbs accumulated volume, and whenever that
phase leaves no leftover candidates the full `optimizePickups` output also
satisfies both caps; the leftover-append phase (the claim's unconditional
reading) can break them. -/
theorem route_caps (env : Env) (input : PickupOptimizationInput) (now : ℤ)
    (hnl : (driverAssignment (generatePickupSuggestions env input
        (analyzeLocationPatterns env input.available_locations))
      input.available_drivers now).2 = []) :
    ((optimizePickups env input now).optimized_routes).Forall
      fun r => r.pickups.length ≤ 4 ∧ r.total_volume ≤ 200 := by
  rw [List.forall_iff_forall_mem]
  intro r hr
  have heq : (optimizePickups env input now).optimized_routes =
      optimizeRoutes (generatePickupSuggestions env input
        (analyzeLocationPatterns env input.available_locations))
        input.available_drivers now := rfl
  rw [heq] at hr
  simp only [optimizeRoutes] at hr
  rw [hnl] at hr
  simp only [List.foldl_nil] at hr
  exact driverAssignment_caps _ _ _ r hr

set_option maxRecDepth 100000 in
/-- Claim C1 counterexample: five 45-lb default-pattern candidates and one
driver; the leftover append grows the single route to 5 stops and 225
lbs. -/
theorem route_caps_counterexample :
    ((optimizePickups trackerEnvC1 trackerInputC1 0).optimized_routes.map
      fun r => (r.pickups.length, r.total_volume)) = [(5, 225)] ∧
    ¬ ((5 : ℕ) ≤ 4) ∧ ¬ ((225 : ℚ) ≤ 200) := by
  refine ⟨?_, by norm_num, by norm_num⟩
  with_unfolding_all decide

/-- The `routeStep` preserves the combined multiset of pickup ids carried by
the route under construction and the remaining pool. -/
theorem routeStep_ids (driver : String) (st : RouteBuildState) :
    ((routeStep driver st).route_pickups.map (·.pickup_id) ++
      (routeStep driver st).available.map (·.pickup_id)).Perm
    (st.route_pickups.map (·.pickup_id) ++ st.available.map (·.pickup_id)) := by
  unfold routeStep
  split
  · exact List.Perm.refl _
  · split
    · exact List.Perm.refl _
    · rename_i best hbest
      have hmem : best ∈ st.available := findBestNextPickup_mem _ _ _ _ best hbest
      have hpb : (fun q => q.pickup_id == best.pickup_id) best = true := by simp
      obtain ⟨a, l₁, l₂, -, hpa, hsplit, herase⟩ :=
        @List.exists_of_eraseP OptimizedPickup
          (fun q => q.pickup_id == best.pickup_id) st.available best hmem hpb
      have hid : a.pickup_id = best.pickup_id := by simpa using hpa
      rw [herase, hsplit]
      simp only [List.map_append, List.map_cons, List.map_nil, List.append_assoc,
        List.singleton_append, List.nil_append]
      refine List.Perm.append_left _ ?_
      rw [← hid]
      exact List.perm_middle.symm

theorem routeStep_iterate_ids (driver : String) (n : ℕ) (st : RouteBuildState) :
    (((routeStep driver)^[n] st).route_pickups.map (·.pickup_id) ++
      ((routeStep driver)^[n] st).available.map (·.pickup_id)).Perm
    (st.route_pickups.map (·.pickup_id) ++ st.available.map (·.pickup_id)) := by
  induction n generalizing st with
  | zero => exact List.Perm.refl _
  | succ n ih =>
      rw [Function.iterate_succ_apply]
      exact (ih (routeStep driver st)).trans (routeStep_ids driver st)

/-- The `createOptimalRoute` splits the candidate ids between the built route
and the returned remainder, losing and duplicating nothing. -/
theorem createOptimalRoute_ids (driver : String) (available : List OptimizedPickup)
    (now : ℤ) :
    ((createOptimalRoute driver available now).1.pickups.map (·.pickup_id) ++
      (createOptimalRoute driver available now).2.map (·.pickup_id)).Perm
    (available.map (·.pickup_id)) := by
  unfold createOptimalRoute
  simpa using routeStep_iterate_ids driver 4
    { route_pickups := [], available := available, current_location := "depot"
      total_volume := 0, total_time := 0 }

/-- Erasing ids absent from the pool is a no-op (the source's removal loop
after `createOptimalRoute` has already spliced the assigned pickups out). -/
theorem removal_noop (ps : List OptimizedPickup) :
    ∀ rem : List OptimizedPickup,
      (∀ p ∈ ps, ∀ q ∈ rem, q.pickup_id ≠ p.pickup_id) →
      ps.foldl (fun rem p => rem.eraseP fun q => q.pickup_id == p.pickup_id) rem
        = rem := by
  induction ps with
  | nil => exact fun rem _ => rfl
  | cons p ps ih =>
      intro rem hdisj
      rw [List.foldl_cons]
      have h1 : (rem.eraseP fun q => q.pickup_id == p.pickup_id) = rem :=
        List.eraseP_of_forall_not fun a ha => by
          simpa using hdisj p (List.mem_cons_self p ps) a ha
      rw [h1]
      exact ih rem fun p' hp' q hq => hdisj p' (List.mem_cons_of_mem _ hp') q hq

/-- The per-driver phase conserves the pickup ids: the ids collected over
all built routes together with the leftover pool are a permutation of the
candidates' ids, provided those are distinct. -/
theorem driverAssignment_ids (pickups : List OptimizedPickup)
    (drivers : List String) (now : ℤ)
    (hnd : (pickups.map (·.pickup_id)).Nodup) :
    ((((driverAssignment pickups drivers now).1.map (·.pickups)).flatten.map
        (·.pickup_id)) ++
      (driverAssignment pickups drivers now).2.map (·.pickup_id)).Perm
    (pickups.map (·.pickup_id)) := by
  unfold driverAssignment
  suffices h : ∀ (ds : List String) (st : List RouteOptimization × List OptimizedPickup),
      (((st.1.map (·.pickups)).flatten.map (·.pickup_id)) ++
        st.2.map (·.pickup_id)).Perm (pickups.map (·.pickup_id)) →
      ((((ds.foldl (fun (st : List RouteOptimization × List OptimizedPickup) driver =>
          if st.2.length = 0 then st
          else
            let rr := createOptimalRoute driver st.2 now
            let remaining := rr.1.pickups.foldl
              (fun rem p => rem.eraseP fun q => q.pickup_id == p.pickup_id) rr.2
            (st.1 ++ [rr.1], remaining)) st).1.map (·.pickups)).flatten.map
          (·.pickup_id)) ++
        (ds.foldl (fun (st : List RouteOptimization × List OptimizedPickup) driver =>
          if st.2.length = 0 then st
          else
            let rr := createOptimalRoute driver st.2 now
            let remaining := rr.1.pickups.foldl
              (fun rem p => rem.eraseP fun q => q.pickup_id == p.pickup_id) rr.2
            (st.1 ++ [rr.1], remaining)) st).2.map (·.pickup_id)).Perm
        (pickups.map (·.pickup_id)) from
    h drivers ([], pickups) (by simpa using List.Perm.refl _)
  intro ds
  induction ds with
  | nil => exact fun st hst => hst
  | cons d ds ih =>
      intro st hst
      rw [List.foldl_cons]
      apply ih
      dsimp only
      split
      · exact hst
      · have h3 := createOptimalRoute_ids d st.2 now
        have hnodup : (((st.1.map (·.pickups)).flatten.map (·.pickup_id)) ++
            st.2.map (·.pickup_id)).Nodup := hst.nodup_iff.mpr hnd
        have hnodup2 : (st.2.map (·.pickup_id)).Nodup := hnodup.of_append_right
        have hnodup3 : ((createOptimalRoute d st.2 now).1.pickups.map (·.pickup_id) ++
            (createOptimalRoute d st.2 now).2.map (·.pickup_id)).Nodup :=
          h3.nodup_iff.mpr hnodup2
        obtain ⟨-, -, hdisj⟩ := List.nodup_append.mp hnodup3
        have hno : (createOptimalRoute d st.2 now).1.pickups.foldl
            (fun rem p => rem.eraseP fun q => q.pickup_id == p.pickup_id)
            (createOptimalRoute d st.2 now).2 = (createOptimalRoute d st.2 now).2 := by
          apply removal_noop
          intro p hp q hq hq'
          exact hdisj (List.mem_map_of_mem _ hp) (hq' ▸ List.mem_map_of_mem _ hq)
        rw [hno]
        simp only [List.map_append, List.flatten_append, List.map_cons, List.map_nil,
          List.flatten_cons, List.flatten_nil, List.append_nil]
        rw [List.append_assoc]
        exact (List.Perm.append_left _ h3).trans hst

/-- Generic selection fold over `List.range n` stays below `n`. -/
theorem foldl_range_sel_lt (n : ℕ) (hn : 0 < n) (f : ℕ → ℕ → ℕ)
    (hf : ∀ b k, f b k = k ∨ f b k = b) : (List.range n).foldl f 0 < n := by
  suffices h : ∀ (l : List ℕ) (b : ℕ), b < n → (∀ k ∈ l, k < n) → l.foldl f b < n from
    h (List.range n) 0 hn fun k hk => List.mem_range.mp hk
  intro l
  induction l with
  | nil => exact fun b hb _ => hb
  | cons k l ih =>
      intro b hb hl
      rw [List.foldl_cons]
      refine ih (f b k) ?_ fun k' hk' => hl k' (List.mem_cons_of_mem _ hk')
      rcases hf b k with h | h
      · rw [h]
        exact hl k (List.mem_cons_self k l)
      · rw [h]
        exact hb

theorem leastTimeIdx_lt (routes : List RouteOptimization) (h : routes ≠ []) :
    leastTimeIdx routes < routes.length := by
  unfold leastTimeIdx
  refine foldl_range_sel_lt routes.length (List.length_pos.mpr h) _ ?_
  intro b k
  dsimp only
  split
  · exact Or.inl rfl
  · exact Or.inr rfl

theorem appendLeftover_ne_nil (routes : List RouteOptimization)
    (p : OptimizedPickup) (h : routes ≠ []) : appendLeftover routes p ≠ [] := by
  unfold appendLeftover
  split
  · exact h
  · intro hc
    apply h
    have hlen := congrArg List.length hc
    rw [List.length_set] at hlen
    exact List.length_eq_zero.mp hlen

/-- Appending a leftover to the least-time route adds exactly its id to the
collected ids. -/
theorem appendLeftover_ids (routes : List RouteOptimization) (p : OptimizedPickup)
    (h : routes ≠ []) :
    (((appendLeftover routes p).map (·.pickups)).flatten.map (·.pickup_id)).Perm
    (p.pickup_id :: ((routes.map (·.pickups)).flatten.map (·.pickup_id))) := by
  simp only [appendLeftover]
  split
  · rename_i h0
    exact absurd (List.length_eq_zero.mp h0) h
  · have hi : leastTimeIdx routes < routes.length := leastTimeIdx_lt routes h
    rw [List.getD_eq_get routes default hi, List.set_eq_take_append_cons_drop,
      if_pos hi]
    conv_rhs => rw [← List.take_append_drop (leastTimeIdx routes) routes,
      List.drop_eq_get_cons hi]
    simp only [updateRouteMetrics, List.map_append, List.flatten_append, List.map_cons,
      List.flatten_cons, List.append_assoc, List.singleton_append, List.cons_append]
    exact perm_cons_extract _ _ _ _

theorem foldl_appendLeftover_ids :
    ∀ (leftovers : List OptimizedPickup) (routes : List RouteOptimization),
      routes ≠ [] →
      (((leftovers.foldl appendLeftover routes).map (·.pickups)).flatten.map
        (·.pickup_id)).Perm
      (leftovers.map (·.pickup_id) ++
        ((routes.map (·.pickups)).flatten.map (·.pickup_id)))
  | [], routes, _ => by simp
  | p :: ps, routes, h => by
      rw [List.foldl_cons]
      have h1 := foldl_appendLeftover_ids ps (appendLeftover routes p)
        (appendLeftover_ne_nil routes p h)
      refine h1.trans ?_
      refine (List.Perm.append_left _ (appendLeftover_ids routes p h)).trans ?_
      simp only [List.map_cons, List.cons_append]
      exact List.perm_middle

theorem driverAssignment_routes_ne_nil (pickups : List OptimizedPickup)
    (d : String) (ds : List String) (now : ℤ) (hp : pickups ≠ []) :
    (driverAssignment pickups (d :: ds) now).1 ≠ [] := by
  unfold driverAssignment
  rw [List.foldl_cons]
  suffices h : ∀ (l : List String) (st : List RouteOptimization × List OptimizedPickup),
      st.1 ≠ [] →
      (l.foldl (fun (st : List RouteOptimization × List OptimizedPickup) driver =>
        if st.2.length = 0 then st
        else
          let rr := createOptimalRoute driver st.2 now
          let remaining := rr.1.pickups.foldl
            (fun rem p => rem.eraseP fun q => q.pickup_id == p.pickup_id) rr.2
          (st.1 ++ [rr.1], remaining)) st).1 ≠ [] by
    apply h
    dsimp only
    rw [if_neg fun h0 => hp (List.length_eq_zero.mp h0)]
    simp
  intro l
  induction l with
  | nil => exact fun st h => h
  | cons e l ih =>
      intro st hst
      rw [List.foldl_cons]
      apply ih
      dsimp only
      split
      · exact hst
      · simp

/-- Claim C9: with at least one driver and distinct candidate pickup ids
(as the `PU<epoch>_<counter>` ids of `generatePickupSuggestions` always
are), the routes returned by `optimizeRoutes` carry every candidate exactly
once: the pickup ids concatenated over all routes are a permutation of the
candidates' ids — nothing is dropped and nothing is assigned twice. -/
theorem pickup_conservation (pickups : List OptimizedPickup)
    (drivers : List String) (now : ℤ)
    (hnd : (pickups.map (·.pickup_id)).Nodup) (hdr : drivers ≠ []) :
    (((optimizeRoutes pickups drivers now).map (·.pickups)).flatten.map
      (·.pickup_id)).Perm (pickups.map (·.pickup_id)) := by
  have hda := driverAssignment_ids pickups drivers now hnd
  show ((((driverAssignment pickups drivers now).2.foldl appendLeftover
      (driverAssignment pickups drivers now).1).map (·.pickups)).flatten.map
      (·.pickup_id)).Perm (pickups.map (·.pickup_id))
  by_cases hp : pickups = []
  · subst hp
    have h0 := hda
    simp only [List.map_nil] at h0
    obtain ⟨hF, hB⟩ := List.append_eq_nil.mp (List.perm_nil.mp h0)
    have hst2 : (driverAssignment [] drivers now).2 = [] := List.map_eq_nil.mp hB
    rw [hst2]
    simp only [List.foldl_nil, List.map_nil]
    rw [hF]
  · obtain ⟨d, ds, rfl⟩ := List.exists_cons_of_ne_nil hdr
    have hne := driverAssignment_routes_ne_nil pickups d ds now hp
    have h1 := foldl_appendLeftover_ids ((driverAssignment pickups (d :: ds) now).2)
      ((driverAssignment pickups (d :: ds) now).1) hne
    exact h1.trans (List.perm_append_comm.trans hda)

set_option maxRecDepth 100000 in
/-- Witness for claim C9: five distinctly-numbered candidates, one driver;
four ride the built route, the fifth arrives through the leftover append. -/
theorem pickup_conservation_witness :
    ((generatePickupSuggestions trackerEnvC1 trackerInputC1
        (analyzeLocationPatterns trackerEnvC1 trackerInputC1.available_locations)).map
      (·.pickup_id)).Nodup ∧
    (((optimizeRoutes (generatePickupSuggestions trackerEnvC1 trackerInputC1
          (analyzeLocationPatterns trackerEnvC1 trackerInputC1.available_locations))
        trackerInputC1.available_drivers 0).map (·.pickups)).flatten.map
      (·.pickup_id)).Perm
    ((generatePickupSuggestions trackerEnvC1 trackerInputC1
        (analyzeLocationPatterns trackerEnvC1 trackerInputC1.available_locations)).map
      (·.pickup_id)) :=
  ⟨by with_unfolding_all decide,
   pickup_conservation _ _ 0 (by with_unfolding_all decide) (by decide)⟩

set_option maxRecDepth 100000 in
/-- Witness for claim C1: a single candidate and a single driver leave no
leftovers. -/
theorem route_caps_witness :
    (driverAssignment (generatePickupSuggestions trackerEnvC1 trackerInputC4
        (analyzeLocationPatterns trackerEnvC1 trackerInputC4.available_locations))
      trackerInputC4.available_drivers 0).2 = [] ∧
    ((optimizePickups trackerEnvC1 trackerInputC4 0).optimized_routes).Forall
      (fun r => r.pickups.length ≤ 4 ∧ r.total_volume ≤ 200) :=
  ⟨by with_unfolding_all decide,
   route_caps trackerEnvC1 trackerInputC4 0 (by with_unfolding_all decide)⟩

end TrackerService

/-- The `Math.round` is monotone. -/
theorem jsRound_le_jsRound {a b : ℚ} (h : a ≤ b) : jsRound a ≤ jsRound b := by
  unfold jsRound
  show ⌊a + 1/2⌋ ≤ ⌊b + 1/2⌋
  exact Int.floor_le_floor (by linarith)

/-- The `Math.round` fixes integers. -/
theorem jsRound_intCast (k : ℤ) : jsRound (k : ℚ) = k := by
  unfold jsRound
  show ⌊(k : ℚ) + 1/2⌋ = k
  rw [add_comm, Int.floor_add_int]
  norm_num

theorem jsRound_nonneg {a : ℚ} (h : 0 ≤ a) : 0 ≤ jsRound a := by
  unfold jsRound
  show (0 : ℤ) ≤ ⌊a + 1/2⌋
  rw [Int.floor_nonneg]
  linarith

/-- Rounding an integer scaled down by a factor `≤ 1` stays below the
integer. -/
theorem round_scale_le (k : ℤ) (w : ℚ) (hk : 0 ≤ (k : ℚ)) (hw1 : w ≤ 1) :
    (↑(jsRound ((k : ℚ) * w)) : ℚ) ≤ (k : ℚ) := by
  calc (↑(jsRound ((k : ℚ) * w)) : ℚ) ≤ ↑(jsRound ((k : ℚ))) := by
        exact_mod_cast jsRound_le_jsRound (mul_le_of_le_one_right hk hw1)
    _ = (k : ℚ) := by rw [jsRound_intCast]

namespace PlannerService

theorem getCategoryDemandFactor_pos (c : String) : 0 < getCategoryDemandFactor c := by
  unfold getCategoryDemandFactor
  split <;> norm_num

theorem calculateBaseQuantity_nonneg (item : MenuPlanning) (s : ℚ)
    (hs : 0 ≤ s) (hpop : 0 ≤ item.popularity_score) :
    0 ≤ calculateBaseQuantity item s := by
  simp only [calculateBaseQuantity]
  have hx : 0 ≤ s * (item.popularity_score / 10) *
      getCategoryDemandFactor item.menu_category * (3/10) :=
    mul_nonneg (mul_nonneg (mul_nonneg hs (div_nonneg hpop (by norm_num)))
      (le_of_lt (getCategoryDemandFactor_pos _))) (by norm_num)
  exact_mod_cast jsRound_nonneg hx

/-- The recommendation's actual cost never exceeds the estimated cost the
greedy budget check used: the waste adjustment scales the (integer) base
quantity down and rounding cannot climb back above it. -/
theorem recommendation_cost_le (input : PlannerInput) (s : ScoredItem)
    (hpop : 0 ≤ s.item.popularity_score)
    (hcps : 0 ≤ s.item.ingredient_cost_per_serving)
    (hstud : 0 ≤ input.estimated_students)
    (hwaste : ∀ d ∈ s.historical_data, 0 ≤ d.waste_percentage) :
    (generateRecommendation s input).recommended_quantity *
      (generateRecommendation s input).cost_per_serving ≤
    estimateItemCost s.item input.estimated_students := by
  have hwa1 : (if s.historical_data.length ≠ 0 then
      jsMax (7/10) (1 - listAvg (s.historical_data.map (·.waste_percentage)) / 100)
      else (1 : ℚ)) ≤ 1 := by
    split
    · have havg : 0 ≤ listAvg (s.historical_data.map (·.waste_percentage)) := by
        unfold listAvg
        refine div_nonneg (List.sum_nonneg ?_) (by positivity)
        intro x hx
        obtain ⟨d, hd, rfl⟩ := List.mem_map.mp hx
        exact hwaste d hd
      refine max_le (by norm_num) (by linarith)
    · exact le_refl 1
  simp only [generateRecommendation, estimateItemCost]
  refine mul_le_mul_of_nonneg_right ?_ hcps
  obtain ⟨k, hk⟩ : ∃ k : ℤ,
      calculateBaseQuantity s.item input.estimated_students = (k : ℚ) := ⟨_, rfl⟩
  have hk0 : (0 : ℚ) ≤ (k : ℚ) :=
    hk ▸ calculateBaseQuantity_nonneg s.item _ hstud hpop
  rw [hk]
  exact round_scale_le k _ hk0 hwa1

/-- Greedy-phase invariant: the accumulated `total_cost` is the sum of the
estimated costs of the selected items and never exceeds a truthy budget. -/
theorem greedySelection_cost (scored : List ScoredItem) (input : PlannerInput)
    (b : ℚ) (hb : input.budget_constraint = some b) (hbne : b ≠ 0) (hbnn : 0 ≤ b) :
    ((greedySelection scored input).selected.map
      fun s => estimateItemCost s.item input.estimated_students).sum =
      (greedySelection scored input).total_cost ∧
    (greedySelection scored input).total_cost ≤ b := by
  unfold greedySelection
  suffices h : ∀ (l : List ScoredItem) (st : SelectState),
      (st.selected.map fun s => estimateItemCost s.item input.estimated_students).sum
        = st.total_cost →
      st.total_cost ≤ b →
      (((l.foldl (selectStep input) st).selected.map
        fun s => estimateItemCost s.item input.estimated_students).sum
        = (l.foldl (selectStep input) st).total_cost) ∧
      (l.foldl (selectStep input) st).total_cost ≤ b from
    h _ _ rfl hbnn
  intro l
  induction l with
  | nil => exact fun st h1 h2 => ⟨h1, h2⟩
  | cons x l ih =>
      intro st h1 h2
      rw [List.foldl_cons]
      apply ih
      · simp only [selectStep]
        split
        · simp [h1]
        · exact h1
      · simp only [selectStep]
        split
        · rename_i hcond
          obtain ⟨-, -, hba⟩ := hcond
          rw [hb] at hba
          simp only [budgetAllows, Bool.or_eq_true, beq_iff_eq, decide_eq_true_eq] at hba
          rcases hba with hba | hba
          · exact absurd hba hbne
          · simpa using hba
        · exact h2

/-- Greedy-phase membership: every selected item comes from the scored
pool. -/
theorem greedySelection_subset (scored : List ScoredItem) (input : PlannerInput) :
    ∀ s ∈ (greedySelection scored input).selected, s ∈ scored := by
  unfold greedySelection
  suffices h : ∀ (l : List ScoredItem) (st : SelectState),
      (∀ s ∈ st.selected, s ∈ scored) → (∀ x ∈ l, x ∈ scored) →
      ∀ s ∈ (l.foldl (selectStep input) st).selected, s ∈ scored from
    h _ _ (by simp) fun x hx => (List.mergeSort_perm scored _).subset hx
  intro l
  induction l with
  | nil => exact fun st hst _ => hst
  | cons x l ih =>
      intro st hst hl
      rw [List.foldl_cons]
      refine ih _ ?_ fun y hy => hl y (List.mem_cons_of_mem _ hy)
      simp only [selectStep]
      split
      · intro s hs
        rcases List.mem_append.mp hs with hsl | hsl
        · exact hst s hsl
        · rw [List.mem_singleton.mp hsl]
          exact hl x (List.mem_cons_self x l)
      · exact hst

/-- The back-fill loop only adds items drawn from the sorted pool. -/
theorem backfill_subset (sorted : List ScoredItem) (counts : String → ℕ)
    (P : ScoredItem → Prop) (hsorted : ∀ x ∈ sorted, P x) :
    ∀ (cats : List String) (sel : List ScoredItem), (∀ s ∈ sel, P s) →
    ∀ s ∈ cats.foldl (fun selected category =>
        if counts category = 0 then
          match sorted.find? fun item =>
              item.item.menu_category == category && !(selected.contains item) with
          | some fallback_item => selected ++ [fallback_item]
          | none => selected
        else selected) sel, P s := by
  intro cats
  induction cats with
  | nil => exact fun sel hsel => hsel
  | cons c cats ih =>
      intro sel hsel
      rw [List.foldl_cons]
      apply ih
      split
      · split
        · rename_i fb hfb
          intro s hs
          rcases List.mem_append.mp hs with hsl | hsl
          · exact hsel s hsl
          · rw [List.mem_singleton.mp hsl]
            exact hsorted fb (List.mem_of_find?_eq_some hfb)
        · exact hsel
      · exact hsel

/-- When every target category received a greedy selection, the back-fill
loop is the identity. -/
theorem backfill_id (sorted : List ScoredItem) (counts : String → ℕ) :
    ∀ (cats : List String) (sel : List ScoredItem),
      (∀ c ∈ cats, counts c ≠ 0) →
      cats.foldl (fun selected category =>
        if counts category = 0 then
          match sorted.find? fun item =>
              item.item.menu_category == category && !(selected.contains item) with
          | some fallback_item => selected ++ [fallback_item]
          | none => selected
        else selected) sel = sel := by
  intro cats
  induction cats with
  | nil => exact fun sel _ => rfl
  | cons c cats ih =>
      intro sel hc
      rw [List.foldl_cons, if_neg (hc c (List.mem_cons_self c cats))]
      exact ih sel fun c' hc' => hc c' (List.mem_cons_of_mem _ hc')

/-- Every item delivered by `selectOptimalCombination` comes from the
scored pool. -/
theorem selectOptimalCombination_subset (env : Env) (scored : List ScoredItem)
    (input : PlannerInput) :
    ∀ s ∈ selectOptimalCombination env scored input, s ∈ scored := by
  unfold selectOptimalCombination
  intro s hs
  exact backfill_subset _ _ _
    (fun x hx => (List.mergeSort_perm scored _).subset hx)
    input.target_categories _ (greedySelection_subset scored input) s hs

/-- With every target category served by the greedy phase, the final
selection is exactly the greedy one. -/
theorem selectOptimalCombination_eq_greedy (env : Env) (scored : List ScoredItem)
    (input : PlannerInput)
    (hfill : ∀ c ∈ input.target_categories,
      (greedySelection scored input).counts c ≠ 0) :
    selectOptimalCombination env scored input
      = (greedySelection scored input).selected := by
  unfold selectOptimalCombination
  exact backfill_id _ _ input.target_categories _ hfill

/-- Claim C2 (amended): every recommended item's category is one of the
requested target categories; and with a positive budget, nonnegative
catalog and history data, and a greedy phase that serves every target
category (so the back-fill, which performs no budget check, stays idle),
the returned `total_cost` stays within the budget. -/
theorem menu_category_and_budget :
    (∀ (env : Env) (input : PlannerInput),
      (optimizeMenu env input).recommended_menu.Forall
        fun r => r.category ∈ input.target_categories) ∧
    (∀ (env : Env) (input : PlannerInput) (b : ℚ),
      input.budget_constraint = some b → 0 < b →
      0 ≤ input.estimated_students →
      (∀ m ∈ env.menu_data, 0 ≤ m.popularity_score) →
      (∀ m ∈ env.menu_data, 0 ≤ m.ingredient_cost_per_serving) →
      (∀ d ∈ env.production_data, 0 ≤ d.waste_percentage) →
      (∀ c ∈ input.target_categories,
        (greedySelection (scoredAvailable env input) input).counts c ≠ 0) →
      (optimizeMenu env input).total_cost ≤ b) := by
  constructor
  · intro env input
    rw [List.forall_iff_forall_mem]
    intro r hr
    have heq : (optimizeMenu env input).recommended_menu =
        (selectOptimalCombination env (scoredAvailable env input) input).map
          fun s => generateRecommendation s input := rfl
    rw [heq] at hr
    obtain ⟨s, hs, rfl⟩ := List.mem_map.mp hr
    have hmem := selectOptimalCombination_subset env _ input s hs
    obtain ⟨item, hitem, rfl⟩ := List.mem_map.mp hmem
    show item.menu_category ∈ input.target_categories
    have hfil := List.of_mem_filter hitem
    simp only [Bool.and_eq_true] at hfil
    exact List.elem_iff.mp hfil.1
  · intro env input b hb hbpos hstud hpop hcps hwaste hfill
    have hsel := selectOptimalCombination_eq_greedy env (scoredAvailable env input)
      input hfill
    have heq : (optimizeMenu env input).total_cost =
        (((selectOptimalCombination env (scoredAvailable env input) input).map
          fun s => generateRecommendation s input).map
            fun r => r.recommended_quantity * r.cost_per_serving).sum := rfl
    rw [heq, hsel, List.map_map]
    obtain ⟨hsum, hle⟩ := greedySelection_cost (scoredAvailable env input) input b hb
      (ne_of_gt hbpos) (le_of_lt hbpos)
    have hpt : ∀ s ∈ (greedySelection (scoredAvailable env input) input).selected,
        ((fun r => r.recommended_quantity * r.cost_per_serving) ∘
          fun s => generateRecommendation s input) s ≤
        estimateItemCost s.item input.estimated_students := by
      intro s hs
      have hmem := greedySelection_subset (scoredAvailable env input) input s hs
      obtain ⟨item, hitem, rfl⟩ := List.mem_map.mp hmem
      have hitem' : item ∈ env.menu_data := List.mem_of_mem_filter hitem
      refine recommendation_cost_le input _ ?_ ?_ hstud ?_
      · exact hpop item hitem'
      · exact hcps item hitem'
      · intro d hd
        exact hwaste d (List.mem_of_mem_filter hd)
    calc ((greedySelection (scoredAvailable env input) input).selected.map
          ((fun r => r.recommended_quantity * r.cost_per_serving) ∘
            fun s => generateRecommendation s input)).sum
        ≤ ((greedySelection (scoredAvailable env input) input).selected.map
          fun s => estimateItemCost s.item input.estimated_students).sum :=
          List.sum_le_sum hpt
      _ = (greedySelection (scoredAvailable env input) input).total_cost := hsum
      _ ≤ b := hle

/-- Claim C2 counterexample: a $40 budget no estimated cost fits, although
`Beta Bowl` alone is feasible at an actual cost of $34.  The greedy phase
selects nothing, the budget-blind back-fill then adds the top-scored
`Alpha Wrap`, and the returned `total_cost` of $480 exceeds the budget. -/
theorem menu_budget_counterexample :
    feasibleMenuChoice plannerEnvC2 plannerInputC2 40 ∧
    plannerInputC2.budget_constraint = some 40 ∧
    (optimizeMenu plannerEnvC2 plannerInputC2).total_cost = 480 ∧
    ¬ ((480 : ℚ) ≤ 40) :=
  ⟨⟨[lunchItemB], by with_unfolding_all decide, by with_unfolding_all decide,
    by with_unfolding_all decide⟩,
   rfl, by with_unfolding_all decide, by norm_num⟩

/-- Witness for claim C2 at a $60 budget: the greedy phase selects the
`lunch` item `Beta Bowl`, the back-fill stays idle, and the returned cost
stays within budget. -/
theorem menu_category_and_budget_witness :
    (optimizeMenu plannerEnvC2 plannerInputC2w).recommended_menu.Forall
      (fun r => r.category ∈ plannerInputC2w.target_categories) ∧
    (optimizeMenu plannerEnvC2 plannerInputC2w).total_cost ≤ 60 :=
  ⟨menu_category_and_budget.1 plannerEnvC2 plannerInputC2w,
   menu_category_and_budget.2 plannerEnvC2 plannerInputC2w 60 rfl (by norm_num)
     (by with_unfolding_all decide) (by with_unfolding_all decide)
     (by with_unfolding_all decide) (by with_unfolding_all decide)
     (by with_unfolding_all decide)⟩

end PlannerService

/-- Folding two step functions that preserve a relation preserves it. -/
theorem foldl_rel {α β : Type} (R : β → β → Prop) (f g : β → α → β)
    (hfg : ∀ b b', R b b' → ∀ a, R (f b a) (g b' a)) :
    ∀ (l : List α) (b b' : β), R b b' → R (l.foldl f b) (l.foldl g b')
  | [], _, _, h => h
  | a :: l, b, b', h => foldl_rel R f g hfg l _ _ (hfg b b' h a)

namespace TrackerService

/-- The `stripRouteId` commutes with list indexing at the default route. -/
theorem strip_getD (routes : List RouteOptimization) (k : ℕ) :
    stripRouteId (routes.getD k default)
      = (routes.map stripRouteId).getD k default := by
  induction routes generalizing k with
  | nil => cases k <;> rfl
  | cons r rs ih =>
      cases k with
      | zero => rfl
      | succ k => simpa using ih k

/-- Strip-equal route lists have the same least-time index. -/
theorem leastTimeIdx_congr (routes routes' : List RouteOptimization)
    (h : routes.map stripRouteId = routes'.map stripRouteId) :
    leastTimeIdx routes = leastTimeIdx routes' := by
  have hlen : routes.length = routes'.length := by
    have := congrArg List.length h
    simpa using this
  have htime : ∀ k, (routes.getD k default).total_time
      = (routes'.getD k default).total_time := by
    intro k
    have h1 := strip_getD routes k
    rw [h, ← strip_getD routes' k] at h1
    exact congrArg (·.total_time) h1
  unfold leastTimeIdx
  rw [hlen]
  apply List.foldl_ext
  intro b k hk
  rw [htime k, htime b]

/-- The `appendLeftover` respects strip-equality of route lists. -/
theorem appendLeftover_congr (routes routes' : List RouteOptimization)
    (p : OptimizedPickup)
    (h : routes.map stripRouteId = routes'.map stripRouteId) :
    (appendLeftover routes p).map stripRouteId
      = (appendLeftover routes' p).map stripRouteId := by
  have hlen : routes.length = routes'.length := by
    have := congrArg List.length h
    simpa using this
  simp only [appendLeftover]
  rw [hlen]
  split
  · exact h
  · have hidx := leastTimeIdx_congr routes routes' h
    rw [hidx, List.map_set, List.map_set, h]
    congr 1
    have hbest : stripRouteId (routes.getD (leastTimeIdx routes') default)
        = stripRouteId (routes'.getD (leastTimeIdx routes') default) := by
      rw [strip_getD, strip_getD, h]
    have hp : (routes.getD (leastTimeIdx routes') default).pickups
        = (routes'.getD (leastTimeIdx routes') default).pickups :=
      congrArg (·.pickups) hbest
    have hd : (routes.getD (leastTimeIdx routes') default).driver
        = (routes'.getD (leastTimeIdx routes') default).driver :=
      congrArg (·.driver) hbest
    have hl : (routes.getD (leastTimeIdx routes') default).locations
        = (routes'.getD (leastTimeIdx routes') default).locations :=
      congrArg (·.locations) hbest
    simp only [stripRouteId, updateRouteMetrics]
    rw [hp, hd, hl]

theorem foldl_appendLeftover_congr (leftovers : List OptimizedPickup) :
    ∀ (routes routes' : List RouteOptimization),
      routes.map stripRouteId = routes'.map stripRouteId →
      (leftovers.foldl appendLeftover routes).map stripRouteId
        = (leftovers.foldl appendLeftover routes').map stripRouteId := by
  induction leftovers with
  | nil => exact fun _ _ h => h
  | cons p ps ih =>
      intro routes routes' h
      rw [List.foldl_cons, List.foldl_cons]
      exact ih _ _ (appendLeftover_congr routes routes' p h)

/-- The `createOptimalRoute` reads the clock only for `route_id`. -/
theorem createOptimalRoute_strip (driver : String)
    (available : List OptimizedPickup) (now now' : ℤ) :
    stripRouteId (createOptimalRoute driver available now).1
      = stripRouteId (createOptimalRoute driver available now').1 ∧
    (createOptimalRoute driver available now).2
      = (createOptimalRoute driver available now').2 :=
  ⟨rfl, rfl⟩

/-- The driver phase reads the clock only for the route ids. -/
theorem driverAssignment_strip (pickups : List OptimizedPickup)
    (drivers : List String) (now now' : ℤ) :
    (driverAssignment pickups drivers now).1.map stripRouteId
      = (driverAssignment pickups drivers now').1.map stripRouteId ∧
    (driverAssignment pickups drivers now).2
      = (driverAssignment pickups drivers now').2 := by
  unfold driverAssignment
  refine foldl_rel
    (fun st st' => st.1.map stripRouteId = st'.1.map stripRouteId ∧ st.2 = st'.2)
    _ _ ?_ drivers ([], pickups) ([], pickups) ⟨rfl, rfl⟩
  intro st st' hr d
  obtain ⟨h1, h2⟩ := hr
  dsimp only
  rw [h2]
  split
  · exact ⟨h1, h2⟩
  · constructor
    · rw [List.map_append, List.map_append, h1]
      congr 1
    · have hp : (createOptimalRoute d st'.2 now).1.pickups
          = (createOptimalRoute d st'.2 now').1.pickups :=
        congrArg (·.pickups) (createOptimalRoute_strip d st'.2 now now').1
      rw [hp, (createOptimalRoute_strip d st'.2 now now').2]

/-- The whole route phase reads the clock only for the route ids. -/
theorem optimizeRoutes_strip (pickups : List OptimizedPickup)
    (drivers : List String) (now now' : ℤ) :
    (optimizeRoutes pickups drivers now).map stripRouteId
      = (optimizeRoutes pickups drivers now').map stripRouteId := by
  obtain ⟨h1, h2⟩ := driverAssignment_strip pickups drivers now now'
  show ((driverAssignment pickups drivers now).2.foldl appendLeftover
      (driverAssignment pickups drivers now).1).map stripRouteId = _
  rw [h2]
  exact foldl_appendLeftover_congr _ _ _ h1

/-- The totals read only strip-invariant route fields. -/
theorem calculateTotals_congr :
    ∀ (routes routes' : List RouteOptimization),
      routes.map stripRouteId = routes'.map stripRouteId →
      calculateTotals routes = calculateTotals routes' := by
  suffices h : ∀ (routes routes' : List RouteOptimization) (t : Totals),
      routes.map stripRouteId = routes'.map stripRouteId →
      routes.foldl
        (fun t route =>
          route.pickups.foldl
            (fun t p => { t with meals := t.meals + p.estimated_volume * (5/2)
                                 co2 := t.co2 + p.estimated_volume * (16/5) })
            { t with volume := t.volume + route.total_volume
                     cost := t.cost + route.total_cost }) t
        = routes'.foldl
        (fun t route =>
          route.pickups.foldl
            (fun t p => { t with meals := t.meals + p.estimated_volume * (5/2)
                                 co2 := t.co2 + p.estimated_volume * (16/5) })
            { t with volume := t.volume + route.total_volume
                     cost := t.cost + route.total_cost }) t from
    fun routes routes' hr => h routes routes' _ hr
  intro routes
  induction routes with
  | nil =>
      intro routes' t h
      have : routes' = [] := by
        rcases routes' with - | ⟨r', rs'⟩
        · rfl
        · simp at h
      rw [this]
  | cons r rs ih =>
      intro routes' t h
      rcases routes' with - | ⟨r', rs'⟩
      · simp at h
      · simp only [List.map_cons, List.cons.injEq] at h
        obtain ⟨hr, hrs⟩ := h
        rw [List.foldl_cons, List.foldl_cons]
        have hv : r.total_volume = r'.total_volume := congrArg (·.total_volume) hr
        have hc : r.total_cost = r'.total_cost := congrArg (·.total_cost) hr
        have hp : r.pickups = r'.pickups := congrArg (·.pickups) hr
        rw [hv, hc, hp]
        exact ih rs' _ hrs

/-- The tracker output depends on the clock only through the route ids. -/
theorem optimizePickups_strip (env : Env) (input : PickupOptimizationInput)
    (now now' : ℤ) :
    stripRouteIds (optimizePickups env input now)
      = stripRouteIds (optimizePickups env input now') := by
  have hor := optimizeRoutes_strip
    (generatePickupSuggestions env input
      (analyzeLocationPatterns env input.available_locations))
    input.available_drivers now now'
  have htot := calculateTotals_congr _ _ hor
  simp only [stripRouteIds, optimizePickups]
  rw [hor, htot]

end TrackerService

/-- Claim C4 (amended): every calculator is a pure function of its loaded
state, inputs and explicit oracles, with two clock/randomness escapes
rather than the claim's single one: the tracker's `route_id` embeds
`Date.now()` (only the id-stripped tracker output is reproducible) and the
impact comparison's `percentage_change` embeds `Math.random()` (the claim's
documented exception; everything else in the comparison is
draw-independent). -/
theorem calculator_determinism (env : TrackerService.Env)
    (input : TrackerService.PickupOptimizationInput) (now now' : ℤ)
    (data : List ImpactTracking) (periods : List String) (rand rand' : ℕ → ℚ) :
    TrackerService.stripRouteIds (TrackerService.optimizePickups env input now)
      = TrackerService.stripRouteIds (TrackerService.optimizePickups env input now') ∧
    (ImpactService.getHistoricalComparison data periods rand).map
        ImpactService.stripPercentageChange
      = (ImpactService.getHistoricalComparison data periods rand').map
        ImpactService.stripPercentageChange := by
  constructor
  · exact TrackerService.optimizePickups_strip env input now now'
  · simp only [ImpactService.getHistoricalComparison, List.map_map]
    refine List.map_congr_left fun p hp => ?_
    rfl

set_option maxRecDepth 100000 in
/-- Claim C4 counterexample: the same tracker state and input at two
different clock readings give different outputs (the route ids differ), so
`getHistoricalComparison.percentage_change` is not the single
nondeterministic escape. -/
theorem clock_dependence_counterexample :
    TrackerService.optimizePickups trackerEnvC1 trackerInputC4 0
      ≠ TrackerService.optimizePickups trackerEnvC1 trackerInputC4 1 := by
  with_unfolding_all decide

/-- Claim C8 counterexample: with the catalog stored out of popularity
order and no constraints, the suggestion lookup reorders the stored
`menu_data` itself. -/
theorem calculator_frame_counterexample :
    plannerEnvC8.menu_data = [lunchItemB, lunchItemA] ∧
    (PlannerService.getMenuSuggestions plannerEnvC8
      { max_prep_time := none, dietary_restrictions := none,
        cost_limit := none }).2.menu_data = [lunchItemA, lunchItemB] ∧
    [lunchItemA, lunchItemB] ≠ [lunchItemB, lunchItemA] := by
  refine ⟨rfl, ?_, ?_⟩
  · with_unfolding_all decide
  · with_unfolding_all decide

end ReFood
